import Mathlib

/-!
# The voxel world controller of MGLCraft (`source/game/world.h`)

A shallow embedding of `game::world`: the placement state (scale, cached and
locked preview offset, edit mode), the block placement and removal
transactions, the force based character movement and the per frame update.

Conventions of the embedding

* `float` values are exact rationals (`ℚ`); rounding, NaN and infinities are
  outside the model.
* `unsigned` values are naturals reduced modulo `2^32` where the code adds.
* Every call the controller makes on one of its collaborators (grid, vertex
  buffers, particle system, physics body, navigator) is appended to the ghost
  field `world.calls`, so that "exactly once" and ordering properties can be
  stated.
* `game::stats` (`source/game/stats.h`) and the stream slots of
  `game::ui_text` (`source/game/ui_text.h`) are embedded after the controller;
  `uint16_t` increments are reduced modulo `2^16`.
* `game/cgrid.h`, `game/ai_path.h` and `game/explode_particle.h` belong to the
  repository but are not among the sources; they are modelled from the
  specification. The `min::` library (vectors, rays, physics) is external and
  its numeric routines are parameters (`min_lib`).
-/

namespace game

/-! ## Vectors, rays, boxes and meshes (`min::`) -/

/-- Three component vector, `min::vec3<T>`. -/
structure vec3 (α : Type) where
  x : α
  y : α
  z : α
deriving DecidableEq, Repr

namespace vec3

/-- Component wise sum, `operator+`. -/
def add (a b : vec3 ℚ) : vec3 ℚ := ⟨a.x + b.x, a.y + b.y, a.z + b.z⟩

/-- Component wise difference, `operator-`. -/
def sub (a b : vec3 ℚ) : vec3 ℚ := ⟨a.x - b.x, a.y - b.y, a.z - b.z⟩

/-- Multiplication by a scalar, `operator*(T)`. -/
def scale (a : vec3 ℚ) (s : ℚ) : vec3 ℚ := ⟨a.x * s, a.y * s, a.z * s⟩

end vec3

/-- Ray with origin and direction, `min::ray<float, min::vec3>`. -/
structure ray where
  origin : vec3 ℚ
  direction : vec3 ℚ
deriving DecidableEq, Repr

/-- Axis aligned box, `min::aabbox<float, min::vec3>`. -/
structure aabbox where
  min : vec3 ℚ
  max : vec3 ℚ
deriving DecidableEq, Repr

/-- Triangle mesh, `min::mesh<float, uint32_t>`: only the vertex and index
lists matter here. -/
structure mesh where
  vertex : List (vec3 ℚ)
  index : List Nat
deriving DecidableEq, Repr

/-- Rigid body, `min::body<float, min::vec3>`: position, linear velocity,
the force accumulated since the last solve, mass and the rotation lock. -/
structure body where
  position : vec3 ℚ
  linear_velocity : vec3 ℚ
  force : vec3 ℚ
  mass : ℚ
  no_rotate : Bool
deriving DecidableEq, Repr

namespace body

/-- The accumulating `body::add_force`. -/
def add_force (b : body) (f : vec3 ℚ) : body := { b with force := b.force.add f }

/-- The flag setter `body::set_no_rotate`. -/
def set_no_rotate (b : body) : body := { b with no_rotate := true }

end body

/-- Numeric routines of the external `min::` library that the controller
calls: `vec3::normalize`, `vec3::magnitude`, the two point constructor of
`min::ray` and `physics::solve_static` applied to the character body
(collision boxes, body, time step, damping). -/
structure min_lib where
  normalize : vec3 ℚ → vec3 ℚ
  magnitude : vec3 ℚ → ℚ
  ray_between : vec3 ℚ → vec3 ℚ → ray
  solve_static : List aabbox → body → ℚ → ℚ → body

/-! ## The grid (`game::cgrid`) -/

/-- Modelled from the spec: `game::cgrid` of `game/cgrid.h`, which is not
among the sources. Voxels are atlas ids indexed by integer cell, `-1` is empty
space. The extent of the grid (`inside`), the ray march, the chunk keys, the
view window, the chunk meshes, the collision cells and the preview box are
left open by the specification and are fields of the grid, fixed for its
lifetime. -/
structure cgrid where
  grid_size : Nat
  chunk_size : Nat
  view_chunk_size : Nat
  inside : vec3 Int → Bool
  voxel : vec3 Int → Int
  atlas : Int
  recent_chunk : Nat
  march_before : (vec3 Int → Int) → ray → ℚ → vec3 ℚ
  march_after : (vec3 Int → Int) → ray → ℚ → vec3 ℚ
  key_of : vec3 ℚ → Nat × Bool
  view_of : Nat → List Nat
  mesh_of : (vec3 Int → Int) → Nat → mesh
  cells_near : (vec3 Int → Int) → vec3 ℚ → List aabbox
  box_of : Int → vec3 ℚ → mesh

namespace cgrid

/-- Modelled from the spec: the voxel cell that contains a point. -/
def cell (p : vec3 ℚ) : vec3 Int := ⟨⌊p.x⌋, ⌊p.y⌋, ⌊p.z⌋⟩

/-- Modelled from the spec: the constructor of `game::cgrid`. A chunk size
that does not divide the grid size is fatal; the grid it otherwise builds
(terrain, extent) is the parameter `proto`. -/
def create (proto : cgrid) (grid_size chunk_size view_chunk_size : Nat) :
    Except String cgrid :=
  if grid_size % chunk_size ≠ 0 then
    Except.error "cgrid: chunk_size must be integer multiple of grid_size"
  else
    Except.ok { proto with
      grid_size := grid_size, chunk_size := chunk_size,
      view_chunk_size := view_chunk_size }

/-- Modelled from the spec: `cgrid::get_atlas`, the atlas id in use. -/
def get_atlas (g : cgrid) : Int := g.atlas

/-- Modelled from the spec: `cgrid::set_atlas`. -/
def set_atlas (g : cgrid) (id : Int) : cgrid := { g with atlas := id }

/-- Modelled from the spec: `cgrid::grid_value`, the atlas id stored at the
cell of a point; a point outside the grid reads as empty (`-1`). -/
def grid_value (g : cgrid) (p : vec3 ℚ) : Int :=
  if g.inside (cell p) then g.voxel (cell p) else -1

/-- Modelled from the spec: the points visited by `set_geometry`, a box
anchored at `start`, `scale` steps per axis, advancing by `offset` per step,
in x major, y, z minor order. -/
def box_points (start : vec3 ℚ) (scale : vec3 Nat) (offset : vec3 Int) :
    List (vec3 ℚ) :=
  (List.range scale.x).flatMap fun i =>
    (List.range scale.y).flatMap fun j =>
      (List.range scale.z).map fun k =>
        ⟨start.x + (i : ℚ) * (offset.x : ℚ),
         start.y + (j : ℚ) * (offset.y : ℚ),
         start.z + (k : ℚ) * (offset.z : ℚ)⟩

/-- Modelled from the spec: one voxel write of `set_geometry`. A cell outside
the grid is clipped; a write that turns a non-empty voxel into an empty one
is counted. -/
def write_cell (atlas_id : Int) (acc : (vec3 Int → Int) × Nat)
    (inside : vec3 Int → Bool) (c : vec3 Int) : (vec3 Int → Int) × Nat :=
  if inside c then
    (fun d => if d = c then atlas_id else acc.1 d,
     if acc.1 c ≠ -1 ∧ atlas_id = -1 then acc.2 + 1 else acc.2)
  else acc

/-- Modelled from the spec: `cgrid::set_geometry(point, scale, offset,
atlas_id) -> removed_count`. -/
def set_geometry (g : cgrid) (point : vec3 ℚ) (scale : vec3 Nat)
    (offset : vec3 Int) (atlas_id : Int) : cgrid × Nat :=
  let r := (box_points point scale offset).foldl
    (fun acc p => write_cell atlas_id acc g.inside (cell p)) (g.voxel, 0)
  ({ g with voxel := r.1 }, r.2)

/-- Modelled from the spec: `cgrid::ray_trace_before(ray, max_dist)`. -/
def ray_trace_before (g : cgrid) (r : ray) (max_dist : ℚ) : vec3 ℚ :=
  g.march_before g.voxel r max_dist

/-- Modelled from the spec: `cgrid::ray_trace_after(ray, max_dist)`. -/
def ray_trace_after (g : cgrid) (r : ray) (max_dist : ℚ) : vec3 ℚ :=
  g.march_after g.voxel r max_dist

/-- Modelled from the spec: `cgrid::chunk_key(point, &valid)`. -/
def chunk_key (g : cgrid) (p : vec3 ℚ) : Nat × Bool := g.key_of p

/-- Modelled from the spec: `cgrid::get_recent_chunk`. -/
def get_recent_chunk (g : cgrid) : Nat := g.recent_chunk

/-- Modelled from the spec: `cgrid::update(chunk_key)`, which records the
recent chunk (the view window follows from it) and rebuilds no mesh. -/
def update_chunk (g : cgrid) (key : Nat) : cgrid := { g with recent_chunk := key }

/-- Modelled from the spec: `cgrid::update(position)`. -/
def update_position (g : cgrid) (p : vec3 ℚ) : cgrid :=
  { g with recent_chunk := (g.key_of p).1 }

/-- Modelled from the spec: `cgrid::get_view_chunks`, the ordered chunk keys
within view distance of the recent chunk. -/
def get_view_chunks (g : cgrid) : List Nat := g.view_of g.recent_chunk

/-- Modelled from the spec: `cgrid::get_chunk(key)`, the mesh of one chunk,
a function of the voxel content. -/
def get_chunk (g : cgrid) (key : Nat) : mesh := g.mesh_of g.voxel key

/-- Modelled from the spec: `cgrid::create_collision_cells(point)`. -/
def create_collision_cells (g : cgrid) (p : vec3 ℚ) : List aabbox :=
  g.cells_near g.voxel p

/-- Modelled from the spec: `cgrid::atlas_box(point)`, the preview box. -/
def atlas_box (g : cgrid) (p : vec3 ℚ) : mesh := g.box_of g.atlas p

end cgrid

/-! ## Particles and navigation -/

/-- Modelled from the spec: the particle collaborator of
`game/explode_particle.h` (not among the sources), reduced to the bursts it
was given by `load(origin, direction, strength)`. -/
structure explode_particle where
  bursts : List (vec3 ℚ × vec3 ℚ × ℚ)
deriving DecidableEq, Repr

/-- Modelled from the spec: `explode_particle::load`. -/
def explode_particle.load (s : explode_particle) (origin direction : vec3 ℚ)
    (strength : ℚ) : explode_particle :=
  { s with bursts := s.bursts ++ [(origin, direction, strength)] }

/-- Modelled from the spec: the navigator of `game/ai_path.h` (not among the
sources). `step grid current destination remaining` returns the pair
(next position, direction) and the failure flag. -/
structure ai_path where
  step : cgrid → vec3 ℚ → vec3 ℚ → ℚ → (vec3 ℚ × vec3 ℚ) × Bool

/-- The part of `min::camera<float>` the controller reads. -/
structure camera where
  position : vec3 ℚ
  forward : vec3 ℚ
  project_point : ℚ → vec3 ℚ

/-! ## The controller (`game::world`) -/

/-- One call of the controller on a collaborator, in the order of the source
text. -/
inductive call where
  | grid_set_geometry (point : vec3 ℚ) (scale : vec3 Nat) (offset : vec3 Int)
      (atlas_id : Int)
  | grid_update_position (p : vec3 ℚ)
  | grid_update_chunk (key : Nat)
  | grid_set_atlas (id : Int)
  | grid_collision_cells (p : vec3 ℚ)
  | gb_clear
  | gb_add_mesh (m : mesh)
  | gb_bind
  | gb_upload
  | gb_draw_all
  | pb_clear
  | pb_add_mesh (m : mesh)
  | pb_bind
  | pb_upload
  | pb_draw_all
  | particles_load (origin direction : vec3 ℚ) (strength : ℚ)
  | particles_update (dt : ℚ)
  | particles_draw (dt : ℚ)
  | body_add_force (f : vec3 ℚ)
  | solve_static (dt damping : ℚ)
  | path_step (p dest : vec3 ℚ) (distance : ℚ)
  | uniforms_update (translate : vec3 ℚ)
  | sky_draw
deriving DecidableEq, Repr

/-- State of `game::world`. `_pb` and `_gb` hold the meshes added to the
preview and geometry vertex buffers since their last `clear`; `_character` is
the body `_simulation.get_body(_char_id)`; shaders, textures and uniform
matrices are left out. `calls` is the ghost record of collaborator calls. -/
structure world where
  _pb : List mesh
  _gb : List mesh
  _scale : vec3 Nat
  _cached_offset : vec3 Int
  _preview_offset : vec3 Int
  _edit_mode : Bool
  _grid : cgrid
  _gravity : vec3 ℚ
  _elasticity : ℚ
  _character : body
  _particles : explode_particle
  _path : ai_path
  _ai_mode : Bool
  calls : List call

namespace world

/-- Appends collaborator calls to the ghost record. -/
def record (w : world) (cs : List call) : world := { w with calls := w.calls ++ cs }

/-- The private `world::snap`. -/
def snap (point : vec3 ℚ) : vec3 ℚ :=
  let x := point.x
  let y := point.y
  let z := point.z
  ⟨(⌊x⌋ : ℚ) + 1/2, (⌊y⌋ : ℚ) + 1/2, (⌊z⌋ : ℚ) + 1/2⟩

/-- The loop of `generate_gb` over the view chunk keys: the chunk of each key
is fetched and, when its vertex list is not empty, added to the buffer. -/
def gb_loop (g : cgrid) : List Nat → List mesh → List mesh
  | [], buffer => buffer
  | key :: keys, buffer =>
    let chunk := g.get_chunk key
    if chunk.vertex.length > 0 then gb_loop g keys (buffer ++ [chunk])
    else gb_loop g keys buffer

/-- The content of the geometry buffer after `generate_gb`: the loop over
`get_view_chunks()`, started on the cleared buffer. -/
def gb_meshes (g : cgrid) : List mesh :=
  gb_loop g g.get_view_chunks []

/-- The private `world::generate_gb`: clear, add every non-empty view chunk,
bind, upload. -/
def generate_gb (w : world) : world :=
  let added := gb_meshes w._grid
  { w with _gb := added }.record
    ([call.gb_clear] ++ added.map call.gb_add_mesh ++ [call.gb_bind, call.gb_upload])

/-- The z loop of `generate_pb`: `n` boxes from `p`, stepping `p.z` by the
preview offset; returns the final `p` and the boxes in order. -/
def pb_loop_z (g : cgrid) (oz : Int) : Nat → vec3 ℚ → List mesh → vec3 ℚ × List mesh
  | 0, p, acc => (p, acc)
  | n + 1, p, acc => pb_loop_z g oz n { p with z := p.z + (oz : ℚ) } (acc ++ [g.atlas_box p])

/-- The y loop of `generate_pb`: resets `p.z`, runs the z loop, steps `p.y`
by `1.0`. -/
def pb_loop_y (g : cgrid) (oz : Int) (sz : Nat) :
    Nat → vec3 ℚ → List mesh → vec3 ℚ × List mesh
  | 0, p, acc => (p, acc)
  | n + 1, p, acc =>
    let r := pb_loop_z g oz sz { p with z := 0 } acc
    pb_loop_y g oz sz n { r.1 with y := r.1.y + 1 } r.2

/-- The x loop of `generate_pb`: resets `p.y`, runs the y loop, steps `p.x`
by the preview offset. -/
def pb_loop_x (g : cgrid) (ox oz : Int) (sy sz : Nat) :
    Nat → vec3 ℚ → List mesh → vec3 ℚ × List mesh
  | 0, p, acc => (p, acc)
  | n + 1, p, acc =>
    let r := pb_loop_y g oz sz sy { p with y := 0 } acc
    pb_loop_x g ox oz sy sz n { r.1 with x := r.1.x + (ox : ℚ) } r.2

/-- The private `world::generate_pb`: clear, lock the preview offset to the
cached one, add one box per scale step, bind, upload. -/
def generate_pb (w : world) : world :=
  let w1 : world := { w with _pb := [], _preview_offset := w._cached_offset }
  let boxes := (pb_loop_x w1._grid w1._preview_offset.x w1._preview_offset.z
    w1._scale.y w1._scale.z w1._scale.x ⟨0, 0, 0⟩ []).2
  { w1 with _pb := boxes }.record
    ([call.pb_clear] ++ boxes.map call.pb_add_mesh ++ [call.pb_bind, call.pb_upload])

/-- The public `world::character_position`. -/
def character_position (w : world) : vec3 ℚ := w._character.position

/-- The public `world::add_block(center)`. -/
def add_block (w : world) (center : vec3 ℚ) : world :=
  let target := snap center
  let r := w._grid.set_geometry target w._scale w._preview_offset w._grid.get_atlas
  ({ w with _grid := r.1 }.record
    [call.grid_set_geometry target w._scale w._preview_offset w._grid.get_atlas]).generate_gb

/-- The public `world::add_block(ray)`. -/
def add_block_ray (w : world) (r : ray) : world :=
  let traced := w._grid.ray_trace_before r 4
  let s := w._grid.set_geometry traced w._scale w._preview_offset w._grid.get_atlas
  ({ w with _grid := s.1 }.record
    [call.grid_set_geometry traced w._scale w._preview_offset w._grid.get_atlas]).generate_gb

/-- The public `world::remove_block(point, position)`. -/
def remove_block (M : min_lib) (w : world) (point position : vec3 ℚ) : world :=
  let target := snap point
  let r := w._grid.set_geometry target w._scale w._preview_offset (-1)
  let removed := r.2
  let w1 := { w with _grid := r.1 }.record
    [call.grid_set_geometry target w._scale w._preview_offset (-1)]
  if removed > 0 then
    let w2 := w1.generate_gb
    let direction := M.normalize (position.sub point)
    { w2 with _particles := w2._particles.load point direction 5 }.record
      [call.particles_load point direction 5]
  else w1

/-- The public `world::remove_block(ray)`. -/
def remove_block_ray (w : world) (r : ray) : world :=
  let traced := w._grid.ray_trace_after r 5
  let s := w._grid.set_geometry traced w._scale w._preview_offset (-1)
  let removed := s.2
  let w1 := { w with _grid := s.1 }.record
    [call.grid_set_geometry traced w._scale w._preview_offset (-1)]
  if removed > 0 then
    let w2 := w1.generate_gb
    { w2 with _particles := w2._particles.load traced (r.direction.scale (-1)) 5 }.record
      [call.particles_load traced (r.direction.scale (-1)) 5]
  else w1

/-- The private `world::character_ai`: in AI mode one navigator step towards
`dest`, whose direction times `2E2` times the mass is added as a force; the
failure flag is not read. -/
def character_ai (M : min_lib) (w : world) (dest : vec3 ℚ) : world :=
  if w._ai_mode then
    let p := w.character_position
    let distance := M.magnitude (dest.sub p)
    let next := (w._path.step w._grid p dest distance).1
    let dxyz := next.2
    let f := (dxyz.scale 200).scale w._character.mass
    { w with _character := w._character.add_force f }.record
      [call.path_step p dest distance, call.body_add_force f]
  else w

/-- The body `physics::add_body(box, mass, id)` creates: at rest at the
centre of the box. -/
def add_body (box : aabbox) (mass : ℚ) : body :=
  { position := (box.min.add box.max).scale (1/2),
    linear_velocity := ⟨0, 0, 0⟩, force := ⟨0, 0, 0⟩, mass := mass, no_rotate := false }

/-- The private `world::character_load`: creates the character body with
half extent `(0.45, 0.95, 0.45)` and mass `10`, records the recent chunk,
builds the geometry mesh and, on a first load, clears a `3x3x3` box. -/
def character_load (M : min_lib) (w : world) (state : vec3 ℚ × Bool) : world :=
  let half_extent : vec3 ℚ := ⟨45/100, 95/100, 45/100⟩
  let position := state.1
  let box : aabbox := ⟨position.sub half_extent, position.add half_extent⟩
  let w1 : world := { w with _character := (add_body box 10).set_no_rotate }
  let w2 := { w1 with _grid := w1._grid.update_position position }.record
    [call.grid_update_position position]
  let w3 := w2.generate_gb
  if !state.2 then
    let w4 : world := { w3 with _scale := ⟨3, 3, 3⟩ }
    let w5 := remove_block M w4 ⟨-1, 0, -1⟩ position
    { w5 with _scale := ⟨1, 1, 1⟩ }
  else w3

/-- The constructor `world::world(state, grid_size, chunk_size,
view_chunk_size)`. The grid member is built first; the body of the
constructor then throws when the chunk size does not divide the grid size.
Shader, texture and uniform set up is left out (it is assumed to succeed).
`proto` and `path` stand for the grid and the navigator as their own
constructors leave them. -/
def create (M : min_lib) (proto : cgrid) (path : ai_path) (state : vec3 ℚ × Bool)
    (grid_size chunk_size view_chunk_size : Nat) : Except String world :=
  match cgrid.create proto grid_size chunk_size view_chunk_size with
  | Except.error e => Except.error e
  | Except.ok grid =>
    if grid_size % chunk_size ≠ 0 then
      Except.error "world: chunk_size must be integer multiple of grid_size"
    else
      let w0 : world :=
        { _pb := [], _gb := [], _scale := ⟨1, 1, 1⟩, _cached_offset := ⟨1, 1, 1⟩,
          _preview_offset := ⟨1, 1, 1⟩, _edit_mode := false, _grid := grid,
          _gravity := ⟨0, -10, 0⟩, _elasticity := 1/10,
          _character := ⟨⟨0, 0, 0⟩, ⟨0, 0, 0⟩, ⟨0, 0, 0⟩, 0, false⟩,
          _particles := ⟨[]⟩, _path := path, _ai_mode := false, calls := [] }
      Except.ok (character_load M w0.generate_pb state)

/-- The public `world::character_jump`. -/
def character_jump (w : world) (vel : vec3 ℚ) : world :=
  if |w._character.linear_velocity.y| < 1 then
    let f := (vel.scale 4000).scale w._character.mass
    { w with _character := w._character.add_force f }.record [call.body_add_force f]
  else w

/-- The public `world::character_move`. -/
def character_move (M : min_lib) (w : world) (vel : vec3 ℚ) : world :=
  let dxz := M.normalize ⟨vel.x, 0, vel.z⟩
  let f := (dxz.scale 100).scale w._character.mass
  { w with _character := w._character.add_force f }.record [call.body_add_force f]

/-- One physics sub step of `world::update`: collision cells at the snapped
body position, friction against the lateral velocity, one static solve. -/
def physics_step (M : min_lib) (w : world) (dt : ℚ) : world :=
  let at_ := snap w._character.position
  let col_blocks := w._grid.create_collision_cells at_
  let vel := w._character.linear_velocity
  let xz : vec3 ℚ := ⟨vel.x, 0, vel.z⟩
  let f := (xz.scale w._character.mass).scale (-2)
  let b := w._character.add_force f
  { w with _character := M.solve_static col_blocks b (dt / 10) 10 }.record
    [call.grid_collision_cells at_, call.body_add_force f, call.solve_static (dt / 10) 10]

/-- The physics loop of `world::update`, `n` sub steps. -/
def physics_loop (M : min_lib) (dt : ℚ) : Nat → world → world
  | 0, w => w
  | n + 1, w => physics_loop M dt n (physics_step M w dt)

/-- The private `world::update_uniform`: traces the placemark and caches the
facing derived offset (x and z only). -/
def update_uniform (M : min_lib) (w : world) (cam : camera) : world :=
  let dest := cam.project_point 3
  let r := M.ray_between cam.position dest
  let translate := w._grid.ray_trace_before r 4
  let ox : Int := if cam.forward.x ≥ 0 then 1 else -1
  let oz : Int := if cam.forward.z ≥ 0 then 1 else -1
  { w with _cached_offset := { w._cached_offset with x := ox, z := oz } }.record
    [call.uniforms_update translate]

/-- The chunk crossing step of `world::update`. -/
def cross_chunk (w : world) : world :=
  let p := w._character.position
  let k := w._grid.chunk_key p
  let current_chunk := k.1
  let is_valid := k.2
  let recent_chunk := w._grid.get_recent_chunk
  if is_valid && recent_chunk != current_chunk then
    ({ w with _grid := w._grid.update_chunk current_chunk }.record
      [call.grid_update_chunk current_chunk]).generate_gb
  else w

/-- The public `world::update(cam, dt)`. -/
def update (M : min_lib) (w : world) (cam : camera) (dt : ℚ) : world :=
  let w1 := character_ai M w ⟨0, 2, 0⟩
  let w2 := w1.cross_chunk
  let w3 := physics_loop M dt 10 w2
  let w4 := update_uniform M w3 cam
  w4.record [call.particles_update dt]

/-- The public `world::draw(dt)`: sky, terrain, the placemark in edit mode,
particles. -/
def draw (w : world) (dt : ℚ) : world :=
  let w1 := w.record [call.sky_draw, call.gb_bind, call.gb_draw_all]
  let w2 := if w._edit_mode then w1.record [call.pb_bind, call.pb_draw_all] else w1
  w2.record [call.particles_draw dt]

/-- The public `world::reset_scale`. -/
def reset_scale (w : world) : world :=
  { w with _scale := ⟨1, 1, 1⟩ }.generate_pb

/-- The public `world::set_atlas_id`. -/
def set_atlas_id (w : world) (id : Int) : world :=
  ({ w with _grid := w._grid.set_atlas id }.record [call.grid_set_atlas id]).generate_pb

/-- The public `world::set_scale_x`; the sum is an `unsigned` sum. -/
def set_scale_x (w : world) (dx : Nat) : world :=
  if w._edit_mode then
    if w._cached_offset.x ≠ w._preview_offset.x then
      w.generate_pb
    else if w._scale.x < 5 then
      { w with _scale := { w._scale with x := (w._scale.x + dx) % 2 ^ 32 } }.generate_pb
    else w
  else w

/-- The public `world::set_scale_y`. -/
def set_scale_y (w : world) (dy : Nat) : world :=
  if w._edit_mode then
    if w._cached_offset.y ≠ w._preview_offset.y then
      w.generate_pb
    else if w._scale.y < 5 then
      { w with _scale := { w._scale with y := (w._scale.y + dy) % 2 ^ 32 } }.generate_pb
    else w
  else w

/-- The public `world::set_scale_z`. -/
def set_scale_z (w : world) (dz : Nat) : world :=
  if w._edit_mode then
    if w._cached_offset.z ≠ w._preview_offset.z then
      w.generate_pb
    else if w._scale.z < 5 then
      { w with _scale := { w._scale with z := (w._scale.z + dz) % 2 ^ 32 } }.generate_pb
    else w
  else w

/-- The public `world::get_edit_mode`. -/
def get_edit_mode (w : world) : Bool := w._edit_mode

/-- The public `world::toggle_edit_mode`. -/
def toggle_edit_mode (w : world) : world := { w with _edit_mode := !w._edit_mode }

/-- The public `world::toggle_ai_mode`. -/
def toggle_ai_mode (w : world) : world := { w with _ai_mode := !w._ai_mode }

/-- The public `world::grappling`. -/
def grappling (M : min_lib) (w : world) (r : ray) : world :=
  let traced := w._grid.ray_trace_after r 100
  let atlas := w._grid.grid_value traced
  if atlas ≠ -1 then
    let d := traced.sub r.origin
    let mag := M.magnitude d
    let d_factor : ℚ := if mag < 20 then 1 else 1/2
    let y_factor : ℚ := if r.direction.y < -1/2 then 1/4 else 1
    let f := (((d.scale 1000).scale d_factor).scale y_factor).scale w._character.mass
    let w1 := { w with _character := w._character.add_force f }.record [call.body_add_force f]
    let w2 := w1.reset_scale
    remove_block M w2 traced r.origin
  else w

end world

/-! ## Reading the record of collaborator calls -/

/-- The collaborator calls of one run of `generate_gb` on a grid: one clear,
one `add_mesh` per non-empty view chunk, one bind, one upload. -/
def world.gb_calls (g : cgrid) : List call :=
  [call.gb_clear] ++ (world.gb_meshes g).map call.gb_add_mesh ++ [call.gb_bind, call.gb_upload]

/-- The collaborator calls made on the way from state `w` to state `v`. -/
def world.since (w v : world) : List call := v.calls.drop w.calls.length

/-- Recognises a `cgrid::set_geometry` call. -/
def call.is_set_geometry : call → Bool
  | call.grid_set_geometry _ _ _ _ => true
  | _ => false

/-- Recognises the `clear` that starts a rebuild of the geometry buffer. -/
def call.is_gb_clear : call → Bool
  | call.gb_clear => true
  | _ => false

/-- Recognises the `upload` that ends a rebuild of the geometry buffer. -/
def call.is_gb_upload : call → Bool
  | call.gb_upload => true
  | _ => false

/-- Recognises any call on the geometry buffer. -/
def call.is_gb : call → Bool
  | call.gb_clear => true
  | call.gb_add_mesh _ => true
  | call.gb_bind => true
  | call.gb_upload => true
  | call.gb_draw_all => true
  | _ => false

/-- Recognises any call on the particle system. -/
def call.is_particles : call → Bool
  | call.particles_load _ _ _ => true
  | call.particles_update _ => true
  | call.particles_draw _ => true
  | _ => false

/-- Recognises an `add_force` on the character body. -/
def call.is_add_force : call → Bool
  | call.body_add_force _ => true
  | _ => false

/-- Recognises a `cgrid::update(chunk_key)` call. -/
def call.is_grid_update : call → Bool
  | call.grid_update_chunk _ => true
  | _ => false

/-- Recognises a `physics::solve_static` call. -/
def call.is_solve_static : call → Bool
  | call.solve_static _ _ => true
  | _ => false

/-- The friction force of one physics sub step: `xz * mass * -2.0` for the
lateral velocity `xz = (v.x, 0, v.z)` of the body. -/
def world.friction (w : world) : vec3 ℚ :=
  ((⟨w._character.linear_velocity.x, 0, w._character.linear_velocity.z⟩ :
    vec3 ℚ).scale w._character.mass).scale (-2)

/-- The collaborator calls of one physics sub step from state `w`, in order:
collision cells at the snapped body position, the friction force, one static
solve with time step `dt / 10`. -/
def world.step_calls (w : world) (dt : ℚ) : List call :=
  [call.grid_collision_cells (world.snap w._character.position),
   call.body_add_force w.friction, call.solve_static (dt / 10) 10]

/-- The collaborator calls of `n` physics sub steps from state `w`. -/
def world.physics_calls (M : min_lib) (dt : ℚ) : Nat → world → List call
  | 0, _ => []
  | n + 1, w => w.step_calls dt ++ world.physics_calls M dt n (world.physics_step M w dt)

/-- The collaborator calls of `character_ai` from state `w`. -/
def world.ai_calls (M : min_lib) (w : world) (dest : vec3 ℚ) : List call :=
  if w._ai_mode then
    [call.path_step w.character_position dest (M.magnitude (dest.sub w.character_position)),
     call.body_add_force
       ((((w._path.step w._grid w.character_position dest
          (M.magnitude (dest.sub w.character_position))).1.2).scale 200).scale
        w._character.mass)]
  else []

/-- The chunk crossing test of `world::update`: the chunk key of the body
position is valid and differs from the recent chunk of the grid. -/
def world.crossed (w : world) : Bool :=
  (w._grid.chunk_key w._character.position).2 &&
    w._grid.get_recent_chunk != (w._grid.chunk_key w._character.position).1

/-- The collaborator calls of the chunk crossing step from state `w`: the
grid update followed by one rebuild of the geometry buffer, or nothing. -/
def world.cross_calls (w : world) : List call :=
  if w.crossed then
    call.grid_update_chunk (w._grid.chunk_key w._character.position).1 ::
      world.gb_calls (w._grid.update_chunk (w._grid.chunk_key w._character.position).1)
  else []

/-- The state of `world::update` when its physics loop starts: after
`character_ai` towards `(0, 2, 0)` and the chunk crossing step. -/
def world.pre_physics (M : min_lib) (w : world) : world :=
  (world.character_ai M w ⟨0, 2, 0⟩).cross_chunk

/-- The state after `i` physics sub steps from `w`. -/
def world.substate (M : min_lib) (dt : ℚ) (w : world) (i : Nat) : world :=
  (fun v => world.physics_step M v dt)^[i] w

/-- Number of vertices held by a vertex buffer. -/
def world.vertex_count (buffer : List mesh) : Nat :=
  (buffer.map fun m => m.vertex.length).sum

/-- Number of indices held by a vertex buffer. -/
def world.index_count (buffer : List mesh) : Nat :=
  (buffer.map fun m => m.index.length).sum

/-- The view chunk meshes as the claim words them: the meshes of the chunks
in the current view window, in view order, those without vertices left out. -/
def world.view_meshes (g : cgrid) : List mesh :=
  (g.get_view_chunks.map fun key => g.get_chunk key).filter fun chunk =>
    decide (0 < chunk.vertex.length)

/-- The distance factor of `world::grappling`: `(mag < 20.0) ? 1.0 : 0.5`. -/
def world.d_factor (mag : ℚ) : ℚ := if mag < 20 then 1 else 1/2

/-- The steepness factor of `world::grappling`:
`(direction.y < -0.5) ? 0.25 : 1.0`. -/
def world.y_factor (direction_y : ℚ) : ℚ := if direction_y < -1/2 then 1/4 else 1

/-- The point `world::grappling` traces: `ray_trace_after(r, 100)`. -/
def world.hit_point (w : world) (r : ray) : vec3 ℚ := w._grid.ray_trace_after r 100

/-- The force `world::grappling` adds on a hit, in the order of the source:
`d * 1E3 * d_factor * y_factor * mass` for `d = hit_point - origin`. -/
def world.grapple_force (M : min_lib) (w : world) (r : ray) : vec3 ℚ :=
  (((((w.hit_point r).sub r.origin).scale 1000).scale
    (world.d_factor (M.magnitude ((w.hit_point r).sub r.origin)))).scale
    (world.y_factor r.direction.y)).scale w._character.mass

/-- Recognises a navigator query, `ai_path::step`. -/
def call.is_path_step : call → Bool
  | call.path_step _ _ _ => true
  | _ => false

/-- The collaborator calls of one run of `generate_pb` that leaves the
preview buffer `boxes`: one clear, one `add_mesh` per box, one bind, one
upload. -/
def world.pb_calls (boxes : List mesh) : List call :=
  [call.pb_clear] ++ boxes.map call.pb_add_mesh ++ [call.pb_bind, call.pb_upload]

/-- The preview as the claim words it: one box at each position
`(i * offset.x, j, k * offset.z)` for `i < scale.x`, `j < scale.y`,
`k < scale.z`, in x major, y, z minor order. -/
def world.preview_boxes (g : cgrid) (scale : vec3 Nat) (offset : vec3 Int) : List mesh :=
  (List.range scale.x).flatMap fun (i : Nat) =>
    (List.range scale.y).flatMap fun (j : Nat) =>
      (List.range scale.z).map fun (k : Nat) =>
        g.atlas_box ⟨(i : ℚ) * (offset.x : ℚ), (j : ℚ), (k : ℚ) * (offset.z : ℚ)⟩

/-- Both x and z of an offset are `1` or `-1` and its y is `1`. -/
def world.facing (o : vec3 Int) : Prop :=
  (o.x = 1 ∨ o.x = -1) ∧ o.y = 1 ∧ (o.z = 1 ∨ o.z = -1)

/-- The write that `remove_block` issues for a resolved target: `-1` with
the scale and the locked preview offset of the state; the result is the
written grid and `removed_count`. -/
def world.removal (w : world) (target : vec3 ℚ) : cgrid × Nat :=
  w._grid.set_geometry target w._scale w._preview_offset (-1)

/-! ## Public operations as a transition system -/

/-- A call of one of the state changing public operations of `game::world`. -/
inductive op where
  | add_block (center : vec3 ℚ)
  | add_block_ray (r : ray)
  | remove_block (point position : vec3 ℚ)
  | remove_block_ray (r : ray)
  | character_jump (vel : vec3 ℚ)
  | character_move (vel : vec3 ℚ)
  | update (cam : camera) (dt : ℚ)
  | draw (dt : ℚ)
  | reset_scale
  | set_atlas_id (id : Int)
  | set_scale_x (dx : Nat)
  | set_scale_y (dy : Nat)
  | set_scale_z (dz : Nat)
  | toggle_edit_mode
  | toggle_ai_mode
  | grappling (r : ray)

/-- The effect of a public operation on the state. -/
def op.apply (M : min_lib) (w : world) : op → world
  | op.add_block center => w.add_block center
  | op.add_block_ray r => w.add_block_ray r
  | op.remove_block point position => world.remove_block M w point position
  | op.remove_block_ray r => w.remove_block_ray r
  | op.character_jump vel => w.character_jump vel
  | op.character_move vel => world.character_move M w vel
  | op.update cam dt => world.update M w cam dt
  | op.draw dt => w.draw dt
  | op.reset_scale => w.reset_scale
  | op.set_atlas_id id => w.set_atlas_id id
  | op.set_scale_x dx => w.set_scale_x dx
  | op.set_scale_y dy => w.set_scale_y dy
  | op.set_scale_z dz => w.set_scale_z dz
  | op.toggle_edit_mode => w.toggle_edit_mode
  | op.toggle_ai_mode => w.toggle_ai_mode
  | op.grappling r => world.grappling M w r

/-- Runs a sequence of public operations from a state. -/
def run (M : min_lib) (w : world) (ops : List op) : world :=
  ops.foldl (op.apply M) w

/-- The delta of a scale adjustment is at most one (other operations carry
no delta). -/
def op.unit_delta : op → Prop
  | op.set_scale_x dx => dx ≤ 1
  | op.set_scale_y dy => dy ≤ 1
  | op.set_scale_z dz => dz ≤ 1
  | _ => True

/-! ## Concrete collaborators used to evaluate the operations -/

namespace sample

/-- A stand in for the numeric library: vectors are left as they are by
`normalize`, the magnitude is the sum of absolute components, the solver
leaves the body alone. -/
def lib : min_lib :=
  { normalize := fun v => v,
    magnitude := fun v => |v.x| + |v.y| + |v.z|,
    ray_between := fun a b => ⟨a, b.sub a⟩,
    solve_static := fun _ b _ _ => b }

/-- A grid of extent `[-32, 32)` per axis, solid (atlas id `1`) below height
zero and empty above, with placement atlas id `3`; rays end where they start,
every chunk has key `0` and an empty mesh. -/
def grid : cgrid :=
  { grid_size := 32, chunk_size := 8, view_chunk_size := 3,
    inside := fun c => decide (-32 ≤ c.x ∧ c.x < 32 ∧ -32 ≤ c.y ∧ c.y < 32 ∧
      -32 ≤ c.z ∧ c.z < 32),
    voxel := fun c => if c.y < 0 then 1 else -1,
    atlas := 3,
    recent_chunk := 0,
    march_before := fun _ r _ => world.snap r.origin,
    march_after := fun _ r _ => world.snap r.origin,
    key_of := fun _ => (0, true),
    view_of := fun k => [k],
    mesh_of := fun _ _ => ⟨[], []⟩,
    cells_near := fun _ _ => [],
    box_of := fun _ p => ⟨[p], [0]⟩ }

/-- A navigator that always heads straight up and never fails. -/
def path : ai_path := { step := fun _ p _ _ => ((p, ⟨0, 1, 0⟩), false) }

/-- A camera at the start position that looks along negative z. -/
def cam_back : camera :=
  { position := ⟨0, 2, 0⟩, forward := ⟨0, 0, -1⟩, project_point := fun d => ⟨0, 2, -d⟩ }

/-- The saved state handed to the constructor: start position, first load. -/
def start : vec3 ℚ × Bool := (⟨0, 2, 0⟩, false)

/-- The state the constructor builds for `(32, 8, 3)`, written out; see
`create_sample`. -/
def fresh : world :=
  world.character_load lib
    (world.generate_pb
      { _pb := [], _gb := [], _scale := ⟨1, 1, 1⟩, _cached_offset := ⟨1, 1, 1⟩,
        _preview_offset := ⟨1, 1, 1⟩, _edit_mode := false, _grid := grid,
        _gravity := ⟨0, -10, 0⟩, _elasticity := 1/10,
        _character := ⟨⟨0, 0, 0⟩, ⟨0, 0, 0⟩, ⟨0, 0, 0⟩, 0, false⟩,
        _particles := ⟨[]⟩, _path := path, _ai_mode := false, calls := [] })
    start

/-- The constructed world after edit mode was switched on and one frame was
run with the camera turned to negative z: the cached offset is `(1,1,-1)`
while the locked preview offset still is `(1,1,1)`. -/
def turned : world :=
  run lib fresh [op.toggle_edit_mode, op.update cam_back (1/60)]

/-- A state in edit mode whose cached offset differs from the locked preview
offset `(1,1,1)` in every component. -/
def skewed : world :=
  { fresh with _edit_mode := true, _cached_offset := ⟨-1, -1, -1⟩ }

/-- The constructed world with the body moving up at speed exactly `1`. -/
def rising : world :=
  { fresh with _character := { fresh._character with linear_velocity := ⟨0, 1, 0⟩ } }

/-- The constructed world with the body falling at speed `3`. -/
def falling : world :=
  { fresh with _character := { fresh._character with linear_velocity := ⟨0, -3, 0⟩ } }

/-- The constructed world over a grid whose ray march ends three direction
steps from the ray origin. -/
def hooked : world :=
  { fresh with
    _grid := { fresh._grid with
      march_after := fun _ r _ => world.snap (r.origin.add (r.direction.scale 3)) } }

/-- A ray from above the ground straight down; three steps on it reach the
solid voxel at `(0.5, -0.5, 0.5)`. -/
def ray_down : ray := ⟨⟨1/2, 5/2, 1/2⟩, ⟨0, -1, 0⟩⟩

/-- A ray that starts in the solid voxel at `(0.5, -0.5, 0.5)`. -/
def ray_solid : ray := ⟨⟨1/2, -1/2, 1/2⟩, ⟨0, -1, 0⟩⟩

/-- A ray that starts in the empty voxel at `(0.5, 0.5, 0.5)`. -/
def ray_empty : ray := ⟨⟨1/2, 1/2, 1/2⟩, ⟨0, 1, 0⟩⟩

/-- A navigator that reports failure and still returns the direction
`(0, 1, 0)`. -/
def stuck_path : ai_path := { step := fun _ p _ _ => ((p, ⟨0, 1, 0⟩), true) }

/-- The constructed world with the failing navigator, AI mode switched on. -/
def stuck : world := world.toggle_ai_mode { fresh with _path := stuck_path }

/-- The constructed world over a grid with three view chunks per window, the
middle one without vertices, and with a stale mesh left in the geometry
buffer. -/
def meshed : world :=
  { fresh with
    _grid := { fresh._grid with
      view_of := fun k => [k, k + 1, k + 2],
      mesh_of := fun _ key =>
        if key = 1 then ⟨[], [0, 1, 2]⟩
        else ⟨[⟨(key : ℚ), 0, 0⟩, ⟨(key : ℚ), 1, 0⟩, ⟨(key : ℚ), 0, 1⟩], [0, 1, 2]⟩ },
    _gb := [⟨[⟨9, 9, 9⟩], [0]⟩] }

/-- A numeric library that is exact on vectors along a coordinate axis:
`normalize` keeps the sign of each component. -/
def lib_axis : min_lib :=
  { lib with
    normalize := fun v =>
      ⟨if v.x < 0 then -1 else if 0 < v.x then 1 else 0,
       if v.y < 0 then -1 else if 0 < v.y then 1 else 0,
       if v.z < 0 then -1 else if 0 < v.z then 1 else 0⟩ }

/-- The world `hooked` with the placement scale set to `(3, 2, 4)`. -/
def hooked_wide : world := { hooked with _scale := ⟨3, 2, 4⟩ }

end sample

/-! ## Player statistics (`game::stats`, `source/game/stats.h`) -/

/-- The alert raised by a statistics change, `enum class stat_alert`. -/
inductive stat_alert where
  | none
  | level
  | thruster
deriving DecidableEq, Repr

/-- The numeric routines of the C++ standard library that `stats` calls
(`std::sqrt`, `std::log10`, `std::exp`) and the constant `_physics_frames`,
which is declared outside the sources. -/
structure std_lib where
  sqrt : ℚ → ℚ
  log10 : ℚ → ℚ
  exp : ℚ → ℚ
  physics_frames : ℚ

/-- State of `game::stats`. The `uint16_t` stats and stat points are naturals
below `2^16`; `_attr` and `_stat` are the arrays of `10` and `7` entries. -/
structure stats where
  _energy : ℚ
  _low_energy : Bool
  _max_exp : ℚ
  _exp : ℚ
  _health : ℚ
  _low_health : Bool
  _max_oxygen : ℚ
  _oxygen : ℚ
  _low_oxygen : Bool
  _hit : ℚ
  _dead : Bool
  _dirty : Bool
  _alert : stat_alert
  _attr : Fin 10 → ℚ
  _stat : Fin 7 → Nat
  _stat_points : Nat
  _sqrt_level : ℚ

namespace stats

/-- Constant `_health_consume`. -/
def health_consume_rate : ℚ := 1/2
/-- Constant `_energy_consume`. -/
def energy_consume_rate : ℚ := 1
/-- Constant `_oxygen_consume`. -/
def oxygen_consume_rate : ℚ := 1/1000
/-- Constant `_health_regen`. -/
def health_regen_rate : ℚ := 5/2
/-- Constant `_energy_regen`. -/
def energy_regen_rate : ℚ := 5
/-- Constant `_per_second`, `1.0 / _physics_frames`. -/
def per_second (L : std_lib) : ℚ := 1 / L.physics_frames
/-- Constant `_beam_cost`. -/
def beam_cost : ℚ := 5
/-- Constant `_charge_cost`. -/
def charge_cost : ℚ := 10
/-- Constant `_grapple_cost`. -/
def grapple_cost : ℚ := 1/10
/-- Constant `_grenade_cost`. -/
def grenade_cost : ℚ := 10
/-- Constant `_jet_cost`. -/
def jet_cost : ℚ := 1/10
/-- Constant `_missile_cost`. -/
def missile_cost : ℚ := 10
/-- Constant `_portal_cost`. -/
def portal_cost : ℚ := 1/2
/-- Constant `_scatter_cost`. -/
def scatter_cost : ℚ := 20

/-- Stat 0, `stats::power`. -/
def power (s : stats) : Nat := s._stat 0
/-- Stat 1, `stats::speed`. -/
def speed (s : stats) : Nat := s._stat 1
/-- Stat 2, `stats::vital`. -/
def vital (s : stats) : Nat := s._stat 2
/-- Stat 3, `stats::cooldown`. -/
def cooldown (s : stats) : Nat := s._stat 3
/-- Stat 4, `stats::range`. -/
def range (s : stats) : Nat := s._stat 4
/-- Stat 5, `stats::regen`. -/
def regen (s : stats) : Nat := s._stat 5
/-- Stat 6, `stats::level`. -/
def level (s : stats) : Nat := s._stat 6

/-- The private `calc_damage_mult`. -/
def calc_damage_mult (L : std_lib) (s : stats) : ℚ :=
  1 + (L.log10 ((s.power : ℚ) * 4) * (s._sqrt_level - 1) * (3/4))
/-- The private `calc_thrust_consume`. -/
def calc_thrust_consume (L : std_lib) (s : stats) : ℚ :=
  (108/100) / L.log10 ((s.speed : ℚ) * s._sqrt_level + 1)
/-- The private `calc_damage_reduc`. -/
def calc_damage_reduc (L : std_lib) (s : stats) : ℚ :=
  L.log10 (s.vital : ℚ) * (s._sqrt_level * (5/100))
/-- The private `calc_cooldown_reduc`. -/
def calc_cooldown_reduc (L : std_lib) (s : stats) : ℚ :=
  L.log10 (s.cooldown : ℚ) * (s._sqrt_level * (75/1000))
/-- The private `calc_health_regen`. -/
def calc_health_regen (L : std_lib) (s : stats) : ℚ :=
  (health_regen_rate + L.log10 ((s.regen : ℚ) * 2)) * (s._sqrt_level * per_second L)
/-- The private `calc_energy_regen`. -/
def calc_energy_regen (L : std_lib) (s : stats) : ℚ :=
  (energy_regen_rate + L.log10 ((s.regen : ℚ) * 3)) * (s._sqrt_level * per_second L)
/-- The private `calc_health_consume`. -/
def calc_health_consume (L : std_lib) (s : stats) : ℚ :=
  (health_consume_rate / s._sqrt_level) * per_second L
/-- The private `calc_energy_consume`. -/
def calc_energy_consume (L : std_lib) (s : stats) : ℚ :=
  (energy_consume_rate / s._sqrt_level) * per_second L
/-- The private `calc_max_health`. -/
def calc_max_health (L : std_lib) (s : stats) : ℚ :=
  L.log10 (s.vital : ℚ) * (s._sqrt_level * 100)
/-- The private `calc_max_energy`. -/
def calc_max_energy (L : std_lib) (s : stats) : ℚ :=
  L.log10 (s.cooldown : ℚ) * (s._sqrt_level * (33333/1000))
/-- The private `calc_max_exp`, `std::floor(600.0 * std::exp(_sqrt_level * 1.2))`. -/
def calc_max_exp (L : std_lib) (s : stats) : ℚ :=
  (⌊600 * L.exp (s._sqrt_level * (12/10))⌋ : ℚ)

/-- Attribute 0, `get_damage_mult`. -/
def get_damage_mult (s : stats) : ℚ := s._attr 0
/-- Attribute 1, `get_thrust_cost_frac`. -/
def get_thrust_cost_frac (s : stats) : ℚ := s._attr 1
/-- Attribute 2, `get_damage_reduc`. -/
def get_damage_reduc (s : stats) : ℚ := s._attr 2
/-- Attribute 4, `get_health_regen`. -/
def get_health_regen (s : stats) : ℚ := s._attr 4
/-- Attribute 5, `get_energy_regen`. -/
def get_energy_regen (s : stats) : ℚ := s._attr 5
/-- Attribute 6, `get_max_health`. -/
def get_max_health (s : stats) : ℚ := s._attr 6
/-- Attribute 7, `get_max_energy`. -/
def get_max_energy (s : stats) : ℚ := s._attr 7
/-- Attribute 8, `get_health_consume`. -/
def get_health_consume (s : stats) : ℚ := s._attr 8
/-- Attribute 9, `get_energy_consume`. -/
def get_energy_consume (s : stats) : ℚ := s._attr 9

/-- The cost getter `get_beam_cost`. -/
def get_beam_cost (s : stats) : ℚ := s.get_damage_mult * beam_cost
/-- The cost getter `get_charge_cost`. -/
def get_charge_cost (s : stats) : ℚ := s.get_damage_mult * charge_cost
/-- The cost getter `get_grapple_cost`. -/
def get_grapple_cost (s : stats) : ℚ := s.get_max_energy * grapple_cost
/-- The cost getter `get_grenade_cost`. -/
def get_grenade_cost (s : stats) : ℚ := s.get_damage_mult * grenade_cost
/-- The cost getter `get_jet_cost`. -/
def get_jet_cost (_s : stats) : ℚ := jet_cost
/-- The cost getter `get_missile_cost`. -/
def get_missile_cost (s : stats) : ℚ := s.get_damage_mult * missile_cost
/-- The cost getter `get_portal_cost`. -/
def get_portal_cost (s : stats) : ℚ := s.get_max_energy * portal_cost
/-- The cost getter `get_scatter_cost`. -/
def get_scatter_cost (s : stats) : ℚ := s.get_damage_mult * scatter_cost
/-- The cost getter `get_thrust_cost`. -/
def get_thrust_cost (s : stats) : ℚ := s.get_max_energy * s.get_thrust_cost_frac

/-- The test `is_low_energy`. -/
def is_low_energy (s : stats) : Bool := decide (s._energy < s.get_max_energy * (1/4))
/-- The test `is_low_health`. -/
def is_low_health (s : stats) : Bool := decide (s._health < s.get_max_health * (1/4))
/-- The test `is_low_oxygen`. -/
def is_low_oxygen (s : stats) : Bool := decide (s._oxygen < 25)
/-- The getter `is_dead`. -/
def is_dead (s : stats) : Bool := s._dead

/-- The private `set_energy`. -/
def set_energy (s : stats) (energy : ℚ) : stats :=
  let above := decide (s._energy ≥ 25)
  let s1 : stats := { s with _energy := energy }
  if above && s1.is_low_energy then { s1 with _low_energy := true } else s1

/-- The private `set_health`. -/
def set_health (s : stats) (health : ℚ) : stats :=
  let above := decide (s._health ≥ 25)
  let s1 : stats := { s with _health := health }
  if s1._health ≤ 0 then { s1 with _dead := true }
  else if above && s1.is_low_health then { s1 with _low_health := true }
  else s1

/-- The private `set_oxygen`. -/
def set_oxygen (s : stats) (oxygen : ℚ) : stats :=
  let above := decide (s._oxygen ≥ 25)
  let s1 : stats := { s with _oxygen := oxygen }
  if s1._oxygen ≤ 0 then { s1 with _dead := true }
  else if above && s1.is_low_oxygen then { s1 with _low_oxygen := true }
  else s1

/-- The private `update_cache`: the square root of the level, the ten
attributes and the experience needed for the next level. -/
def update_cache (L : std_lib) (s : stats) : stats :=
  let s1 : stats := { s with _sqrt_level := L.sqrt (s.level : ℚ) }
  { s1 with
    _attr := ![calc_damage_mult L s1, calc_thrust_consume L s1, calc_damage_reduc L s1,
      calc_cooldown_reduc L s1, calc_health_regen L s1, calc_energy_regen L s1,
      calc_max_health L s1, calc_max_energy L s1, calc_health_consume L s1,
      calc_energy_consume L s1],
    _max_exp := calc_max_exp L s1 }

/-- The constructor `stats::stats()`. -/
def create (L : std_lib) : stats :=
  update_cache L
    { _energy := 10, _low_energy := false, _max_exp := 100, _exp := 0, _health := 70,
      _low_health := false, _max_oxygen := 100, _oxygen := 100, _low_oxygen := false,
      _hit := 0, _dead := false, _dirty := false, _alert := stat_alert.none,
      _attr := fun _ => 0, _stat := ![4, 3, 5, 2, 0, 3, 1], _stat_points := 0,
      _sqrt_level := 1 }

/-- The public `level_up`; the increments are `uint16_t` increments. -/
def level_up (L : std_lib) (s : stats) : stats :=
  let s1 : stats := { s with _stat := Function.update s._stat 6 ((s._stat 6 + 1) % 2 ^ 16) }
  let s2 : stats := { s1 with _stat_points := (s1._stat_points + 5) % 2 ^ 16 }
  let s3 := update_cache L s2
  { s3 with _alert := stat_alert.level, _dirty := true }

/-- The public `add_energy`. -/
def add_energy (s : stats) (energy : ℚ) : stats := { s with _energy := s._energy + energy }

/-- The public `add_exp`. -/
def add_exp (L : std_lib) (s : stats) (exp : ℚ) : stats :=
  let s1 : stats := { s with _exp := s._exp + exp }
  if s1._exp ≥ s1._max_exp then
    level_up L { s1 with _exp := s1._exp - s1._max_exp }
  else s1

/-- The public `add_health`. -/
def add_health (s : stats) (health : ℚ) : stats := { s with _health := s._health + health }

/-- The public `add_oxygen`. -/
def add_oxygen (s : stats) (oxy : ℚ) : stats :=
  let s1 : stats := { s with _oxygen := s._oxygen + oxy }
  if s1._oxygen > s1._max_oxygen then { s1 with _oxygen := s1._max_oxygen } else s1

/-- The public `clean`. -/
def clean (s : stats) : stats := { s with _dirty := false }
/-- The public `clear_alert`. -/
def clear_alert (s : stats) : stats := { s with _alert := stat_alert.none }
/-- The public `clear_hit`. -/
def clear_hit (s : stats) : stats := { s with _hit := 0 }
/-- The public `clear_low_energy_flag`. -/
def clear_low_energy_flag (s : stats) : stats := { s with _low_energy := false }
/-- The public `clear_low_health_flag`. -/
def clear_low_health_flag (s : stats) : stats := { s with _low_health := false }
/-- The public `clear_low_oxygen_flag`. -/
def clear_low_oxygen_flag (s : stats) : stats := { s with _low_oxygen := false }

/-- The public `consume_energy`. -/
def consume_energy (s : stats) (energy : ℚ) : stats := s.set_energy (s._energy - energy)
/-- The public `consume_beam`. -/
def consume_beam (s : stats) : stats := s.consume_energy s.get_beam_cost
/-- The public `consume_charge`. -/
def consume_charge (s : stats) : stats := s.consume_energy s.get_charge_cost
/-- The public `consume_grapple`. -/
def consume_grapple (s : stats) : stats := s.consume_energy s.get_grapple_cost
/-- The public `consume_grenade`. -/
def consume_grenade (s : stats) : stats := s.consume_energy s.get_grenade_cost
/-- The public `consume_jet`. -/
def consume_jet (s : stats) : stats := s.consume_energy s.get_jet_cost
/-- The public `consume_missile`. -/
def consume_missile (s : stats) : stats := s.consume_energy s.get_missile_cost
/-- The public `consume_portal`. -/
def consume_portal (s : stats) : stats := s.consume_energy s.get_portal_cost
/-- The public `consume_scatter`. -/
def consume_scatter (s : stats) : stats := s.consume_energy s.get_scatter_cost
/-- The public `consume_thrust`. -/
def consume_thrust (s : stats) : stats := s.consume_energy s.get_thrust_cost

/-- The public `consume_health`. -/
def consume_health (s : stats) (hit : ℚ) : stats :=
  let s1 : stats := { s with _hit := s._hit + hit }
  s1.set_health (s1._health - hit)

/-- The public `consume_oxygen`. -/
def consume_oxygen (s : stats) : stats := s.set_oxygen (s._oxygen - oxygen_consume_rate)

/-- The public `damage`. -/
def damage (s : stats) (amount : ℚ) : stats :=
  let reduc := s.get_damage_reduc
  s.consume_health ((1 - reduc) * amount)

/-- The public `fill`. -/
def fill (L : std_lib) (s : stats) (stat : Fin 7 → Nat) (energy exp health oxygen : ℚ)
    (points : Nat) : stats :=
  let s1 : stats := { s with _stat := stat }
  let s2 := update_cache L s1
  let s3 := s2.set_energy energy
  let s4 := add_exp L s3 exp
  let s5 := s4.set_health health
  let s6 := s5.set_oxygen oxygen
  { s6 with _stat_points := points }

/-- The public `regen_energy`. -/
def regen_energy (s : stats) : stats :=
  let max_energy := s.get_max_energy
  if s._energy < max_energy then
    let energy := s.get_energy_regen
    let s1 : stats := { s with _energy := s._energy + energy }
    if s1._energy > max_energy then { s1 with _energy := max_energy } else s1
  else if s._energy > max_energy then
    let energy := s.get_energy_consume
    let s1 : stats := { s with _energy := s._energy - energy }
    if s1._energy < max_energy then { s1 with _energy := max_energy } else s1
  else s

/-- The public `regen_health`. -/
def regen_health (s : stats) : stats :=
  let max_health := s.get_max_health
  if s._health < max_health then
    let health := s.get_health_regen
    let s1 : stats := { s with _health := s._health + health }
    if s1._health > max_health then { s1 with _health := max_health } else s1
  else if s._health > max_health then
    let health := s.get_health_consume
    let s1 : stats := { s with _health := s._health - health }
    if s1._health < max_health then { s1 with _health := max_health } else s1
  else s

/-- The public `respawn`. -/
def respawn (s : stats) : stats :=
  { s with
    _energy := s.get_max_energy, _low_energy := false, _exp := 0,
    _health := s.get_max_health, _low_health := false, _oxygen := s._max_oxygen,
    _low_oxygen := false, _hit := 0, _dead := false }

/-- The public `set_point`, for an index inside the stat array. -/
def set_point (L : std_lib) (s : stats) (index : Fin 7) : stats :=
  if s._stat_points > 0 then
    let thrust_above := decide (s.get_thrust_cost_frac > 1)
    let s1 : stats := { s with _stat_points := s._stat_points - 1 }
    let s2 : stats :=
      { s1 with _stat := Function.update s1._stat index ((s1._stat index + 1) % 2 ^ 16) }
    let s3 := update_cache L s2
    let s4 : stats :=
      if thrust_above && decide (s3.get_thrust_cost_frac ≤ 1) then
        { s3 with _alert := stat_alert.thruster }
      else s3
    { s4 with _dirty := true }
  else s

/-- Sum of the seven stats. -/
def stat_sum (s : stats) : Nat :=
  s._stat 0 + s._stat 1 + s._stat 2 + s._stat 3 + s._stat 4 + s._stat 5 + s._stat 6

end stats

/-- A call of one of the state changing public operations of `game::stats`. -/
inductive stats_op where
  | add_energy (energy : ℚ)
  | add_exp (exp : ℚ)
  | add_health (health : ℚ)
  | add_oxygen (oxy : ℚ)
  | clean
  | clear_alert
  | clear_hit
  | clear_low_energy_flag
  | clear_low_health_flag
  | clear_low_oxygen_flag
  | consume_beam
  | consume_charge
  | consume_grapple
  | consume_grenade
  | consume_jet
  | consume_missile
  | consume_portal
  | consume_scatter
  | consume_thrust
  | consume_energy (energy : ℚ)
  | consume_health (hit : ℚ)
  | consume_oxygen
  | damage (amount : ℚ)
  | fill (stat : Fin 7 → Nat) (energy exp health oxygen : ℚ) (points : Nat)
  | regen_energy
  | regen_health
  | respawn
  | set_point (index : Fin 7)
  | level_up

/-- The effect of a public operation of `game::stats` on the state. -/
def stats_op.apply (L : std_lib) (s : stats) : stats_op → stats
  | stats_op.add_energy e => s.add_energy e
  | stats_op.add_exp e => stats.add_exp L s e
  | stats_op.add_health h => s.add_health h
  | stats_op.add_oxygen o => s.add_oxygen o
  | stats_op.clean => s.clean
  | stats_op.clear_alert => s.clear_alert
  | stats_op.clear_hit => s.clear_hit
  | stats_op.clear_low_energy_flag => s.clear_low_energy_flag
  | stats_op.clear_low_health_flag => s.clear_low_health_flag
  | stats_op.clear_low_oxygen_flag => s.clear_low_oxygen_flag
  | stats_op.consume_beam => s.consume_beam
  | stats_op.consume_charge => s.consume_charge
  | stats_op.consume_grapple => s.consume_grapple
  | stats_op.consume_grenade => s.consume_grenade
  | stats_op.consume_jet => s.consume_jet
  | stats_op.consume_missile => s.consume_missile
  | stats_op.consume_portal => s.consume_portal
  | stats_op.consume_scatter => s.consume_scatter
  | stats_op.consume_thrust => s.consume_thrust
  | stats_op.consume_energy e => s.consume_energy e
  | stats_op.consume_health h => s.consume_health h
  | stats_op.consume_oxygen => s.consume_oxygen
  | stats_op.damage d => s.damage d
  | stats_op.fill st energy exp health oxygen points =>
    stats.fill L s st energy exp health oxygen points
  | stats_op.regen_energy => s.regen_energy
  | stats_op.regen_health => s.regen_health
  | stats_op.respawn => s.respawn
  | stats_op.set_point i => stats.set_point L s i
  | stats_op.level_up => stats.level_up L s

/-- Whether the operation is `respawn`. -/
def stats_op.is_respawn : stats_op → Bool
  | stats_op.respawn => true
  | _ => false

/-- Runs a sequence of public operations of `game::stats` from a state. -/
def stats_run (L : std_lib) (s : stats) (ops : List stats_op) : stats :=
  ops.foldl (stats_op.apply L) s

/-! ## Stream text (`game::ui_text`, `source/game/ui_text.h`) -/

namespace ui_text

/-- Constant `_max_stream`. -/
def _max_stream : Nat := 10
/-- Constant `_console`. -/
def _console : Nat := 0
/-- Constant `_focus`. -/
def _focus : Nat := _console + 1
/-- Constant `_timer`. -/
def _timer : Nat := _focus + 1
/-- Constant `_ui`. -/
def _ui : Nat := _timer + 1
/-- Constant `_alert`. -/
def _alert : Nat := _ui + 2
/-- Constant `_debug`. -/
def _debug : Nat := _alert + 1
/-- Constant `_hover`. -/
def _hover : Nat := _debug + 14
/-- Constant `_stream`. -/
def _stream : Nat := _hover + 2
/-- Constant `_end`. -/
def _end : Nat := _stream + _max_stream
/-- Constant `_max_stream_time`. -/
def _max_stream_time : ℚ := 1

end ui_text

/-- The part of `game::ui_text` that `add_stream_text` touches: the times of
the stream slots (`std::array<stream_text, _max_stream>`), the counter
`_stream_old`, and of the external text buffer the text and the centre of
each entry and the screen size. -/
structure ui_text where
  _st : List ℚ
  _stream_old : Nat
  text : Nat → String
  center : Nat → ℚ × ℚ
  screen : Nat × Nat

namespace ui_text

/-- The part of the constructor that matters here: ten unused stream slots
(time `-1.0`), counter `0`, empty texts. -/
def create (width height : Nat) : ui_text :=
  { _st := List.replicate _max_stream (-1), _stream_old := 0, text := fun _ => "",
    center := fun _ => (0, 0), screen := (width, height) }

/-- The slot index of `add_stream_text`: the value of
`(_stream_old %= _max_stream)++`. -/
def stream_index (u : ui_text) : Nat := u._stream_old % _max_stream

/-- The public `add_stream_text`; `stream_dy` is the constant `_stream_dy`,
declared outside the sources. -/
def add_stream_text (stream_dy : ℚ) (u : ui_text) (str : String) : ui_text :=
  let index := u._stream_old % _max_stream
  let text_index := _stream + index
  let w2 := u.screen.1 / 2
  { u with
    _stream_old := index + 1,
    _st := u._st.set index _max_stream_time,
    text := fun i => if i = text_index then str else u.text i,
    center := fun i => if i = text_index then ((w2 : ℚ), stream_dy) else u.center i }

/-- The state after `k` calls of `add_stream_text` from construction, the
`i`-th call (from `0`) with the text `strs i`. -/
def after (stream_dy : ℚ) (width height : Nat) (strs : Nat → String) : Nat → ui_text
  | 0 => create width height
  | k + 1 => add_stream_text stream_dy (after stream_dy width height strs k) (strs k)

end ui_text

/-! ## Concrete statistics used to evaluate the operations -/

namespace sample

/-- A stand in for the standard library: `sqrt` and `log10` are the
identity, `exp` is constant `1`, sixty physics frames per second. -/
def std : std_lib :=
  { sqrt := fun x => x, log10 := fun x => x, exp := fun _ => 1, physics_frames := 60 }

/-- The statistics of a new player. -/
def player : stats := stats.create std

/-- The new player with one stat point to spend and power `65535`. -/
def maxed : stats :=
  { player with _stat := ![65535, 3, 5, 2, 0, 3, 1], _stat_points := 1 }

/-- The new player with three stat points to spend. -/
def rich : stats := { player with _stat_points := 3 }

end sample

/-! ## Frame lemmas: what each operation does to the placement state -/

namespace world

@[simp] theorem record_scale (w : world) (cs : List call) :
    (w.record cs)._scale = w._scale := rfl

@[simp] theorem record_cached_offset (w : world) (cs : List call) :
    (w.record cs)._cached_offset = w._cached_offset := rfl

@[simp] theorem record_preview_offset (w : world) (cs : List call) :
    (w.record cs)._preview_offset = w._preview_offset := rfl

@[simp] theorem record_edit_mode (w : world) (cs : List call) :
    (w.record cs)._edit_mode = w._edit_mode := rfl

@[simp] theorem generate_gb_scale (w : world) : w.generate_gb._scale = w._scale := rfl

@[simp] theorem generate_gb_cached_offset (w : world) :
    w.generate_gb._cached_offset = w._cached_offset := rfl

@[simp] theorem generate_gb_preview_offset (w : world) :
    w.generate_gb._preview_offset = w._preview_offset := rfl

@[simp] theorem generate_gb_edit_mode (w : world) :
    w.generate_gb._edit_mode = w._edit_mode := rfl

@[simp] theorem generate_pb_scale (w : world) : w.generate_pb._scale = w._scale := rfl

@[simp] theorem generate_pb_cached_offset (w : world) :
    w.generate_pb._cached_offset = w._cached_offset := rfl

@[simp] theorem generate_pb_preview_offset (w : world) :
    w.generate_pb._preview_offset = w._cached_offset := rfl

@[simp] theorem generate_pb_edit_mode (w : world) :
    w.generate_pb._edit_mode = w._edit_mode := rfl

@[simp] theorem add_block_scale (w : world) (c : vec3 ℚ) :
    (w.add_block c)._scale = w._scale := rfl

@[simp] theorem add_block_ray_scale (w : world) (r : ray) :
    (w.add_block_ray r)._scale = w._scale := rfl

@[simp] theorem remove_block_scale (M : min_lib) (w : world) (p q : vec3 ℚ) :
    (remove_block M w p q)._scale = w._scale := by
  simp only [remove_block]
  split_ifs <;> rfl

@[simp] theorem remove_block_ray_scale (w : world) (r : ray) :
    (w.remove_block_ray r)._scale = w._scale := by
  simp only [remove_block_ray]
  split_ifs <;> rfl

@[simp] theorem remove_block_edit_mode (M : min_lib) (w : world) (p q : vec3 ℚ) :
    (remove_block M w p q)._edit_mode = w._edit_mode := by
  simp only [remove_block]
  split_ifs <;> rfl

@[simp] theorem remove_block_cached_offset (M : min_lib) (w : world) (p q : vec3 ℚ) :
    (remove_block M w p q)._cached_offset = w._cached_offset := by
  simp only [remove_block]
  split_ifs <;> rfl

@[simp] theorem remove_block_preview_offset (M : min_lib) (w : world) (p q : vec3 ℚ) :
    (remove_block M w p q)._preview_offset = w._preview_offset := by
  simp only [remove_block]
  split_ifs <;> rfl

@[simp] theorem character_jump_scale (w : world) (v : vec3 ℚ) :
    (w.character_jump v)._scale = w._scale := by
  simp only [character_jump]
  split_ifs <;> rfl

@[simp] theorem character_move_scale (M : min_lib) (w : world) (v : vec3 ℚ) :
    (character_move M w v)._scale = w._scale := rfl

@[simp] theorem character_ai_scale (M : min_lib) (w : world) (d : vec3 ℚ) :
    (character_ai M w d)._scale = w._scale := by
  simp only [character_ai]
  split_ifs <;> rfl

@[simp] theorem cross_chunk_scale (w : world) : w.cross_chunk._scale = w._scale := by
  simp only [cross_chunk]
  split_ifs <;> rfl

@[simp] theorem physics_step_scale (M : min_lib) (w : world) (dt : ℚ) :
    (physics_step M w dt)._scale = w._scale := rfl

@[simp] theorem physics_loop_scale (M : min_lib) (dt : ℚ) (n : Nat) (w : world) :
    (physics_loop M dt n w)._scale = w._scale := by
  induction n generalizing w with
  | zero => rfl
  | succ n ih => simp [physics_loop, ih]

@[simp] theorem update_uniform_scale (M : min_lib) (w : world) (cam : camera) :
    (update_uniform M w cam)._scale = w._scale := rfl

@[simp] theorem update_scale (M : min_lib) (w : world) (cam : camera) (dt : ℚ) :
    (update M w cam dt)._scale = w._scale := by
  simp [update]

@[simp] theorem draw_scale (w : world) (dt : ℚ) : (w.draw dt)._scale = w._scale := by
  simp only [draw]
  split_ifs <;> rfl

@[simp] theorem reset_scale_scale (w : world) : w.reset_scale._scale = ⟨1, 1, 1⟩ := rfl

@[simp] theorem set_atlas_id_scale (w : world) (id : Int) :
    (w.set_atlas_id id)._scale = w._scale := rfl

@[simp] theorem toggle_edit_mode_scale (w : world) :
    w.toggle_edit_mode._scale = w._scale := rfl

@[simp] theorem toggle_ai_mode_scale (w : world) :
    w.toggle_ai_mode._scale = w._scale := rfl

theorem grappling_scale (M : min_lib) (w : world) (r : ray) :
    (grappling M w r)._scale = w._scale ∨ (grappling M w r)._scale = ⟨1, 1, 1⟩ := by
  by_cases h : w._grid.grid_value (w._grid.ray_trace_after r 100) = -1
  · left; simp [grappling, h]
  · right; simp [grappling, h]

/-- The placement state of every constructed world: scale `(1,1,1)`, both
offsets `(1,1,1)`, edit mode off. -/
theorem create_placement (M : min_lib) (proto : cgrid) (path : ai_path)
    (state : vec3 ℚ × Bool) (grid_size chunk_size view_chunk_size : Nat) (w : world)
    (h : create M proto path state grid_size chunk_size view_chunk_size = Except.ok w) :
    w._scale = ⟨1, 1, 1⟩ ∧ w._cached_offset = ⟨1, 1, 1⟩ ∧
      w._preview_offset = ⟨1, 1, 1⟩ ∧ w._edit_mode = false := by
  unfold create cgrid.create at h
  by_cases hd : grid_size % chunk_size = 0
  · simp only [hd, ne_eq, not_true_eq_false, if_false, Except.ok.injEq] at h
    subst h
    unfold character_load
    cases hs : state.2 <;> simp
  · simp [hd] at h

end world

/-! ## Construction -/

theorem create_sample :
    world.create sample.lib sample.grid sample.path sample.start 32 8 3 =
      Except.ok sample.fresh := by
  rfl

/-- C1: for positive `grid_size` and `chunk_size`, constructing the world
fails exactly when `grid_size % chunk_size != 0`, and succeeds exactly when
the chunk size divides the grid size. -/
theorem create_fails_iff (M : min_lib) (proto : cgrid) (path : ai_path)
    (state : vec3 ℚ × Bool) (grid_size chunk_size view_chunk_size : Nat)
    (_hg : 0 < grid_size) (_hc : 0 < chunk_size) :
    ((∃ e, world.create M proto path state grid_size chunk_size view_chunk_size =
        Except.error e) ↔ grid_size % chunk_size ≠ 0) ∧
    ((∃ w, world.create M proto path state grid_size chunk_size view_chunk_size =
        Except.ok w) ↔ grid_size % chunk_size = 0) := by
  by_cases h : grid_size % chunk_size = 0
  · simp [world.create, cgrid.create, h]
  · simp [world.create, cgrid.create, h]

/-- C1, the two scenarios: `(32, 8)` constructs and `(32, 7)` fails. -/
theorem create_fails_iff_witness :
    (∃ w, world.create sample.lib sample.grid sample.path sample.start 32 8 3 =
        Except.ok w) ∧
    (∃ e, world.create sample.lib sample.grid sample.path sample.start 32 7 3 =
        Except.error e) :=
  ⟨(create_fails_iff sample.lib sample.grid sample.path sample.start 32 8 3
      (by decide) (by decide)).2.mpr (by decide),
   (create_fails_iff sample.lib sample.grid sample.path sample.start 32 7 3
      (by decide) (by decide)).1.mpr (by decide)⟩

/-! ## Scale adjustment -/

theorem set_scale_x_le (w : world) (d : Nat) (hd : d ≤ 1)
    (h : w._scale.x ≤ 5 ∧ w._scale.y ≤ 5 ∧ w._scale.z ≤ 5) :
    (w.set_scale_x d)._scale.x ≤ 5 ∧ (w.set_scale_x d)._scale.y ≤ 5 ∧
      (w.set_scale_x d)._scale.z ≤ 5 := by
  simp only [world.set_scale_x]
  split_ifs with h1 h2 h3
  · simpa using h
  · have hm : (w._scale.x + d) % 2 ^ 32 = w._scale.x + d :=
      Nat.mod_eq_of_lt (by norm_num; omega)
    simp only [world.generate_pb_scale, hm]
    omega
  · exact h
  · exact h

theorem set_scale_y_le (w : world) (d : Nat) (hd : d ≤ 1)
    (h : w._scale.x ≤ 5 ∧ w._scale.y ≤ 5 ∧ w._scale.z ≤ 5) :
    (w.set_scale_y d)._scale.x ≤ 5 ∧ (w.set_scale_y d)._scale.y ≤ 5 ∧
      (w.set_scale_y d)._scale.z ≤ 5 := by
  simp only [world.set_scale_y]
  split_ifs with h1 h2 h3
  · simpa using h
  · have hm : (w._scale.y + d) % 2 ^ 32 = w._scale.y + d :=
      Nat.mod_eq_of_lt (by norm_num; omega)
    simp only [world.generate_pb_scale, hm]
    omega
  · exact h
  · exact h

theorem set_scale_z_le (w : world) (d : Nat) (hd : d ≤ 1)
    (h : w._scale.x ≤ 5 ∧ w._scale.y ≤ 5 ∧ w._scale.z ≤ 5) :
    (w.set_scale_z d)._scale.x ≤ 5 ∧ (w.set_scale_z d)._scale.y ≤ 5 ∧
      (w.set_scale_z d)._scale.z ≤ 5 := by
  simp only [world.set_scale_z]
  split_ifs with h1 h2 h3
  · simpa using h
  · have hm : (w._scale.z + d) % 2 ^ 32 = w._scale.z + d :=
      Nat.mod_eq_of_lt (by norm_num; omega)
    simp only [world.generate_pb_scale, hm]
    omega
  · exact h
  · exact h

/-- Every public operation whose delta is at most one keeps all scale
components at most five. -/
theorem apply_scale_le (M : min_lib) (w : world) (o : op) (ho : o.unit_delta)
    (h : w._scale.x ≤ 5 ∧ w._scale.y ≤ 5 ∧ w._scale.z ≤ 5) :
    (o.apply M w)._scale.x ≤ 5 ∧ (o.apply M w)._scale.y ≤ 5 ∧
      (o.apply M w)._scale.z ≤ 5 := by
  cases o with
  | set_scale_x d => exact set_scale_x_le w d ho h
  | set_scale_y d => exact set_scale_y_le w d ho h
  | set_scale_z d => exact set_scale_z_le w d ho h
  | reset_scale => simp [op.apply]
  | grappling r =>
    rcases world.grappling_scale M w r with hg | hg
    · simpa [op.apply, hg] using h
    · simp [op.apply, hg]
  | _ => simpa [op.apply] using h

theorem run_scale_le (M : min_lib) (ops : List op) (w : world)
    (hops : ∀ o ∈ ops, o.unit_delta)
    (h : w._scale.x ≤ 5 ∧ w._scale.y ≤ 5 ∧ w._scale.z ≤ 5) :
    (run M w ops)._scale.x ≤ 5 ∧ (run M w ops)._scale.y ≤ 5 ∧
      (run M w ops)._scale.z ≤ 5 := by
  induction ops generalizing w with
  | nil => exact h
  | cons o rest ih =>
    have h1 := apply_scale_le M w o (hops o (List.mem_cons_self o rest)) h
    exact ih (o.apply M w) (fun q hq => hops q (List.mem_cons_of_mem o hq)) h1

/-- C2 as stated fails: the increment is not clamped. From the constructed
world, switching edit mode on and calling `set_scale_x(7)` stores `1 + 7 = 8`
in `scale.x`, which exceeds five. -/
theorem set_scale_x_exceeds_five :
    world.create sample.lib sample.grid sample.path sample.start 32 8 3 =
        Except.ok sample.fresh ∧
      (run sample.lib sample.fresh [op.toggle_edit_mode, op.set_scale_x 7])._scale.x = 8 ∧
      ¬ (run sample.lib sample.fresh [op.toggle_edit_mode, op.set_scale_x 7])._scale.x ≤ 5 := by
  refine ⟨rfl, ?_, ?_⟩ <;> decide!

/-- C2 (amended): in every state reached from construction through public
operations whose scale deltas are all at most one, every component of the
placement scale is at most five. The sum itself is not clamped: a call either
leaves the axis scale alone or, when it was below five, stores the unsigned
sum of the old value and the whole delta. -/
theorem scale_le_five_of_unit_deltas (M : min_lib) (proto : cgrid) (path : ai_path)
    (state : vec3 ℚ × Bool) (grid_size chunk_size view_chunk_size : Nat) (w0 : world)
    (h : world.create M proto path state grid_size chunk_size view_chunk_size =
      Except.ok w0)
    (ops : List op) (hops : ∀ o ∈ ops, o.unit_delta) :
    ((run M w0 ops)._scale.x ≤ 5 ∧ (run M w0 ops)._scale.y ≤ 5 ∧
      (run M w0 ops)._scale.z ≤ 5) ∧
    ∀ (w : world) (d : Nat),
      ((w.set_scale_x d)._scale.x = w._scale.x ∨
        (w._scale.x < 5 ∧ (w.set_scale_x d)._scale.x = (w._scale.x + d) % 2 ^ 32)) ∧
      ((w.set_scale_y d)._scale.y = w._scale.y ∨
        (w._scale.y < 5 ∧ (w.set_scale_y d)._scale.y = (w._scale.y + d) % 2 ^ 32)) ∧
      ((w.set_scale_z d)._scale.z = w._scale.z ∨
        (w._scale.z < 5 ∧ (w.set_scale_z d)._scale.z = (w._scale.z + d) % 2 ^ 32)) := by
  have hp := world.create_placement M proto path state grid_size chunk_size
    view_chunk_size w0 h
  refine ⟨run_scale_le M ops w0 hops (by simp [hp.1]), ?_⟩
  intro w d
  refine ⟨?_, ?_, ?_⟩
  · simp only [world.set_scale_x]
    split_ifs with h1 h2 h3
    · left; rfl
    · right; exact ⟨h3, rfl⟩
    · left; rfl
    · left; rfl
  · simp only [world.set_scale_y]
    split_ifs with h1 h2 h3
    · left; rfl
    · right; exact ⟨h3, rfl⟩
    · left; rfl
    · left; rfl
  · simp only [world.set_scale_z]
    split_ifs with h1 h2 h3
    · left; rfl
    · right; exact ⟨h3, rfl⟩
    · left; rfl
    · left; rfl

/-- C2 (amended), at the constructed sample world: edit mode on, then seven
unit steps of `set_scale_x`. -/
theorem scale_le_five_of_unit_deltas_witness :
    (run sample.lib sample.fresh
        (op.toggle_edit_mode :: List.replicate 7 (op.set_scale_x 1)))._scale.x ≤ 5 :=
  (scale_le_five_of_unit_deltas sample.lib sample.grid sample.path sample.start 32 8 3
    sample.fresh create_sample
    (op.toggle_edit_mode :: List.replicate 7 (op.set_scale_x 1))
    (by simp [op.unit_delta, List.replicate])).1.1

/-- One unit step of `set_scale_x` in edit mode with agreeing offsets: the x
scale moves one up until it reaches five, everything else in the placement
state stays. -/
theorem set_scale_x_unit_step (w : world) (he : w._edit_mode = true)
    (ho : w._cached_offset = w._preview_offset) (hx : w._scale.x ≤ 5) :
    (w.set_scale_x 1)._scale.x = min (w._scale.x + 1) 5 ∧
      (w.set_scale_x 1)._scale.y = w._scale.y ∧
      (w.set_scale_x 1)._scale.z = w._scale.z ∧
      (w.set_scale_x 1)._edit_mode = true ∧
      (w.set_scale_x 1)._cached_offset = (w.set_scale_x 1)._preview_offset := by
  have hox : w._cached_offset.x = w._preview_offset.x := by rw [ho]
  by_cases h3 : w._scale.x < 5
  · have e : w.set_scale_x 1 =
        world.generate_pb
          { w with _scale := { w._scale with x := (w._scale.x + 1) % 2 ^ 32 } } := by
      simp [world.set_scale_x, he, hox, h3]
    have hm : (w._scale.x + 1) % 2 ^ 32 = w._scale.x + 1 :=
      Nat.mod_eq_of_lt (by norm_num; omega)
    rw [e]
    refine ⟨?_, rfl, rfl, he, rfl⟩
    show (w._scale.x + 1) % 2 ^ 32 = min (w._scale.x + 1) 5
    rw [hm]
    omega
  · have e : w.set_scale_x 1 = w := by
      simp [world.set_scale_x, he, hox, h3]
    rw [e]
    refine ⟨?_, rfl, rfl, he, ho⟩
    omega

theorem set_scale_x_iterate (w : world) (he : w._edit_mode = true)
    (ho : w._cached_offset = w._preview_offset) (hx : w._scale.x ≤ 5) (k : Nat) :
    ((fun v => world.set_scale_x v 1)^[k] w)._scale.x = min (w._scale.x + k) 5 ∧
      ((fun v => world.set_scale_x v 1)^[k] w)._scale.y = w._scale.y ∧
      ((fun v => world.set_scale_x v 1)^[k] w)._scale.z = w._scale.z ∧
      ((fun v => world.set_scale_x v 1)^[k] w)._edit_mode = true ∧
      ((fun v => world.set_scale_x v 1)^[k] w)._cached_offset =
        ((fun v => world.set_scale_x v 1)^[k] w)._preview_offset := by
  induction k with
  | zero => exact ⟨by simp [hx], rfl, rfl, he, ho⟩
  | succ k ih =>
    rw [Function.iterate_succ_apply']
    obtain ⟨i1, i2, i3, i4, i5⟩ := ih
    have hs := set_scale_x_unit_step _ i4 i5 (by rw [i1]; exact min_le_right _ _)
    obtain ⟨s1, s2, s3, s4, s5⟩ := hs
    refine ⟨?_, by rw [s2, i2], by rw [s3, i3], s4, s5⟩
    rw [s1, i1]
    omega

/-- C3: from a freshly constructed world with edit mode switched on, ten
calls of `set_scale_x(1)` leave `scale.x == 5`; after each of the ten calls
`scale.x` is at most five, `scale.y` and `scale.z` are still one, and the
cached offset still equals the locked preview offset. -/
theorem set_scale_x_ten_times (M : min_lib) (proto : cgrid) (path : ai_path)
    (state : vec3 ℚ × Bool) (grid_size chunk_size view_chunk_size : Nat) (w0 : world)
    (h : world.create M proto path state grid_size chunk_size view_chunk_size =
      Except.ok w0) :
    w0._scale = ⟨1, 1, 1⟩ ∧
    (∀ k, k ≤ 10 →
      ((fun v => world.set_scale_x v 1)^[k] w0.toggle_edit_mode)._scale.x ≤ 5 ∧
      ((fun v => world.set_scale_x v 1)^[k] w0.toggle_edit_mode)._scale.y = 1 ∧
      ((fun v => world.set_scale_x v 1)^[k] w0.toggle_edit_mode)._scale.z = 1 ∧
      ((fun v => world.set_scale_x v 1)^[k] w0.toggle_edit_mode)._cached_offset =
        ((fun v => world.set_scale_x v 1)^[k] w0.toggle_edit_mode)._preview_offset) ∧
    ((fun v => world.set_scale_x v 1)^[10] w0.toggle_edit_mode)._scale.x = 5 := by
  obtain ⟨p1, p2, p3, p4⟩ := world.create_placement M proto path state grid_size
    chunk_size view_chunk_size w0 h
  have he : w0.toggle_edit_mode._edit_mode = true := by
    simp [world.toggle_edit_mode, p4]
  have ho : w0.toggle_edit_mode._cached_offset = w0.toggle_edit_mode._preview_offset := by
    simp [world.toggle_edit_mode, p2, p3]
  have hs : w0.toggle_edit_mode._scale = ⟨1, 1, 1⟩ := by
    simp [p1]
  have hx : w0.toggle_edit_mode._scale.x ≤ 5 := by
    rw [hs]; decide
  refine ⟨p1, ?_, ?_⟩
  · intro k _
    obtain ⟨i1, i2, i3, _, i5⟩ := set_scale_x_iterate _ he ho hx k
    refine ⟨by rw [i1]; exact min_le_right _ _, by rw [i2, hs], by rw [i3, hs], i5⟩
  · obtain ⟨i1, _⟩ := set_scale_x_iterate _ he ho hx 10
    rw [i1, hs]
    rfl

/-- C3 at the constructed sample world. -/
theorem set_scale_x_ten_times_witness :
    ((fun v => world.set_scale_x v 1)^[10] sample.fresh.toggle_edit_mode)._scale.x = 5 :=
  (set_scale_x_ten_times sample.lib sample.grid sample.path sample.start 32 8 3
    sample.fresh create_sample).2.2

/-- C4 as stated fails: the comparison is per axis, not on the offset
vectors. After the player turned to negative z the cached offset `(1,1,-1)`
differs from the locked preview offset `(1,1,1)`, yet `set_scale_x(1)` finds
the x components equal and changes the scale. -/
theorem set_scale_x_ignores_other_axes :
    sample.turned._edit_mode = true ∧
      sample.turned._cached_offset = ⟨1, 1, -1⟩ ∧
      sample.turned._preview_offset = ⟨1, 1, 1⟩ ∧
      sample.turned._cached_offset ≠ sample.turned._preview_offset ∧
      sample.turned._scale = ⟨1, 1, 1⟩ ∧
      (sample.turned.set_scale_x 1)._scale = ⟨2, 1, 1⟩ ∧
      (sample.turned.set_scale_x 1)._scale ≠ sample.turned._scale := by
  refine ⟨?_, ?_, ?_, ?_, ?_, ?_, ?_⟩ <;> decide!

/-- C4 (amended): with edit mode on, whenever the cached offset differs from
the locked preview offset in the component of the operation's own axis, the
call `set_scale_x/y/z(delta)` leaves the scale vector and the cached offset
unchanged and regenerates the preview (it is exactly `generate_pb`), so that
afterwards the locked preview offset equals the cached offset. -/
theorem set_scale_regenerates_on_axis_mismatch (w : world) (delta : Nat)
    (h : w._edit_mode = true) :
    (w._cached_offset.x ≠ w._preview_offset.x →
      w.set_scale_x delta = w.generate_pb ∧
      (w.set_scale_x delta)._scale = w._scale ∧
      (w.set_scale_x delta)._cached_offset = w._cached_offset ∧
      (w.set_scale_x delta)._preview_offset = (w.set_scale_x delta)._cached_offset) ∧
    (w._cached_offset.y ≠ w._preview_offset.y →
      w.set_scale_y delta = w.generate_pb ∧
      (w.set_scale_y delta)._scale = w._scale ∧
      (w.set_scale_y delta)._cached_offset = w._cached_offset ∧
      (w.set_scale_y delta)._preview_offset = (w.set_scale_y delta)._cached_offset) ∧
    (w._cached_offset.z ≠ w._preview_offset.z →
      w.set_scale_z delta = w.generate_pb ∧
      (w.set_scale_z delta)._scale = w._scale ∧
      (w.set_scale_z delta)._cached_offset = w._cached_offset ∧
      (w.set_scale_z delta)._preview_offset = (w.set_scale_z delta)._cached_offset) := by
  refine ⟨?_, ?_, ?_⟩
  · intro hne
    have e : w.set_scale_x delta = w.generate_pb := by
      simp [world.set_scale_x, h, hne]
    rw [e]
    exact ⟨rfl, rfl, rfl, rfl⟩
  · intro hne
    have e : w.set_scale_y delta = w.generate_pb := by
      simp [world.set_scale_y, h, hne]
    rw [e]
    exact ⟨rfl, rfl, rfl, rfl⟩
  · intro hne
    have e : w.set_scale_z delta = w.generate_pb := by
      simp [world.set_scale_z, h, hne]
    rw [e]
    exact ⟨rfl, rfl, rfl, rfl⟩

/-- C4 (amended) at a state whose offsets differ on every axis: each of the
three operations, called with delta `3`, keeps the scale and locks the
preview offset to the cached one. -/
theorem set_scale_regenerates_on_axis_mismatch_witness :
    ((sample.skewed.set_scale_x 3)._scale = sample.skewed._scale ∧
      (sample.skewed.set_scale_x 3)._preview_offset =
        (sample.skewed.set_scale_x 3)._cached_offset) ∧
    ((sample.skewed.set_scale_y 3)._scale = sample.skewed._scale ∧
      (sample.skewed.set_scale_y 3)._preview_offset =
        (sample.skewed.set_scale_y 3)._cached_offset) ∧
    ((sample.skewed.set_scale_z 3)._scale = sample.skewed._scale ∧
      (sample.skewed.set_scale_z 3)._preview_offset =
        (sample.skewed.set_scale_z 3)._cached_offset) :=
  have t := set_scale_regenerates_on_axis_mismatch sample.skewed 3 (by decide!)
  ⟨⟨(t.1 (by decide!)).2.1, (t.1 (by decide!)).2.2.2⟩,
   ⟨(t.2.1 (by decide!)).2.1, (t.2.1 (by decide!)).2.2.2⟩,
   ⟨(t.2.2 (by decide!)).2.1, (t.2.2 (by decide!)).2.2.2⟩⟩

/-- C5: with edit mode off, `set_scale_x`, `set_scale_y` and `set_scale_z`
return the state they were given, for every delta: scale, cached offset,
locked preview offset, preview buffer and the record of collaborator calls
are all unchanged. -/
theorem set_scale_noop_when_edit_off (w : world) (delta : Nat)
    (h : w._edit_mode = false) :
    (w.set_scale_x delta = w ∧ w.set_scale_y delta = w ∧ w.set_scale_z delta = w) ∧
    ((w.set_scale_x delta)._scale = w._scale ∧
      (w.set_scale_x delta)._cached_offset = w._cached_offset ∧
      (w.set_scale_x delta)._preview_offset = w._preview_offset ∧
      (w.set_scale_x delta)._pb = w._pb) ∧
    ((w.set_scale_y delta)._scale = w._scale ∧
      (w.set_scale_y delta)._cached_offset = w._cached_offset ∧
      (w.set_scale_y delta)._preview_offset = w._preview_offset ∧
      (w.set_scale_y delta)._pb = w._pb) ∧
    ((w.set_scale_z delta)._scale = w._scale ∧
      (w.set_scale_z delta)._cached_offset = w._cached_offset ∧
      (w.set_scale_z delta)._preview_offset = w._preview_offset ∧
      (w.set_scale_z delta)._pb = w._pb) := by
  have ex : w.set_scale_x delta = w := by simp [world.set_scale_x, h]
  have ey : w.set_scale_y delta = w := by simp [world.set_scale_y, h]
  have ez : w.set_scale_z delta = w := by simp [world.set_scale_z, h]
  rw [ex, ey, ez]
  exact ⟨⟨rfl, rfl, rfl⟩, ⟨rfl, rfl, rfl, rfl⟩, ⟨rfl, rfl, rfl, rfl⟩, ⟨rfl, rfl, rfl, rfl⟩⟩

/-- C5 at the constructed sample world, whose edit mode is off. -/
theorem set_scale_noop_when_edit_off_witness :
    sample.fresh._edit_mode = false ∧ sample.fresh.set_scale_x 4 = sample.fresh ∧
      sample.fresh.set_scale_y 4 = sample.fresh ∧
      sample.fresh.set_scale_z 4 = sample.fresh :=
  ⟨by decide!, (set_scale_noop_when_edit_off sample.fresh 4 (by decide!)).1⟩

/-! ## Placement and removal -/

theorem since_append (w v : world) (cs : List call) (h : v.calls = w.calls ++ cs) :
    world.since w v = cs := by
  unfold world.since
  rw [h]
  exact List.drop_left _ _

theorem generate_gb_calls (w : world) :
    w.generate_gb.calls = w.calls ++ world.gb_calls w._grid := rfl

/-- One rebuild of the geometry buffer is one clear and one upload, and it
touches neither the grid nor the particles. -/
theorem gb_calls_count (g : cgrid) :
    (world.gb_calls g).countP call.is_gb_clear = 1 ∧
      (world.gb_calls g).countP call.is_gb_upload = 1 ∧
      (world.gb_calls g).countP call.is_set_geometry = 0 ∧
      (world.gb_calls g).countP call.is_particles = 0 := by
  have hmap : ∀ (p : call → Bool) (ms : List mesh),
      (∀ m, p (call.gb_add_mesh m) = false) →
      (ms.map call.gb_add_mesh).countP p = 0 := by
    intro p ms hp
    rw [List.countP_eq_zero]
    intro a ha
    obtain ⟨m, _, rfl⟩ := List.mem_map.mp ha
    simp [hp m]
  refine ⟨?_, ?_, ?_, ?_⟩ <;>
    simp [world.gb_calls, List.countP_cons, hmap, call.is_gb_clear, call.is_gb_upload,
      call.is_set_geometry, call.is_particles]

/-- C6: `add_block` resolves its target as `snap(center)` (point form) or
`ray_trace_before(ray, 4)` (ray form), makes exactly one `set_geometry`
write at that target with the scale, the locked preview offset and the atlas
id of the state, and then rebuilds the geometry buffer exactly once from the
written grid, whatever the write returned: the calls made are the write
followed by one `generate_gb` run. -/
theorem add_block_writes_then_rebuilds (w : world) (center : vec3 ℚ) (r : ray) :
    (world.since w (w.add_block center) =
        call.grid_set_geometry (world.snap center) w._scale w._preview_offset
            w._grid.get_atlas ::
          world.gb_calls
            (w._grid.set_geometry (world.snap center) w._scale w._preview_offset
              w._grid.get_atlas).1 ∧
      (w.add_block center)._grid =
        (w._grid.set_geometry (world.snap center) w._scale w._preview_offset
          w._grid.get_atlas).1 ∧
      (w.add_block center)._gb = world.gb_meshes (w.add_block center)._grid ∧
      (world.since w (w.add_block center)).countP call.is_set_geometry = 1 ∧
      (world.since w (w.add_block center)).countP call.is_gb_clear = 1 ∧
      (world.since w (w.add_block center)).countP call.is_gb_upload = 1) ∧
    (world.since w (w.add_block_ray r) =
        call.grid_set_geometry (w._grid.ray_trace_before r 4) w._scale w._preview_offset
            w._grid.get_atlas ::
          world.gb_calls
            (w._grid.set_geometry (w._grid.ray_trace_before r 4) w._scale
              w._preview_offset w._grid.get_atlas).1 ∧
      (w.add_block_ray r)._grid =
        (w._grid.set_geometry (w._grid.ray_trace_before r 4) w._scale w._preview_offset
          w._grid.get_atlas).1 ∧
      (w.add_block_ray r)._gb = world.gb_meshes (w.add_block_ray r)._grid ∧
      (world.since w (w.add_block_ray r)).countP call.is_set_geometry = 1 ∧
      (world.since w (w.add_block_ray r)).countP call.is_gb_clear = 1 ∧
      (world.since w (w.add_block_ray r)).countP call.is_gb_upload = 1) := by
  have e1 : world.since w (w.add_block center) =
      call.grid_set_geometry (world.snap center) w._scale w._preview_offset
          w._grid.get_atlas ::
        world.gb_calls
          (w._grid.set_geometry (world.snap center) w._scale w._preview_offset
            w._grid.get_atlas).1 := by
    apply since_append
    simp [world.add_block, generate_gb_calls, world.record]
  have e2 : world.since w (w.add_block_ray r) =
      call.grid_set_geometry (w._grid.ray_trace_before r 4) w._scale w._preview_offset
          w._grid.get_atlas ::
        world.gb_calls
          (w._grid.set_geometry (w._grid.ray_trace_before r 4) w._scale
            w._preview_offset w._grid.get_atlas).1 := by
    apply since_append
    simp [world.add_block_ray, generate_gb_calls, world.record]
  refine ⟨⟨e1, rfl, rfl, ?_, ?_, ?_⟩, ⟨e2, rfl, rfl, ?_, ?_, ?_⟩⟩
  all_goals
    first
    | rw [e1]
    | rw [e2]
  all_goals
    simp [List.countP_cons, gb_calls_count, call.is_set_geometry, call.is_gb_clear,
      call.is_gb_upload]

/-- C7: both forms of `remove_block` make exactly one `set_geometry` write of
`-1` at the resolved target (`snap(point)`, or `ray_trace_after(ray, 5)`).
When the returned `removed_count` is positive the geometry buffer is rebuilt
once and one particle burst is loaded; when it is zero the write is the only
collaborator call, and the geometry buffer and the particle system are what
they were. -/
theorem remove_block_writes_then_reacts (M : min_lib) (w : world)
    (point position : vec3 ℚ) (r : ray) :
    (world.since w (world.remove_block M w point position) =
        call.grid_set_geometry (world.snap point) w._scale w._preview_offset (-1) ::
          (if 0 < (w.removal (world.snap point)).2 then
            world.gb_calls (w.removal (world.snap point)).1 ++
              [call.particles_load point (M.normalize (position.sub point)) 5]
          else []) ∧
      (world.remove_block M w point position)._grid = (w.removal (world.snap point)).1 ∧
      (world.remove_block M w point position)._gb =
        (if 0 < (w.removal (world.snap point)).2 then
          world.gb_meshes (w.removal (world.snap point)).1 else w._gb) ∧
      (world.remove_block M w point position)._particles =
        (if 0 < (w.removal (world.snap point)).2 then
          w._particles.load point (M.normalize (position.sub point)) 5
        else w._particles) ∧
      (world.since w (world.remove_block M w point position)).countP
        call.is_set_geometry = 1 ∧
      (world.since w (world.remove_block M w point position)).countP
        call.is_gb_upload = (if 0 < (w.removal (world.snap point)).2 then 1 else 0) ∧
      (world.since w (world.remove_block M w point position)).countP
        call.is_particles = (if 0 < (w.removal (world.snap point)).2 then 1 else 0)) ∧
    (world.since w (w.remove_block_ray r) =
        call.grid_set_geometry (w._grid.ray_trace_after r 5) w._scale w._preview_offset
            (-1) ::
          (if 0 < (w.removal (w._grid.ray_trace_after r 5)).2 then
            world.gb_calls (w.removal (w._grid.ray_trace_after r 5)).1 ++
              [call.particles_load (w._grid.ray_trace_after r 5)
                (r.direction.scale (-1)) 5]
          else []) ∧
      (w.remove_block_ray r)._grid = (w.removal (w._grid.ray_trace_after r 5)).1 ∧
      (w.remove_block_ray r)._gb =
        (if 0 < (w.removal (w._grid.ray_trace_after r 5)).2 then
          world.gb_meshes (w.removal (w._grid.ray_trace_after r 5)).1 else w._gb) ∧
      (w.remove_block_ray r)._particles =
        (if 0 < (w.removal (w._grid.ray_trace_after r 5)).2 then
          w._particles.load (w._grid.ray_trace_after r 5) (r.direction.scale (-1)) 5
        else w._particles) ∧
      (world.since w (w.remove_block_ray r)).countP call.is_set_geometry = 1 ∧
      (world.since w (w.remove_block_ray r)).countP call.is_gb_upload =
        (if 0 < (w.removal (w._grid.ray_trace_after r 5)).2 then 1 else 0) ∧
      (world.since w (w.remove_block_ray r)).countP call.is_particles =
        (if 0 < (w.removal (w._grid.ray_trace_after r 5)).2 then 1 else 0)) := by
  have hc := gb_calls_count
  constructor
  · by_cases hn : 0 < (w.removal (world.snap point)).2
    · have hn2 : (w._grid.set_geometry (world.snap point) w._scale w._preview_offset
          (-1)).2 > 0 := hn
      have e : world.since w (world.remove_block M w point position) =
          call.grid_set_geometry (world.snap point) w._scale w._preview_offset (-1) ::
            (world.gb_calls (w.removal (world.snap point)).1 ++
              [call.particles_load point (M.normalize (position.sub point)) 5]) := by
        apply since_append
        simp [world.remove_block, hn2, generate_gb_calls, world.record, world.removal]
      rw [e]
      simp only [hn, if_true]
      refine ⟨trivial, ?_, ?_, ?_, ?_, ?_, ?_⟩
      · simp [world.remove_block, hn2, world.removal, world.record, world.generate_gb]
      · simp [world.remove_block, hn2, world.removal, world.record, world.generate_gb]
      · simp [world.remove_block, hn2, world.removal, world.record, world.generate_gb]
      · simp [List.countP_cons, hc, call.is_set_geometry]
      · simp [List.countP_cons, hc, call.is_gb_upload]
      · simp [List.countP_cons, hc, call.is_particles]
    · have hn2 : ¬ (w._grid.set_geometry (world.snap point) w._scale w._preview_offset
          (-1)).2 > 0 := hn
      have e : world.since w (world.remove_block M w point position) =
          [call.grid_set_geometry (world.snap point) w._scale w._preview_offset (-1)] := by
        apply since_append
        simp [world.remove_block, hn2, world.record]
      rw [e]
      simp only [hn, if_false]
      refine ⟨trivial, ?_, ?_, ?_, ?_, ?_, ?_⟩
      · simp [world.remove_block, hn2, world.removal, world.record]
      · simp [world.remove_block, hn2, world.record]
      · simp [world.remove_block, hn2, world.record]
      · simp [List.countP_cons, call.is_set_geometry]
      · simp [List.countP_cons, call.is_gb_upload]
      · simp [List.countP_cons, call.is_particles]
  · by_cases hn : 0 < (w.removal (w._grid.ray_trace_after r 5)).2
    · have hn2 : (w._grid.set_geometry (w._grid.ray_trace_after r 5) w._scale
          w._preview_offset (-1)).2 > 0 := hn
      have e : world.since w (w.remove_block_ray r) =
          call.grid_set_geometry (w._grid.ray_trace_after r 5) w._scale
              w._preview_offset (-1) ::
            (world.gb_calls (w.removal (w._grid.ray_trace_after r 5)).1 ++
              [call.particles_load (w._grid.ray_trace_after r 5)
                (r.direction.scale (-1)) 5]) := by
        apply since_append
        simp [world.remove_block_ray, hn2, generate_gb_calls, world.record, world.removal]
      rw [e]
      simp only [hn, if_true]
      refine ⟨trivial, ?_, ?_, ?_, ?_, ?_, ?_⟩
      · simp [world.remove_block_ray, hn2, world.removal, world.record, world.generate_gb]
      · simp [world.remove_block_ray, hn2, world.removal, world.record, world.generate_gb]
      · simp [world.remove_block_ray, hn2, world.removal, world.record, world.generate_gb]
      · simp [List.countP_cons, hc, call.is_set_geometry]
      · simp [List.countP_cons, hc, call.is_gb_upload]
      · simp [List.countP_cons, hc, call.is_particles]
    · have hn2 : ¬ (w._grid.set_geometry (w._grid.ray_trace_after r 5) w._scale
          w._preview_offset (-1)).2 > 0 := hn
      have e : world.since w (w.remove_block_ray r) =
          [call.grid_set_geometry (w._grid.ray_trace_after r 5) w._scale
            w._preview_offset (-1)] := by
        apply since_append
        simp [world.remove_block_ray, hn2, world.record]
      rw [e]
      simp only [hn, if_false]
      refine ⟨trivial, ?_, ?_, ?_, ?_, ?_, ?_⟩
      · simp [world.remove_block_ray, hn2, world.removal, world.record]
      · simp [world.remove_block_ray, hn2, world.record]
      · simp [world.remove_block_ray, hn2, world.record]
      · simp [List.countP_cons, call.is_set_geometry]
      · simp [List.countP_cons, call.is_gb_upload]
      · simp [List.countP_cons, call.is_particles]

/-! ## Place and remove round trip -/

theorem cell_snap (p : vec3 ℚ) : cgrid.cell (world.snap p) = cgrid.cell p := by
  have hf : ∀ z : ℤ, ⌊(z : ℚ) + 1 / 2⌋ = z := by
    intro z
    rw [Int.floor_int_add]
    norm_num
  simp only [cgrid.cell, world.snap, hf]

theorem box_points_unit (start : vec3 ℚ) (offset : vec3 Int) :
    cgrid.box_points start ⟨1, 1, 1⟩ offset = [start] := by
  simp [cgrid.box_points, List.range_succ]

/-- A unit write inside the grid stores the id in the cell of the anchor and
counts one removal exactly when a non-empty voxel is emptied. -/
theorem set_geometry_unit (g : cgrid) (start : vec3 ℚ) (offset : vec3 Int) (id : Int)
    (hin : g.inside (cgrid.cell start) = true) :
    (g.set_geometry start ⟨1, 1, 1⟩ offset id).1.voxel (cgrid.cell start) = id ∧
      (g.set_geometry start ⟨1, 1, 1⟩ offset id).1.inside = g.inside ∧
      (g.set_geometry start ⟨1, 1, 1⟩ offset id).1.atlas = g.atlas ∧
      (g.set_geometry start ⟨1, 1, 1⟩ offset id).2 =
        (if g.voxel (cgrid.cell start) ≠ -1 ∧ id = -1 then 1 else 0) := by
  simp [cgrid.set_geometry, box_points_unit, cgrid.write_cell, hin]

theorem remove_block_grid (M : min_lib) (w : world) (p q : vec3 ℚ) :
    (world.remove_block M w p q)._grid = (w.removal (world.snap p)).1 := by
  simp only [world.remove_block, world.removal]
  split_ifs <;> rfl

/-- C8: for a point `p` inside the grid and a placement atlas id `a >= 0`
with scale `(1,1,1)`: after `add_block(p)` the voxel at `p` reads `a`; the
removal write that `remove_block` then issues at `p` returns
`removed_count == 1`, and after `remove_block` the voxel at `p` reads `-1`. -/
theorem place_remove_round_trip (M : min_lib) (w : world) (p origin : vec3 ℚ) (a : Int)
    (hin : w._grid.inside (cgrid.cell p) = true) (ha : 0 ≤ a)
    (hat : w._grid.get_atlas = a) (hs : w._scale = ⟨1, 1, 1⟩) :
    (w.add_block p)._grid.grid_value p = a ∧
      ((w.add_block p).removal (world.snap p)).2 = 1 ∧
      (world.remove_block M (w.add_block p) p origin)._grid.grid_value p = -1 := by
  have hin1 : w._grid.inside (cgrid.cell (world.snap p)) = true := by
    rw [cell_snap]; exact hin
  obtain ⟨a1, a2, _, _⟩ :=
    set_geometry_unit w._grid (world.snap p) w._preview_offset w._grid.get_atlas hin1
  have hg : (w.add_block p)._grid =
      (w._grid.set_geometry (world.snap p) ⟨1, 1, 1⟩ w._preview_offset
        w._grid.get_atlas).1 := by
    simp [world.add_block, world.generate_gb, world.record, hs]
  have hsc : (w.add_block p)._scale = ⟨1, 1, 1⟩ := by
    rw [world.add_block_scale, hs]
  have hin2 : (w.add_block p)._grid.inside (cgrid.cell (world.snap p)) = true := by
    rw [hg, a2]; exact hin1
  have hv : (w.add_block p)._grid.voxel (cgrid.cell (world.snap p)) = a := by
    rw [hg, a1, hat]
  obtain ⟨b1, b2, _, b4⟩ :=
    set_geometry_unit (w.add_block p)._grid (world.snap p)
      (w.add_block p)._preview_offset (-1) hin2
  have hne : a ≠ -1 := by omega
  refine ⟨?_, ?_, ?_⟩
  · rw [cell_snap] at hin2 hv
    simp [cgrid.grid_value, hin2, hv]
  · unfold world.removal
    rw [hsc, b4, hv]
    simp [hne]
  · rw [remove_block_grid]
    unfold world.removal
    rw [hsc]
    rw [cell_snap] at b1 hin2
    have hin3 : (((w.add_block p)._grid.set_geometry (world.snap p) ⟨1, 1, 1⟩
        (w.add_block p)._preview_offset (-1)).1).inside (cgrid.cell p) = true := by
      rw [b2]; exact hin2
    simp [cgrid.grid_value, hin3, b1]

/-- C8, the scenario: atlas id `3` placed at `(0.5, 0.5, 0.5)` with scale
`(1,1,1)` in the constructed sample world reads back `3`; its removal
returns `removed_count == 1` and the voxel reads `-1`. -/
theorem place_remove_round_trip_witness :
    (sample.fresh.add_block ⟨1/2, 1/2, 1/2⟩)._grid.grid_value ⟨1/2, 1/2, 1/2⟩ = 3 ∧
      ((sample.fresh.add_block ⟨1/2, 1/2, 1/2⟩).removal
        (world.snap ⟨1/2, 1/2, 1/2⟩)).2 = 1 ∧
      (world.remove_block sample.lib (sample.fresh.add_block ⟨1/2, 1/2, 1/2⟩)
        ⟨1/2, 1/2, 1/2⟩ ⟨0, 2, 0⟩)._grid.grid_value ⟨1/2, 1/2, 1/2⟩ = -1 :=
  place_remove_round_trip sample.lib sample.fresh ⟨1/2, 1/2, 1/2⟩ ⟨0, 2, 0⟩ 3
    (by decide!) (by decide) (by decide!) (by decide!)

/-! ## Jumping -/

theorem character_jump_allowed (w : world) (vel : vec3 ℚ)
    (h : |w._character.linear_velocity.y| < 1) :
    w.character_jump vel =
      { w with
        _character := w._character.add_force ((vel.scale 4000).scale w._character.mass),
        calls := w.calls ++ [call.body_add_force ((vel.scale 4000).scale w._character.mass)] } := by
  simp [world.character_jump, h, world.record]

theorem character_jump_refused (w : world) (vel : vec3 ℚ)
    (h : 1 ≤ |w._character.linear_velocity.y|) : w.character_jump vel = w := by
  simp [world.character_jump, not_lt.mpr h]

/-- C9: `character_jump(vel)` adds exactly the force `vel * 4000 * mass` to
the character body, by one `add_force`, when the vertical speed of the body
satisfies `|v.y| < 1.0`; when `|v.y| >= 1.0` the state is returned as it was,
and `|v.y| == 1.0` is on that side. -/
theorem character_jump_force (w : world) (vel : vec3 ℚ) :
    (|w._character.linear_velocity.y| < 1 →
      (w.character_jump vel)._character.force =
          w._character.force.add
            ⟨vel.x * 4000 * w._character.mass, vel.y * 4000 * w._character.mass,
             vel.z * 4000 * w._character.mass⟩ ∧
        (w.character_jump vel)._character =
          w._character.add_force ((vel.scale 4000).scale w._character.mass) ∧
        world.since w (w.character_jump vel) =
          [call.body_add_force ((vel.scale 4000).scale w._character.mass)]) ∧
    (1 ≤ |w._character.linear_velocity.y| →
      w.character_jump vel = w ∧ world.since w (w.character_jump vel) = []) ∧
    (|w._character.linear_velocity.y| = 1 → w.character_jump vel = w) := by
  refine ⟨?_, ?_, ?_⟩
  · intro h
    rw [character_jump_allowed w vel h]
    refine ⟨rfl, rfl, ?_⟩
    exact since_append _ _ _ rfl
  · intro h
    rw [character_jump_refused w vel h]
    exact ⟨rfl, by simp [world.since]⟩
  · intro h
    exact character_jump_refused w vel (le_of_eq h.symm)

/-- C9 on the sample world: at rest a jump `(0,1,0)` adds `(0,40000,0)` for
mass `10`; at vertical speed exactly `1` and at `-3` nothing is added. -/
theorem character_jump_force_witness :
    (sample.fresh.character_jump ⟨0, 1, 0⟩)._character.force =
        sample.fresh._character.force.add
          ⟨0 * 4000 * sample.fresh._character.mass, 1 * 4000 * sample.fresh._character.mass,
           0 * 4000 * sample.fresh._character.mass⟩ ∧
      sample.fresh._character.mass = 10 ∧
      sample.rising.character_jump ⟨0, 1, 0⟩ = sample.rising ∧
      sample.falling.character_jump ⟨0, 1, 0⟩ = sample.falling :=
  ⟨((character_jump_force sample.fresh ⟨0, 1, 0⟩).1 (by decide!)).1,
   by decide!,
   (character_jump_force sample.rising ⟨0, 1, 0⟩).2.2 (by decide!),
   ((character_jump_force sample.falling ⟨0, 1, 0⟩).2.1 (by decide!)).1⟩

/-- C10 as stated fails: the force follows the jump vector. On the sample
world at rest (`|v.y| = 0 < 1`) the vector `(0,-1,0)` adds the vertical force
`-40000`, which points down, and `(1,0,0)` adds no vertical force at all. -/
theorem character_jump_not_always_upward :
    |sample.fresh._character.linear_velocity.y| < 1 ∧
      (sample.fresh.character_jump ⟨0, -1, 0⟩)._character.force.y -
          sample.fresh._character.force.y = -40000 ∧
      ¬ 0 < (sample.fresh.character_jump ⟨0, -1, 0⟩)._character.force.y -
          sample.fresh._character.force.y ∧
      (sample.fresh.character_jump ⟨1, 0, 0⟩)._character.force.y -
          sample.fresh._character.force.y = 0 := by
  refine ⟨?_, ?_, ?_, ?_⟩ <;> decide!

/-- C10 (amended): when the vertical speed satisfies `|v.y| >= 1.0` the call
adds no force, so the net vertical force is zero; when `|v.y| < 1.0` the
vertical force it adds is `vel.y * 4000 * mass`, which for a positive mass is
positive (upward, nonzero) exactly when `vel.y > 0`. -/
theorem character_jump_vertical_force (w : world) (vel : vec3 ℚ)
    (hm : 0 < w._character.mass) :
    (1 ≤ |w._character.linear_velocity.y| →
      (w.character_jump vel)._character.force.y - w._character.force.y = 0 ∧
        (w.character_jump vel)._character.force = w._character.force) ∧
    (|w._character.linear_velocity.y| < 1 →
      (w.character_jump vel)._character.force.y - w._character.force.y =
          vel.y * 4000 * w._character.mass ∧
        (0 < (w.character_jump vel)._character.force.y - w._character.force.y ↔
          0 < vel.y)) := by
  constructor
  · intro h
    rw [character_jump_refused w vel h]
    exact ⟨sub_self _, rfl⟩
  · intro h
    rw [character_jump_allowed w vel h]
    have e : (w._character.add_force ((vel.scale 4000).scale w._character.mass)).force.y -
        w._character.force.y = vel.y * 4000 * w._character.mass := by
      simp [body.add_force, vec3.add, vec3.scale]
    refine ⟨e, ?_⟩
    show 0 < (w._character.add_force ((vel.scale 4000).scale w._character.mass)).force.y -
        w._character.force.y ↔ 0 < vel.y
    rw [e]
    constructor
    · intro hp
      by_contra hv
      have hv2 : vel.y ≤ 0 := not_lt.mp hv
      have : vel.y * 4000 * w._character.mass ≤ 0 :=
        mul_nonpos_of_nonpos_of_nonneg
          (mul_nonpos_of_nonpos_of_nonneg hv2 (by norm_num)) hm.le
      exact absurd hp (not_lt.mpr this)
    · intro hv
      exact mul_pos (mul_pos hv (by norm_num)) hm

/-- C10 (amended) on the sample world (mass `10`): at rest the jump `(0,1,0)`
adds the upward vertical force `40000`; falling at speed `3` nothing is
added. -/
theorem character_jump_vertical_force_witness :
    (sample.fresh.character_jump ⟨0, 1, 0⟩)._character.force.y -
        sample.fresh._character.force.y = 1 * 4000 * sample.fresh._character.mass ∧
      0 < (sample.fresh.character_jump ⟨0, 1, 0⟩)._character.force.y -
        sample.fresh._character.force.y ∧
      (sample.falling.character_jump ⟨0, 1, 0⟩)._character.force.y -
        sample.falling._character.force.y = 0 :=
  ⟨((character_jump_vertical_force sample.fresh ⟨0, 1, 0⟩ (by decide!)).2 (by decide!)).1,
   ((character_jump_vertical_force sample.fresh ⟨0, 1, 0⟩ (by decide!)).2 (by decide!)).2.mpr
     (by decide!),
   ((character_jump_vertical_force sample.falling ⟨0, 1, 0⟩ (by decide!)).1 (by decide!)).1⟩

/-! ## Grappling -/

theorem remove_block_character (M : min_lib) (w : world) (p q : vec3 ℚ) :
    (world.remove_block M w p q)._character = w._character := by
  simp only [world.remove_block]
  split_ifs <;> rfl

theorem grappling_hit (M : min_lib) (w : world) (r : ray)
    (hit : w._grid.grid_value (w.hit_point r) ≠ -1) :
    world.grappling M w r =
      world.remove_block M
        (world.reset_scale
          (world.record { w with _character := w._character.add_force (w.grapple_force M r) }
            [call.body_add_force (w.grapple_force M r)]))
        (w.hit_point r) r.origin := by
  have hit2 : w._grid.grid_value (w._grid.ray_trace_after r 100) ≠ -1 := hit
  simp only [world.grappling, world.hit_point, world.d_factor, world.y_factor,
    world.grapple_force]
  rw [if_pos hit2]

theorem grappling_miss (M : min_lib) (w : world) (r : ray)
    (miss : w._grid.grid_value (w.hit_point r) = -1) : world.grappling M w r = w := by
  have miss2 : w._grid.grid_value (w._grid.ray_trace_after r 100) = -1 := miss
  simp only [world.grappling]
  rw [if_neg (by simpa using miss2)]

/-- C11: when `grappling(ray)` hits a solid voxel (the grid value at
`ray_trace_after(ray, 100)` is not `-1`), the force added to the character
body is `(hit_point - ray.origin) * 1000 * mass * d * y`, with `d = 1` if the
magnitude of `hit_point - ray.origin` is below `20` and `0.5` otherwise
(exactly `20` gives `0.5`), and `y = 0.25` if `ray.direction.y < -0.5` and `1`
otherwise (exactly `-0.5` gives `1`). -/
theorem grappling_force (M : min_lib) (w : world) (r : ray)
    (hit : w._grid.grid_value (w._grid.ray_trace_after r 100) ≠ -1) :
    (world.grappling M w r)._character =
        w._character.add_force
          ⟨((w._grid.ray_trace_after r 100).x - r.origin.x) * 1000 * w._character.mass *
              world.d_factor (M.magnitude ((w._grid.ray_trace_after r 100).sub r.origin)) *
              world.y_factor r.direction.y,
           ((w._grid.ray_trace_after r 100).y - r.origin.y) * 1000 * w._character.mass *
              world.d_factor (M.magnitude ((w._grid.ray_trace_after r 100).sub r.origin)) *
              world.y_factor r.direction.y,
           ((w._grid.ray_trace_after r 100).z - r.origin.z) * 1000 * w._character.mass *
              world.d_factor (M.magnitude ((w._grid.ray_trace_after r 100).sub r.origin)) *
              world.y_factor r.direction.y⟩ ∧
      (∀ mag : ℚ, (mag < 20 → world.d_factor mag = 1) ∧
        (20 ≤ mag → world.d_factor mag = 1/2)) ∧
      world.d_factor 20 = 1/2 ∧
      (∀ dy : ℚ, (dy < -1/2 → world.y_factor dy = 1/4) ∧
        (-1/2 ≤ dy → world.y_factor dy = 1)) ∧
      world.y_factor (-1/2) = 1 := by
  refine ⟨?_, ?_, ?_, ?_, ?_⟩
  · rw [grappling_hit M w r hit, remove_block_character]
    show w._character.add_force _ = w._character.add_force _
    congr 1
    simp only [world.grapple_force, vec3.scale, vec3.sub, world.hit_point, vec3.mk.injEq]
    refine ⟨?_, ?_, ?_⟩ <;> ring
  · intro mag
    exact ⟨fun h => by simp [world.d_factor, h],
      fun h => by simp [world.d_factor, not_lt.mpr h]⟩
  · simp [world.d_factor]
  · intro dy
    exact ⟨fun h => by simp [world.y_factor, h],
      fun h => by simp [world.y_factor, not_lt.mpr h]⟩
  · simp [world.y_factor]

/-- C11 on the sample world: the ray straight down from `(0.5, 2.5, 0.5)` hits
the ground voxel at `(0.5, -0.5, 0.5)`; for mass `10`, distance `3` and a
steep ray the force added is `(0, -3 * 1000 * 10 * 1 * 0.25, 0)`. -/
theorem grappling_force_witness :
    (world.grappling sample.lib sample.hooked sample.ray_down)._character.force =
      ⟨0, -7500, 0⟩ := by
  have t := (grappling_force sample.lib sample.hooked sample.ray_down (by decide!)).1
  rw [t]
  decide!

/-- C20: when `grappling(ray)` finds no solid voxel (the grid value at
`ray_trace_after(ray, 100)` is `-1`) the call returns the state it was given:
no force, no scale change, no `set_geometry` write, no mesh or particle
update, no collaborator call at all. -/
theorem grappling_miss_noop (M : min_lib) (w : world) (r : ray)
    (miss : w._grid.grid_value (w._grid.ray_trace_after r 100) = -1) :
    world.grappling M w r = w ∧
      (world.grappling M w r)._character = w._character ∧
      (world.grappling M w r)._scale = w._scale ∧
      (world.grappling M w r)._gb = w._gb ∧
      (world.grappling M w r)._pb = w._pb ∧
      (world.grappling M w r)._particles = w._particles ∧
      world.since w (world.grappling M w r) = [] := by
  rw [grappling_miss M w r miss]
  exact ⟨rfl, rfl, rfl, rfl, rfl, rfl, by simp [world.since]⟩

/-- C20 on the sample world: a ray that starts in the empty voxel at
`(0.5, 0.5, 0.5)` changes nothing. -/
theorem grappling_miss_noop_witness :
    world.grappling sample.lib sample.fresh sample.ray_empty = sample.fresh :=
  (grappling_miss_noop sample.lib sample.fresh sample.ray_empty (by decide!)).1

/-! ## Particle bursts of a removal -/

theorem remove_block_removed (M : min_lib) (w : world) (point position : vec3 ℚ)
    (hpos : 0 < (w.removal (world.snap point)).2) :
    world.remove_block M w point position =
      world.record
        { (world.record { w with _grid := (w.removal (world.snap point)).1 }
            [call.grid_set_geometry (world.snap point) w._scale w._preview_offset
              (-1)]).generate_gb with
          _particles := w._particles.load point (M.normalize (position.sub point)) 5 }
        [call.particles_load point (M.normalize (position.sub point)) 5] := by
  have h2 : (w._grid.set_geometry (world.snap point) w._scale w._preview_offset (-1)).2 > 0 :=
    hpos
  simp only [world.remove_block, world.removal]
  rw [if_pos h2]
  rfl

theorem remove_block_ray_removed (w : world) (r : ray)
    (hpos : 0 < (w.removal (w._grid.ray_trace_after r 5)).2) :
    w.remove_block_ray r =
      world.record
        { (world.record { w with _grid := (w.removal (w._grid.ray_trace_after r 5)).1 }
            [call.grid_set_geometry (w._grid.ray_trace_after r 5) w._scale
              w._preview_offset (-1)]).generate_gb with
          _particles :=
            w._particles.load (w._grid.ray_trace_after r 5) (r.direction.scale (-1)) 5 }
        [call.particles_load (w._grid.ray_trace_after r 5) (r.direction.scale (-1)) 5] := by
  have h2 : (w._grid.set_geometry (w._grid.ray_trace_after r 5) w._scale w._preview_offset
      (-1)).2 > 0 := hpos
  simp only [world.remove_block_ray, world.removal]
  rw [if_pos h2]
  rfl

/-- C18 as stated fails: the burst direction is taken from the raw input
point, not from the snapped target. With a library that is exact on axis
vectors, removing at the raw point `(0, -0.5, 0.5)` (target
`(0.5, -0.5, 0.5)`, one voxel removed) as seen from `(0.25, -0.5, 0.5)` loads
the direction `(1, 0, 0)`, while `normalize(origin_position - target)` is
`(-1, 0, 0)`. -/
theorem remove_block_direction_uses_raw_point :
    (sample.fresh.removal (world.snap ⟨0, -1/2, 1/2⟩)).2 = 1 ∧
      world.snap ⟨0, -1/2, 1/2⟩ = (⟨1/2, -1/2, 1/2⟩ : vec3 ℚ) ∧
      (world.remove_block sample.lib_axis sample.fresh ⟨0, -1/2, 1/2⟩
          ⟨1/4, -1/2, 1/2⟩)._particles.bursts =
        [(⟨0, -1/2, 1/2⟩, ⟨1, 0, 0⟩, 5)] ∧
      sample.lib_axis.normalize
          ((⟨1/4, -1/2, 1/2⟩ : vec3 ℚ).sub (world.snap ⟨0, -1/2, 1/2⟩)) =
        ⟨-1, 0, 0⟩ := by
  refine ⟨?_, ?_, ?_, ?_⟩ <;> decide!

/-- C18 (amended): in the point form `remove_block(point, origin_position)`
with `removed_count > 0`, one particle burst is loaded, at the raw input
point, with direction `normalize(origin_position - point)` and strength `5`;
this is `normalize(origin_position - snap(point))` when the input point is
already a voxel centre. -/
theorem remove_block_burst_direction (M : min_lib) (w : world)
    (point position : vec3 ℚ) (hpos : 0 < (w.removal (world.snap point)).2) :
    (world.remove_block M w point position)._particles =
        w._particles.load point (M.normalize (position.sub point)) 5 ∧
      (world.since w (world.remove_block M w point position)).getLast? =
        some (call.particles_load point (M.normalize (position.sub point)) 5) ∧
      (world.remove_block M w point position)._particles.bursts =
        w._particles.bursts ++ [(point, M.normalize (position.sub point), 5)] ∧
      (world.snap point = point →
        (world.remove_block M w point position)._particles.bursts =
          w._particles.bursts ++
            [(world.snap point, M.normalize (position.sub (world.snap point)), 5)]) := by
  have e := remove_block_removed M w point position hpos
  have hs : world.since w (world.remove_block M w point position) =
      call.grid_set_geometry (world.snap point) w._scale w._preview_offset (-1) ::
        (world.gb_calls (w.removal (world.snap point)).1 ++
          [call.particles_load point (M.normalize (position.sub point)) 5]) := by
    apply since_append
    rw [e]
    simp [generate_gb_calls, world.record]
  refine ⟨by rw [e]; rfl, ?_, by rw [e]; rfl, ?_⟩
  · rw [hs, ← List.cons_append]
    exact List.getLast?_concat _
  · intro hsnap
    rw [hsnap, e]
    rfl

/-- C18 (amended) on the sample world: the removal of the ground voxel under
the raw point `(0, -0.5, 0.5)`. -/
theorem remove_block_burst_direction_witness :
    (world.remove_block sample.lib_axis sample.fresh ⟨0, -1/2, 1/2⟩
        ⟨1/4, -1/2, 1/2⟩)._particles.bursts =
      sample.fresh._particles.bursts ++
        [(⟨0, -1/2, 1/2⟩,
          sample.lib_axis.normalize ((⟨1/4, -1/2, 1/2⟩ : vec3 ℚ).sub ⟨0, -1/2, 1/2⟩), 5)] :=
  (remove_block_burst_direction sample.lib_axis sample.fresh ⟨0, -1/2, 1/2⟩
    ⟨1/4, -1/2, 1/2⟩ (by decide!)).2.2.1

/-- C19: in the ray form `remove_block(ray)` with `removed_count > 0`, one
particle burst is loaded, at the traced target `ray_trace_after(ray, 5)`,
with direction `-ray.direction` (each component negated) and strength `5`. -/
theorem remove_block_ray_burst (w : world) (r : ray)
    (hpos : 0 < (w.removal (w._grid.ray_trace_after r 5)).2) :
    (w.remove_block_ray r)._particles.bursts =
        w._particles.bursts ++
          [(w._grid.ray_trace_after r 5,
            ⟨-r.direction.x, -r.direction.y, -r.direction.z⟩, 5)] ∧
      (world.since w (w.remove_block_ray r)).getLast? =
        some (call.particles_load (w._grid.ray_trace_after r 5)
          ⟨-r.direction.x, -r.direction.y, -r.direction.z⟩ 5) ∧
      (world.since w (w.remove_block_ray r)).countP call.is_particles = 1 := by
  have e := remove_block_ray_removed w r hpos
  have hd : r.direction.scale (-1) = ⟨-r.direction.x, -r.direction.y, -r.direction.z⟩ := by
    simp [vec3.scale]
  have hs : world.since w (w.remove_block_ray r) =
      call.grid_set_geometry (w._grid.ray_trace_after r 5) w._scale w._preview_offset
          (-1) ::
        (world.gb_calls (w.removal (w._grid.ray_trace_after r 5)).1 ++
          [call.particles_load (w._grid.ray_trace_after r 5) (r.direction.scale (-1)) 5]) := by
    apply since_append
    rw [e]
    simp [generate_gb_calls, world.record]
  rw [← hd]
  refine ⟨by rw [e]; rfl, ?_, ?_⟩
  · rw [hs, ← List.cons_append]
    exact List.getLast?_concat _
  · rw [hs]
    simp [List.countP_cons, gb_calls_count, call.is_particles]

/-- C19 on the sample world: the ray that starts in the ground voxel at
`(0.5, -0.5, 0.5)` with direction `(0, -1, 0)` removes it and loads the burst
`((0.5, -0.5, 0.5), (0, 1, 0), 5)`. -/
theorem remove_block_ray_burst_witness :
    (sample.fresh.remove_block_ray sample.ray_solid)._particles.bursts =
      [(⟨1/2, -1/2, 1/2⟩, ⟨0, 1, 0⟩, 5)] := by
  have t := (remove_block_ray_burst sample.fresh sample.ray_solid (by decide!)).1
  rw [t]
  decide!

/-! ## Edit mode and AI mode -/

/-- C17: edit mode is off right after construction; `get_edit_mode` returns
the flag; `toggle_edit_mode` negates it and changes nothing else (scale,
offsets, AI mode and every other field), so two toggles in a row give back
the state. -/
theorem toggle_edit_mode_involution (M : min_lib) (proto : cgrid) (path : ai_path)
    (state : vec3 ℚ × Bool) (grid_size chunk_size view_chunk_size : Nat) (w0 : world)
    (h : world.create M proto path state grid_size chunk_size view_chunk_size =
      Except.ok w0) :
    w0.get_edit_mode = false ∧
    ∀ w : world,
      w.get_edit_mode = w._edit_mode ∧
      w.toggle_edit_mode.get_edit_mode = !w.get_edit_mode ∧
      w.toggle_edit_mode = { w with _edit_mode := !w._edit_mode } ∧
      w.toggle_edit_mode._scale = w._scale ∧
      w.toggle_edit_mode._cached_offset = w._cached_offset ∧
      w.toggle_edit_mode._preview_offset = w._preview_offset ∧
      w.toggle_edit_mode._ai_mode = w._ai_mode ∧
      w.toggle_edit_mode.toggle_edit_mode = w := by
  refine ⟨(world.create_placement M proto path state grid_size chunk_size
    view_chunk_size w0 h).2.2.2, ?_⟩
  intro w
  refine ⟨rfl, rfl, rfl, rfl, rfl, rfl, rfl, ?_⟩
  simp [world.toggle_edit_mode]

/-- C17 on the constructed sample world. -/
theorem toggle_edit_mode_involution_witness :
    sample.fresh.get_edit_mode = false ∧
      sample.fresh.toggle_edit_mode.toggle_edit_mode = sample.fresh :=
  have t := toggle_edit_mode_involution sample.lib sample.grid sample.path sample.start
    32 8 3 sample.fresh create_sample
  ⟨t.1, (t.2 sample.fresh).2.2.2.2.2.2.2⟩

/-- C13 fails on the code: `character_ai` never reads the failure flag. In
AI mode, with a navigator that reports `failed == true` and returns the
direction `(0, 1, 0)`, the body (mass `10`, no force before) receives the
force `(0, 1, 0) * 200 * 10 = (0, 2000, 0)`. -/
theorem character_ai_pushes_on_failure :
    sample.stuck._ai_mode = true ∧
      (sample.stuck._path.step sample.stuck._grid sample.stuck.character_position
        ⟨0, 2, 0⟩ (sample.lib.magnitude
          ((⟨0, 2, 0⟩ : vec3 ℚ).sub sample.stuck.character_position))).2 = true ∧
      sample.stuck._character.force = ⟨0, 0, 0⟩ ∧
      (world.character_ai sample.lib sample.stuck ⟨0, 2, 0⟩)._character.force =
        ⟨0, 2000, 0⟩ ∧
      world.since sample.stuck (world.character_ai sample.lib sample.stuck ⟨0, 2, 0⟩) =
        [call.path_step ⟨0, 2, 0⟩ ⟨0, 2, 0⟩ 0, call.body_add_force ⟨0, 2000, 0⟩] := by
  refine ⟨?_, ?_, ?_, ?_, ?_⟩ <;> decide!

/-! ## The frame update -/

theorem character_ai_eq (M : min_lib) (w : world) (dest : vec3 ℚ) :
    (world.character_ai M w dest).calls = w.calls ++ world.ai_calls M w dest ∧
      (world.character_ai M w dest)._grid = w._grid ∧
      (world.character_ai M w dest)._gb = w._gb ∧
      (world.character_ai M w dest)._character.position = w._character.position := by
  simp only [world.character_ai, world.ai_calls]
  split_ifs
  · exact ⟨rfl, rfl, rfl, rfl⟩
  · exact ⟨by simp, rfl, rfl, rfl⟩

theorem cross_chunk_eq (w : world) :
    w.cross_chunk =
      if w.crossed then
        (world.record
          { w with _grid := w._grid.update_chunk (w._grid.chunk_key w._character.position).1 }
          [call.grid_update_chunk (w._grid.chunk_key w._character.position).1]).generate_gb
      else w := by
  simp only [world.cross_chunk, world.crossed]

theorem cross_chunk_calls (w : world) :
    w.cross_chunk.calls = w.calls ++ w.cross_calls := by
  rw [cross_chunk_eq]
  unfold world.cross_calls
  split_ifs
  · simp [generate_gb_calls, world.record]
  · simp

theorem physics_step_eq (M : min_lib) (w : world) (dt : ℚ) :
    (world.physics_step M w dt).calls = w.calls ++ w.step_calls dt ∧
      (world.physics_step M w dt)._grid = w._grid ∧
      (world.physics_step M w dt)._gb = w._gb ∧
      (world.physics_step M w dt)._character =
        M.solve_static (w._grid.create_collision_cells (world.snap w._character.position))
          (w._character.add_force w.friction) (dt / 10) 10 :=
  ⟨rfl, rfl, rfl, rfl⟩

theorem physics_loop_eq (M : min_lib) (dt : ℚ) (n : Nat) (w : world) :
    (world.physics_loop M dt n w).calls = w.calls ++ world.physics_calls M dt n w ∧
      (world.physics_loop M dt n w)._grid = w._grid ∧
      (world.physics_loop M dt n w)._gb = w._gb := by
  induction n generalizing w with
  | zero => exact ⟨by simp [world.physics_loop, world.physics_calls], rfl, rfl⟩
  | succ n ih =>
    obtain ⟨i1, i2, i3⟩ := ih (world.physics_step M w dt)
    obtain ⟨s1, s2, s3, _⟩ := physics_step_eq M w dt
    refine ⟨?_, ?_, ?_⟩
    · show (world.physics_loop M dt n (world.physics_step M w dt)).calls = _
      rw [i1, s1]
      simp [world.physics_calls]
    · show (world.physics_loop M dt n (world.physics_step M w dt))._grid = _
      rw [i2, s2]
    · show (world.physics_loop M dt n (world.physics_step M w dt))._gb = _
      rw [i3, s3]

theorem physics_loop_substate (M : min_lib) (dt : ℚ) (n : Nat) (w : world) :
    world.physics_loop M dt n w = world.substate M dt w n := by
  induction n generalizing w with
  | zero => rfl
  | succ n ih =>
    show world.physics_loop M dt n (world.physics_step M w dt) = _
    rw [ih]
    rfl

theorem physics_calls_count (M : min_lib) (dt : ℚ) (n : Nat) (w : world) :
    (world.physics_calls M dt n w).countP call.is_solve_static = n ∧
      (world.physics_calls M dt n w).countP call.is_grid_update = 0 ∧
      (world.physics_calls M dt n w).countP call.is_gb_clear = 0 ∧
      (world.physics_calls M dt n w).countP call.is_gb_upload = 0 := by
  induction n generalizing w with
  | zero => simp [world.physics_calls]
  | succ n ih =>
    obtain ⟨i1, i2, i3, i4⟩ := ih (world.physics_step M w dt)
    simp [world.physics_calls, world.step_calls, List.countP_cons, i1, i2, i3, i4,
      call.is_solve_static, call.is_grid_update, call.is_gb_clear, call.is_gb_upload]

theorem ai_calls_count (M : min_lib) (w : world) (dest : vec3 ℚ) :
    (world.ai_calls M w dest).countP call.is_solve_static = 0 ∧
      (world.ai_calls M w dest).countP call.is_grid_update = 0 ∧
      (world.ai_calls M w dest).countP call.is_gb_clear = 0 ∧
      (world.ai_calls M w dest).countP call.is_gb_upload = 0 := by
  unfold world.ai_calls
  split_ifs <;>
    simp [List.countP_cons, call.is_solve_static, call.is_grid_update, call.is_gb_clear,
      call.is_gb_upload]

theorem cross_calls_count (w : world) :
    w.cross_calls.countP call.is_solve_static = 0 ∧
      w.cross_calls.countP call.is_grid_update = (if w.crossed then 1 else 0) ∧
      w.cross_calls.countP call.is_gb_clear = (if w.crossed then 1 else 0) ∧
      w.cross_calls.countP call.is_gb_upload = (if w.crossed then 1 else 0) := by
  have hmap : ∀ (p : call → Bool) (ms : List mesh),
      (∀ m, p (call.gb_add_mesh m) = false) →
      (ms.map call.gb_add_mesh).countP p = 0 := by
    intro p ms hp
    rw [List.countP_eq_zero]
    intro a ha
    obtain ⟨m, _, rfl⟩ := List.mem_map.mp ha
    simp [hp m]
  unfold world.cross_calls
  split_ifs <;>
    simp [world.gb_calls, List.countP_cons, hmap, call.is_solve_static,
      call.is_grid_update, call.is_gb_clear, call.is_gb_upload]

/-- The collaborator calls of one `update`, stage by stage. -/
theorem update_calls (M : min_lib) (w : world) (cam : camera) (dt : ℚ) :
    world.since w (world.update M w cam dt) =
      world.ai_calls M w ⟨0, 2, 0⟩ ++ (world.character_ai M w ⟨0, 2, 0⟩).cross_calls ++
        world.physics_calls M dt 10 (world.pre_physics M w) ++
        [call.uniforms_update
            ((world.pre_physics M w)._grid.ray_trace_before
              (M.ray_between cam.position (cam.project_point 3)) 4),
          call.particles_update dt] := by
  apply since_append
  obtain ⟨a1, _, _, _⟩ := character_ai_eq M w ⟨0, 2, 0⟩
  have c1 := cross_chunk_calls (world.character_ai M w ⟨0, 2, 0⟩)
  obtain ⟨p1, p2, _⟩ := physics_loop_eq M dt 10 (world.pre_physics M w)
  show ((world.update_uniform M (world.physics_loop M dt 10 (world.pre_physics M w))
    cam).record [call.particles_update dt]).calls = _
  simp only [world.update_uniform, world.record, p1, p2]
  unfold world.pre_physics
  rw [c1, a1]
  simp

theorem pre_physics_eq (M : min_lib) (w : world) :
    (world.character_ai M w ⟨0, 2, 0⟩).crossed = w.crossed ∧
      (world.character_ai M w ⟨0, 2, 0⟩).cross_calls = w.cross_calls ∧
      (world.pre_physics M w)._grid =
        (if w.crossed then
          w._grid.update_chunk (w._grid.chunk_key w._character.position).1
        else w._grid) ∧
      (world.pre_physics M w)._gb =
        (if w.crossed then
          world.gb_meshes (w._grid.update_chunk (w._grid.chunk_key w._character.position).1)
        else w._gb) := by
  obtain ⟨_, a2, a3, a4⟩ := character_ai_eq M w ⟨0, 2, 0⟩
  have hc : (world.character_ai M w ⟨0, 2, 0⟩).crossed = w.crossed := by
    unfold world.crossed
    rw [a2, a4]
  have hcc : (world.character_ai M w ⟨0, 2, 0⟩).cross_calls = w.cross_calls := by
    unfold world.cross_calls
    rw [hc, a2, a4]
  refine ⟨hc, hcc, ?_, ?_⟩
  · unfold world.pre_physics
    rw [cross_chunk_eq, hc]
    split_ifs
    · show (world.character_ai M w ⟨0, 2, 0⟩)._grid.update_chunk _ = _
      rw [a2, a4]
    · exact a2
  · unfold world.pre_physics
    rw [cross_chunk_eq, hc]
    split_ifs
    · show world.gb_meshes ((world.character_ai M w ⟨0, 2, 0⟩)._grid.update_chunk _) = _
      rw [a2, a4]
    · exact a3

/-- C14: during `update()`, `Grid.update(current_chunk)` is called and the
geometry buffer is rebuilt, once each, exactly when the chunk key of the
player position is valid and differs from the recent chunk of the grid;
otherwise the chunk crossing step returns its state unchanged and the whole
update leaves the grid and the geometry buffer as they were. -/
theorem update_chunk_crossing (M : min_lib) (w : world) (cam : camera) (dt : ℚ) :
    (w.crossed = true ↔
      ((w._grid.chunk_key w._character.position).2 = true ∧
        w._grid.get_recent_chunk ≠ (w._grid.chunk_key w._character.position).1)) ∧
    (∀ v : world, v.cross_chunk =
      if v.crossed then
        (world.record
          { v with _grid := v._grid.update_chunk (v._grid.chunk_key v._character.position).1 }
          [call.grid_update_chunk (v._grid.chunk_key v._character.position).1]).generate_gb
      else v) ∧
    (world.update M w cam dt)._grid =
      (if w.crossed then w._grid.update_chunk (w._grid.chunk_key w._character.position).1
       else w._grid) ∧
    (world.update M w cam dt)._gb =
      (if w.crossed then
        world.gb_meshes (w._grid.update_chunk (w._grid.chunk_key w._character.position).1)
       else w._gb) ∧
    (world.since w (world.update M w cam dt)).countP call.is_grid_update =
      (if w.crossed then 1 else 0) ∧
    (world.since w (world.update M w cam dt)).countP call.is_gb_clear =
      (if w.crossed then 1 else 0) ∧
    (world.since w (world.update M w cam dt)).countP call.is_gb_upload =
      (if w.crossed then 1 else 0) := by
  obtain ⟨_, hcc, hg, hb⟩ := pre_physics_eq M w
  obtain ⟨_, p2, p3⟩ := physics_loop_eq M dt 10 (world.pre_physics M w)
  obtain ⟨_, n2, n3, n4⟩ := physics_calls_count M dt 10 (world.pre_physics M w)
  obtain ⟨_, a2, a3, a4⟩ := ai_calls_count M w ⟨0, 2, 0⟩
  obtain ⟨_, c2, c3, c4⟩ := cross_calls_count w
  refine ⟨?_, cross_chunk_eq, ?_, ?_, ?_, ?_, ?_⟩
  · simp [world.crossed]
  · show (world.physics_loop M dt 10 (world.pre_physics M w))._grid = _
    rw [p2, hg]
  · show (world.physics_loop M dt 10 (world.pre_physics M w))._gb = _
    rw [p3, hb]
  · rw [update_calls, hcc]
    simp [List.countP_cons, n2, a2, c2, call.is_grid_update]
  · rw [update_calls, hcc]
    simp [List.countP_cons, n3, a3, c3, call.is_gb_clear]
  · rw [update_calls, hcc]
    simp [List.countP_cons, n4, a4, c4, call.is_gb_upload]

/-- C15: for every `dt`, `update()` runs exactly ten physics sub steps. Each
sub step makes, in this order, one `create_collision_cells` call at the
snapped current body position, one `add_force` of the friction
`-2.0 * mass * (v.x, 0, v.z)` of the velocity at that sub step, and one
static solve with time step `dt / 10`; ten such time steps sum to `dt`. -/
theorem update_physics_substeps (M : min_lib) (w : world) (cam : camera) (dt : ℚ) :
    world.update M w cam dt =
      (world.update_uniform M (world.physics_loop M dt 10 (world.pre_physics M w))
        cam).record [call.particles_update dt] ∧
    world.physics_loop M dt 10 (world.pre_physics M w) =
      world.substate M dt (world.pre_physics M w) 10 ∧
    (∀ i : Nat,
      world.since (world.substate M dt (world.pre_physics M w) i)
          (world.substate M dt (world.pre_physics M w) (i + 1)) =
        [call.grid_collision_cells
            (world.snap (world.substate M dt (world.pre_physics M w) i)._character.position),
          call.body_add_force
            ⟨-2 * (world.substate M dt (world.pre_physics M w) i)._character.mass *
                (world.substate M dt (world.pre_physics M w) i)._character.linear_velocity.x,
              0,
              -2 * (world.substate M dt (world.pre_physics M w) i)._character.mass *
                (world.substate M dt (world.pre_physics M w) i)._character.linear_velocity.z⟩,
          call.solve_static (dt / 10) 10] ∧
      (world.substate M dt (world.pre_physics M w) (i + 1))._character =
        M.solve_static
          ((world.substate M dt (world.pre_physics M w) i)._grid.create_collision_cells
            (world.snap (world.substate M dt (world.pre_physics M w) i)._character.position))
          ((world.substate M dt (world.pre_physics M w) i)._character.add_force
            ⟨-2 * (world.substate M dt (world.pre_physics M w) i)._character.mass *
                (world.substate M dt (world.pre_physics M w) i)._character.linear_velocity.x,
              0,
              -2 * (world.substate M dt (world.pre_physics M w) i)._character.mass *
                (world.substate M dt (world.pre_physics M w) i)._character.linear_velocity.z⟩)
          (dt / 10) 10) ∧
    world.physics_calls M dt 10 (world.pre_physics M w) =
      (List.range 10).flatMap
        (fun i => (world.substate M dt (world.pre_physics M w) i).step_calls dt) ∧
    (world.since w (world.update M w cam dt)).countP call.is_solve_static = 10 ∧
    10 * (dt / 10) = dt := by
  have hf : ∀ v : world, v.friction =
      ⟨-2 * v._character.mass * v._character.linear_velocity.x, 0,
        -2 * v._character.mass * v._character.linear_velocity.z⟩ := by
    intro v
    simp only [world.friction, vec3.scale, vec3.mk.injEq]
    refine ⟨?_, ?_, ?_⟩ <;> ring
  have hstep : ∀ i : Nat, world.substate M dt (world.pre_physics M w) (i + 1) =
      world.physics_step M (world.substate M dt (world.pre_physics M w) i) dt := by
    intro i
    unfold world.substate
    rw [Function.iterate_succ_apply']
  have hcalls : ∀ (n : Nat) (v : world), world.physics_calls M dt n v =
      (List.range n).flatMap (fun i => (world.substate M dt v i).step_calls dt) := by
    intro n
    induction n with
    | zero => intro v; simp [world.physics_calls]
    | succ n ih =>
      intro v
      have hsub : ∀ i, world.substate M dt (world.physics_step M v dt) i =
          world.substate M dt v (i + 1) := by
        intro i
        unfold world.substate
        rw [Function.iterate_succ_apply]
      rw [List.range_succ_eq_map]
      simp only [world.physics_calls, List.flatMap_cons, List.flatMap_map, ih, hsub]
      rfl
  obtain ⟨_, hcc, _, _⟩ := pre_physics_eq M w
  obtain ⟨n1, _, _, _⟩ := physics_calls_count M dt 10 (world.pre_physics M w)
  obtain ⟨a1, _, _, _⟩ := ai_calls_count M w ⟨0, 2, 0⟩
  obtain ⟨c1, _, _, _⟩ := cross_calls_count w
  refine ⟨rfl, physics_loop_substate M dt 10 _, ?_, hcalls 10 _, ?_, ?_⟩
  · intro i
    obtain ⟨s1, _, _, s4⟩ :=
      physics_step_eq M (world.substate M dt (world.pre_physics M w) i) dt
    rw [hstep i, ← hf]
    exact ⟨since_append _ _ _ s1, s4⟩
  · rw [update_calls, hcc]
    simp [List.countP_cons, n1, a1, c1, call.is_solve_static]
  · ring

/-! ## Walking -/

theorem gb_loop_eq (g : cgrid) (keys : List Nat) (buffer : List mesh) :
    world.gb_loop g keys buffer =
      buffer ++ (keys.map fun key => g.get_chunk key).filter fun chunk =>
        decide (0 < chunk.vertex.length) := by
  induction keys generalizing buffer with
  | nil => simp [world.gb_loop]
  | cons key keys ih =>
    simp only [world.gb_loop, List.map_cons]
    by_cases hk : (g.get_chunk key).vertex.length > 0
    · rw [if_pos hk, ih, List.filter_cons_of_pos (by simpa using hk)]
      simp
    · rw [if_neg hk, ih, List.filter_cons_of_neg (by simpa using hk)]

theorem vertex_count_filter (ms : List mesh) :
    world.vertex_count (ms.filter fun chunk => decide (0 < chunk.vertex.length)) =
      (ms.map fun m => m.vertex.length).sum := by
  induction ms with
  | nil => rfl
  | cons m ms ih =>
    by_cases hm : 0 < m.vertex.length
    · rw [List.filter_cons_of_pos (by simpa using hm)]
      simp only [world.vertex_count, List.map_cons, List.sum_cons] at ih ⊢
      rw [ih]
    · rw [List.filter_cons_of_neg (by simpa using hm)]
      have h0 : m.vertex.length = 0 := by omega
      simp only [List.map_cons, List.sum_cons, h0, zero_add]
      exact ih

/-- C16: `generate_gb` clears the geometry buffer and refills it from the
current view chunks of the grid alone. The loop over the view chunk keys
leaves exactly the meshes of the view chunks that have vertices, in view
order, whatever the buffer held before; the vertex count is the sum of the
vertex counts of all view chunks. Hence two runs over the same grid (no grid
mutation and no view window change in between) add the same meshes, make the
same calls and leave the same vertex and index counts; a second run right
after the first changes nothing in the buffer. -/
theorem generate_gb_idempotent (w v : world) (h : v._grid = w._grid) :
    w.generate_gb._gb = world.view_meshes w._grid ∧
      (∀ stale : List mesh,
        (world.generate_gb { w with _gb := stale })._gb = world.view_meshes w._grid) ∧
      world.vertex_count w.generate_gb._gb =
        ((w._grid.get_view_chunks.map fun key => w._grid.get_chunk key).map
          fun m => m.vertex.length).sum ∧
      world.since w w.generate_gb =
        [call.gb_clear] ++ (world.view_meshes w._grid).map call.gb_add_mesh ++
          [call.gb_bind, call.gb_upload] ∧
      v.generate_gb._gb = w.generate_gb._gb ∧
      world.since v v.generate_gb = world.since w w.generate_gb ∧
      world.vertex_count v.generate_gb._gb = world.vertex_count w.generate_gb._gb ∧
      world.index_count v.generate_gb._gb = world.index_count w.generate_gb._gb ∧
      w.generate_gb.generate_gb._gb = w.generate_gb._gb ∧
      world.vertex_count w.generate_gb.generate_gb._gb =
        world.vertex_count w.generate_gb._gb ∧
      world.index_count w.generate_gb.generate_gb._gb =
        world.index_count w.generate_gb._gb := by
  have hview : ∀ g : cgrid, world.gb_meshes g = world.view_meshes g := by
    intro g
    unfold world.gb_meshes world.view_meshes
    rw [gb_loop_eq]
    rfl
  have hgb : ∀ u : world, u.generate_gb._gb = world.view_meshes u._grid :=
    fun u => hview u._grid
  have hw : world.since w w.generate_gb = world.gb_calls w._grid :=
    since_append _ _ _ (generate_gb_calls w)
  have hv : world.since v v.generate_gb = world.gb_calls v._grid :=
    since_append _ _ _ (generate_gb_calls v)
  have e : v.generate_gb._gb = w.generate_gb._gb := by
    rw [hgb v, hgb w, h]
  have e2 : w.generate_gb.generate_gb._gb = w.generate_gb._gb := by
    rw [hgb w.generate_gb, hgb w]
    rfl
  refine ⟨hgb w, fun stale => hgb { w with _gb := stale }, ?_, ?_, e, ?_, by rw [e],
    by rw [e], e2, by rw [e2], by rw [e2]⟩
  · rw [hgb w]
    exact vertex_count_filter _
  · rw [hw]
    unfold world.gb_calls
    rw [hview]
  · rw [hw, hv, h]

/-- C16 on a sample world whose view window has three chunks, two of them
with three vertices each, and whose geometry buffer starts with a stale mesh:
the first rebuild leaves the two meshes (six vertices, six indices) and a
second rebuild right after it leaves the same. -/
theorem generate_gb_idempotent_witness :
    sample.meshed._gb.length = 1 ∧
      sample.meshed.generate_gb._gb.length = 2 ∧
      world.vertex_count sample.meshed.generate_gb._gb = 6 ∧
      world.index_count sample.meshed.generate_gb._gb = 6 ∧
      sample.meshed.generate_gb.generate_gb._gb = sample.meshed.generate_gb._gb ∧
      world.vertex_count sample.meshed.generate_gb.generate_gb._gb = 6 ∧
      world.since sample.meshed.generate_gb sample.meshed.generate_gb.generate_gb =
        world.since sample.meshed sample.meshed.generate_gb := by
  have t := generate_gb_idempotent sample.meshed sample.meshed.generate_gb rfl
  refine ⟨by decide!, by decide!, by decide!, by decide!, t.2.2.2.2.1, ?_, t.2.2.2.2.2.1⟩
  rw [t.2.2.2.2.2.2.1]
  decide!

/-! ## The block destroyed by a grappling hit -/

theorem set_geometry_unit_other (g : cgrid) (start : vec3 ℚ) (offset : vec3 Int) (id : Int)
    (c : vec3 Int) (hc : c ≠ cgrid.cell start) :
    (g.set_geometry start ⟨1, 1, 1⟩ offset id).1.voxel c = g.voxel c := by
  simp only [cgrid.set_geometry, box_points_unit, List.foldl_cons, List.foldl_nil,
    cgrid.write_cell]
  split_ifs <;> simp [hc]

theorem generate_pb_calls (w : world) :
    w.generate_pb.calls = w.calls ++ world.pb_calls w.generate_pb._pb := rfl

theorem pb_calls_filter (boxes : List mesh) :
    (world.pb_calls boxes).filter call.is_set_geometry = [] ∧
      (world.pb_calls boxes).filter call.is_path_step = [] := by
  constructor <;>
  · rw [List.filter_eq_nil_iff]
    intro a ha
    simp only [world.pb_calls, List.mem_append, List.mem_cons, List.mem_map,
      List.mem_singleton, List.not_mem_nil, or_false] at ha
    rcases ha with (rfl | ⟨m, _, rfl⟩) | rfl | rfl <;>
      simp [call.is_set_geometry, call.is_path_step]

theorem gb_calls_filter (g : cgrid) :
    (world.gb_calls g).filter call.is_set_geometry = [] ∧
      (world.gb_calls g).filter call.is_path_step = [] := by
  constructor <;>
  · rw [List.filter_eq_nil_iff]
    intro a ha
    simp only [world.gb_calls, List.mem_append, List.mem_cons, List.mem_map,
      List.mem_singleton, List.not_mem_nil, or_false] at ha
    rcases ha with (rfl | ⟨m, _, rfl⟩) | rfl | rfl <;>
      simp [call.is_set_geometry, call.is_path_step]

theorem grid_value_solid (g : cgrid) (p : vec3 ℚ) (h : g.grid_value p ≠ -1) :
    g.inside (cgrid.cell p) = true ∧ g.voxel (cgrid.cell p) ≠ -1 := by
  unfold cgrid.grid_value at h
  by_cases hin : g.inside (cgrid.cell p) = true
  · rw [if_pos hin] at h
    exact ⟨hin, h⟩
  · rw [if_neg hin] at h
    exact absurd rfl h

/-- C21: on a grappling hit the placement scale is reset to `(1,1,1)` before
the removal, whatever it was and whether or not edit mode is on. The call
makes exactly one `set_geometry` write, of `-1`, at the snapped hit point
with scale `(1,1,1)`; that write visits the one cell of the hit point, so the
hit voxel reads `-1` afterwards and every other voxel is what it was; the
placement scale is `(1,1,1)` after the call. -/
theorem grappling_destroys_hit_block (M : min_lib) (w : world) (r : ray)
    (hit : w._grid.grid_value (w._grid.ray_trace_after r 100) ≠ -1) :
    (world.grappling M w r)._scale = ⟨1, 1, 1⟩ ∧
      (world.since w (world.grappling M w r)).filter call.is_set_geometry =
        [call.grid_set_geometry (world.snap (w._grid.ray_trace_after r 100)) ⟨1, 1, 1⟩
          w._cached_offset (-1)] ∧
      cgrid.box_points (world.snap (w._grid.ray_trace_after r 100)) ⟨1, 1, 1⟩
          w._cached_offset = [world.snap (w._grid.ray_trace_after r 100)] ∧
      cgrid.cell (world.snap (w._grid.ray_trace_after r 100)) =
        cgrid.cell (w._grid.ray_trace_after r 100) ∧
      (world.grappling M w r)._grid.grid_value (w._grid.ray_trace_after r 100) = -1 ∧
      (∀ c : vec3 Int, c ≠ cgrid.cell (w._grid.ray_trace_after r 100) →
        (world.grappling M w r)._grid.voxel c = w._grid.voxel c) ∧
      (world.grappling M w r)._edit_mode = w._edit_mode := by
  have hit1 : w._grid.grid_value (w.hit_point r) ≠ -1 := hit
  obtain ⟨hin, hsolid⟩ := grid_value_solid w._grid _ hit
  have hin1 : w._grid.inside (cgrid.cell (world.snap (w._grid.ray_trace_after r 100))) =
      true := by
    rw [cell_snap]; exact hin
  obtain ⟨u1, u2, _, u4⟩ := set_geometry_unit w._grid
    (world.snap (w._grid.ray_trace_after r 100)) w._cached_offset (-1) hin1
  have hrem : (world.removal
      (world.reset_scale
        (world.record { w with _character := w._character.add_force (w.grapple_force M r) }
          [call.body_add_force (w.grapple_force M r)]))
      (world.snap (w.hit_point r))).2 = 1 := by
    show (w._grid.set_geometry (world.snap (w._grid.ray_trace_after r 100)) ⟨1, 1, 1⟩
      w._cached_offset (-1)).2 = 1
    rw [u4, cell_snap]
    simp [hsolid]
  have e := grappling_hit M w r hit1
  have e2 := remove_block_removed M
    (world.reset_scale
      (world.record { w with _character := w._character.add_force (w.grapple_force M r) }
        [call.body_add_force (w.grapple_force M r)]))
    (w.hit_point r) r.origin (by rw [hrem]; decide)
  have hgrid : (world.grappling M w r)._grid =
      (w._grid.set_geometry (world.snap (w._grid.ray_trace_after r 100)) ⟨1, 1, 1⟩
        w._cached_offset (-1)).1 := by
    rw [e, remove_block_grid]
    rfl
  refine ⟨?_, ?_, box_points_unit _ _, cell_snap _, ?_, ?_, ?_⟩
  · rw [e, world.remove_block_scale]
    rfl
  · have hs : world.since w (world.grappling M w r) =
        call.body_add_force (w.grapple_force M r) ::
          (world.pb_calls
              (world.reset_scale
                (world.record
                  { w with _character := w._character.add_force (w.grapple_force M r) }
                  [call.body_add_force (w.grapple_force M r)]))._pb ++
            (call.grid_set_geometry (world.snap (w._grid.ray_trace_after r 100)) ⟨1, 1, 1⟩
                w._cached_offset (-1) ::
              (world.gb_calls
                  (w._grid.set_geometry (world.snap (w._grid.ray_trace_after r 100))
                    ⟨1, 1, 1⟩ w._cached_offset (-1)).1 ++
                [call.particles_load (w.hit_point r)
                  (M.normalize (r.origin.sub (w.hit_point r))) 5]))) := by
      apply since_append
      rw [e, e2]
      simp only [world.record, generate_gb_calls, world.reset_scale, generate_pb_calls]
      simp [world.removal, world.hit_point, world.generate_pb, world.record]
    rw [hs]
    simp [List.filter_cons, List.filter_append, (pb_calls_filter _).1, (gb_calls_filter _).1,
      call.is_set_geometry]
  · rw [hgrid]
    rw [cell_snap] at u1 hin1
    have hin3 : ((w._grid.set_geometry (world.snap (w._grid.ray_trace_after r 100)) ⟨1, 1, 1⟩
        w._cached_offset (-1)).1).inside (cgrid.cell (w._grid.ray_trace_after r 100)) =
        true := by
      rw [u2]; exact hin
    simp [cgrid.grid_value, hin3, u1]
  · intro c hc
    rw [hgrid]
    exact set_geometry_unit_other _ _ _ _ c (by rw [cell_snap]; exact hc)
  · rw [e, world.remove_block_edit_mode]
    rfl

/-- C21 on a sample world whose placement scale is `(3, 2, 4)` and whose
edit mode is off: after the hit the scale is `(1, 1, 1)`. -/
theorem grappling_destroys_hit_block_witness :
    sample.hooked_wide._scale = ⟨3, 2, 4⟩ ∧ sample.hooked_wide._edit_mode = false ∧
      (world.grappling sample.lib sample.hooked_wide sample.ray_down)._scale = ⟨1, 1, 1⟩ ∧
      (world.grappling sample.lib sample.hooked_wide sample.ray_down)._grid.grid_value
        (sample.hooked_wide._grid.ray_trace_after sample.ray_down 100) = -1 :=
  have t := grappling_destroys_hit_block sample.lib sample.hooked_wide sample.ray_down
    (by decide!)
  ⟨by decide!, by decide!, t.1, t.2.2.2.2.1⟩

/-! ## Snapping -/

theorem floor_half (z : ℤ) : ⌊(z : ℚ) + 1 / 2⌋ = z := by
  rw [Int.floor_int_add]
  norm_num

theorem abs_floor_half (x : ℚ) : |(⌊x⌋ : ℚ) + 1 / 2 - x| ≤ 1 / 2 := by
  have h1 : (⌊x⌋ : ℚ) ≤ x := Int.floor_le x
  have h2 : x < (⌊x⌋ : ℚ) + 1 := Int.lt_floor_add_one x
  rw [abs_le]
  constructor <;> linarith

/-- C23: for every point `p`, each coordinate of `snap(p)` is
`floor(p_i) + 0.5`, the centre of the unit cell that contains `p`: its floor
is `floor(p_i)`, it is at most `0.5` away from `p_i`, and snapping twice is
snapping once. -/
theorem snap_is_cell_centre (p : vec3 ℚ) :
    (world.snap p).x = (⌊p.x⌋ : ℚ) + 1 / 2 ∧ (world.snap p).y = (⌊p.y⌋ : ℚ) + 1 / 2 ∧
      (world.snap p).z = (⌊p.z⌋ : ℚ) + 1 / 2 ∧
    ⌊(world.snap p).x⌋ = ⌊p.x⌋ ∧ ⌊(world.snap p).y⌋ = ⌊p.y⌋ ∧
      ⌊(world.snap p).z⌋ = ⌊p.z⌋ ∧
    |(world.snap p).x - p.x| ≤ 1 / 2 ∧ |(world.snap p).y - p.y| ≤ 1 / 2 ∧
      |(world.snap p).z - p.z| ≤ 1 / 2 ∧
    world.snap (world.snap p) = world.snap p := by
  refine ⟨rfl, rfl, rfl, floor_half _, floor_half _, floor_half _, abs_floor_half _,
    abs_floor_half _, abs_floor_half _, ?_⟩
  simp only [world.snap, floor_half]

/-! ## The preview buffer -/

theorem pb_loop_z_eq (g : cgrid) (oz : Int) (n : Nat) (p : vec3 ℚ) (acc : List mesh) :
    (world.pb_loop_z g oz n p acc).1.x = p.x ∧ (world.pb_loop_z g oz n p acc).1.y = p.y ∧
      (world.pb_loop_z g oz n p acc).2 =
        acc ++ (List.range n).map fun (k : Nat) => g.atlas_box ⟨p.x, p.y, p.z + (k : ℚ) * (oz : ℚ)⟩ := by
  induction n generalizing p acc with
  | zero => simp [world.pb_loop_z]
  | succ n ih =>
    obtain ⟨i1, i2, i3⟩ := ih { p with z := p.z + (oz : ℚ) } (acc ++ [g.atlas_box p])
    refine ⟨i1, i2, ?_⟩
    show (world.pb_loop_z g oz n { p with z := p.z + (oz : ℚ) } (acc ++ [g.atlas_box p])).2 = _
    rw [i3, List.range_succ_eq_map]
    simp only [List.map_cons, List.map_map, List.append_assoc, List.singleton_append,
      Nat.cast_zero, zero_mul, add_zero]
    congr 2
    apply List.map_congr_left
    intro k _
    simp only [Function.comp, Nat.cast_succ]
    congr 2
    ring

theorem pb_loop_y_eq (g : cgrid) (oz : Int) (sz : Nat) (n : Nat) (p : vec3 ℚ)
    (acc : List mesh) :
    (world.pb_loop_y g oz sz n p acc).1.x = p.x ∧
      (world.pb_loop_y g oz sz n p acc).2 =
        acc ++ (List.range n).flatMap fun (j : Nat) =>
          (List.range sz).map fun (k : Nat) =>
            g.atlas_box ⟨p.x, p.y + (j : ℚ), 0 + (k : ℚ) * (oz : ℚ)⟩ := by
  induction n generalizing p acc with
  | zero => simp [world.pb_loop_y]
  | succ n ih =>
    obtain ⟨z1, z2, z3⟩ := pb_loop_z_eq g oz sz { p with z := 0 } acc
    obtain ⟨i1, i2⟩ := ih
      { (world.pb_loop_z g oz sz { p with z := 0 } acc).1 with
        y := (world.pb_loop_z g oz sz { p with z := 0 } acc).1.y + 1 }
      (world.pb_loop_z g oz sz { p with z := 0 } acc).2
    refine ⟨?_, ?_⟩
    · show (world.pb_loop_y g oz sz n _ _).1.x = _
      rw [i1]
      exact z1
    · show (world.pb_loop_y g oz sz n _ _).2 = _
      rw [i2, z3, List.range_succ_eq_map]
      simp only [List.flatMap_cons, List.flatMap_map, List.append_assoc, Nat.cast_zero,
        add_zero, z1, z2]
      congr 2
      apply List.flatMap_congr
      intro j _
      apply List.map_congr_left
      intro k _
      simp only [Function.comp, Nat.cast_succ]
      congr 2
      ring

theorem pb_loop_x_eq (g : cgrid) (ox oz : Int) (sy sz : Nat) (n : Nat) (p : vec3 ℚ)
    (acc : List mesh) :
    (world.pb_loop_x g ox oz sy sz n p acc).2 =
      acc ++ (List.range n).flatMap fun (i : Nat) =>
        (List.range sy).flatMap fun (j : Nat) =>
          (List.range sz).map fun (k : Nat) =>
            g.atlas_box ⟨p.x + (i : ℚ) * (ox : ℚ), 0 + (j : ℚ), 0 + (k : ℚ) * (oz : ℚ)⟩ := by
  induction n generalizing p acc with
  | zero => simp [world.pb_loop_x]
  | succ n ih =>
    obtain ⟨y1, y2⟩ := pb_loop_y_eq g oz sz sy { p with y := 0 } acc
    show (world.pb_loop_x g ox oz sy sz n _ _).2 = _
    rw [ih, y2, List.range_succ_eq_map]
    simp only [List.flatMap_cons, List.flatMap_map, List.append_assoc, Nat.cast_zero,
      zero_mul, add_zero, y1]
    congr 2
    apply List.flatMap_congr
    intro i _
    apply List.flatMap_congr
    intro j _
    apply List.map_congr_left
    intro k _
    simp only [Function.comp, Nat.cast_succ]
    congr 2
    ring

theorem length_flatMap_const {α β : Type} (l : List α) (f : α → List β) (c : Nat)
    (h : ∀ a, (f a).length = c) : (l.flatMap f).length = l.length * c := by
  induction l with
  | nil => simp
  | cons a l ih =>
    simp only [List.flatMap_cons, List.length_append, List.length_cons, ih, h a]
    ring

theorem length_preview_boxes (g : cgrid) (scale : vec3 Nat) (offset : vec3 Int) :
    (world.preview_boxes g scale offset).length = scale.x * scale.y * scale.z := by
  unfold world.preview_boxes
  rw [length_flatMap_const _ _ (scale.y * scale.z), List.length_range, Nat.mul_assoc]
  intro i
  rw [length_flatMap_const _ _ scale.z, List.length_range]
  intro j
  simp

/-- C25: `generate_pb` locks the preview offset to the cached offset and
rebuilds the preview buffer from scratch (its first call is the clear) with
exactly `scale.x * scale.y * scale.z` boxes, one at each position
`(i * offset.x, j, k * offset.z)` for `i < scale.x`, `j < scale.y`,
`k < scale.z`, in x major, y, z minor order; the y step is `1` whatever
`offset.y` is. -/
theorem generate_pb_boxes (w : world) :
    w.generate_pb._preview_offset = w._cached_offset ∧
      w.generate_pb._pb = world.preview_boxes w._grid w._scale w._cached_offset ∧
      w.generate_pb._pb.length = w._scale.x * w._scale.y * w._scale.z ∧
      world.since w w.generate_pb =
        [call.pb_clear] ++
          (world.preview_boxes w._grid w._scale w._cached_offset).map call.pb_add_mesh ++
          [call.pb_bind, call.pb_upload] ∧
      w.generate_pb._scale = w._scale ∧ w.generate_pb._cached_offset = w._cached_offset := by
  have hb : w.generate_pb._pb = world.preview_boxes w._grid w._scale w._cached_offset := by
    show (world.pb_loop_x w._grid w._cached_offset.x w._cached_offset.z w._scale.y w._scale.z
      w._scale.x ⟨0, 0, 0⟩ []).2 = _
    rw [pb_loop_x_eq]
    simp [world.preview_boxes]
  refine ⟨rfl, hb, ?_, ?_, rfl, rfl⟩
  · rw [hb, length_preview_boxes]
  · rw [← hb]
    exact since_append _ _ _ (generate_pb_calls w)

/-! ## AI mode -/

theorem remove_block_ai_mode (M : min_lib) (w : world) (p q : vec3 ℚ) :
    (world.remove_block M w p q)._ai_mode = w._ai_mode := by
  simp only [world.remove_block]
  split_ifs <;> rfl

theorem create_ai_mode (M : min_lib) (proto : cgrid) (path : ai_path)
    (state : vec3 ℚ × Bool) (grid_size chunk_size view_chunk_size : Nat) (w : world)
    (h : world.create M proto path state grid_size chunk_size view_chunk_size =
      Except.ok w) : w._ai_mode = false := by
  unfold world.create cgrid.create at h
  by_cases hd : grid_size % chunk_size = 0
  · simp only [hd, ne_eq, not_true_eq_false, if_false, Except.ok.injEq] at h
    subst h
    unfold world.character_load
    cases hs : state.2
    · simp only [Bool.not_false, if_true]
      show (world.remove_block M _ _ _)._ai_mode = false
      rw [remove_block_ai_mode]
      rfl
    · rfl
  · simp [hd] at h

theorem update_ai_counts (M : min_lib) (w : world) (cam : camera) (dt : ℚ) :
    (world.since w (world.update M w cam dt)).countP call.is_path_step =
        (if w._ai_mode then 1 else 0) ∧
      (world.since w (world.update M w cam dt)).countP call.is_add_force =
        (if w._ai_mode then 11 else 10) := by
  have hmap : ∀ (p : call → Bool) (ms : List mesh),
      (∀ m, p (call.gb_add_mesh m) = false) →
      (ms.map call.gb_add_mesh).countP p = 0 := by
    intro p ms hp
    rw [List.countP_eq_zero]
    intro a ha
    obtain ⟨m, _, rfl⟩ := List.mem_map.mp ha
    simp [hp m]
  have hphys : ∀ (n : Nat) (v : world),
      (world.physics_calls M dt n v).countP call.is_path_step = 0 ∧
        (world.physics_calls M dt n v).countP call.is_add_force = n := by
    intro n
    induction n with
    | zero => intro v; simp [world.physics_calls]
    | succ n ih =>
      intro v
      obtain ⟨i1, i2⟩ := ih (world.physics_step M v dt)
      simp [world.physics_calls, world.step_calls, List.countP_cons, i1, i2,
        call.is_path_step, call.is_add_force]
  have hcross : w.cross_calls.countP call.is_path_step = 0 ∧
      w.cross_calls.countP call.is_add_force = 0 := by
    unfold world.cross_calls
    split_ifs <;>
      simp [world.gb_calls, List.countP_cons, hmap, call.is_path_step, call.is_add_force]
  have hai : (world.ai_calls M w ⟨0, 2, 0⟩).countP call.is_path_step =
        (if w._ai_mode then 1 else 0) ∧
      (world.ai_calls M w ⟨0, 2, 0⟩).countP call.is_add_force =
        (if w._ai_mode then 1 else 0) := by
    unfold world.ai_calls
    split_ifs <;> simp [List.countP_cons, call.is_path_step, call.is_add_force]
  obtain ⟨_, hcc, _, _⟩ := pre_physics_eq M w
  obtain ⟨p1, p2⟩ := hphys 10 (world.pre_physics M w)
  rw [update_calls, hcc]
  constructor
  · simp [List.countP_cons, p1, hcross.1, hai.1, call.is_path_step]
  · simp only [List.countP_append, p2, hcross.2, hai.2]
    split_ifs <;> simp [List.countP_cons, call.is_add_force]

/-- C22: the AI force is applied only in AI mode. AI mode is off after
construction and `toggle_ai_mode` negates it. With AI mode off `character_ai`
returns its state, and a whole `update()` makes no navigator query and no
`add_force` beyond the ten friction forces. With AI mode on `character_ai`
queries the navigator once and adds the returned direction times `200` times
the mass. -/
theorem ai_force_only_in_ai_mode (M : min_lib) (proto : cgrid) (path : ai_path)
    (state : vec3 ℚ × Bool) (grid_size chunk_size view_chunk_size : Nat) (w0 : world)
    (h : world.create M proto path state grid_size chunk_size view_chunk_size =
      Except.ok w0) :
    w0._ai_mode = false ∧
    (∀ w : world, w.toggle_ai_mode = { w with _ai_mode := !w._ai_mode }) ∧
    (∀ (w : world) (cam : camera) (dt : ℚ) (dest : vec3 ℚ), w._ai_mode = false →
      world.character_ai M w dest = w ∧
        (world.since w (world.update M w cam dt)).countP call.is_path_step = 0 ∧
        (world.since w (world.update M w cam dt)).countP call.is_add_force = 10) ∧
    (∀ (w : world) (cam : camera) (dt : ℚ) (dest : vec3 ℚ), w._ai_mode = true →
      (world.character_ai M w dest)._character =
          w._character.add_force
            ⟨(w._path.step w._grid w.character_position dest
                  (M.magnitude (dest.sub w.character_position))).1.2.x * 200 *
                w._character.mass,
              (w._path.step w._grid w.character_position dest
                  (M.magnitude (dest.sub w.character_position))).1.2.y * 200 *
                w._character.mass,
              (w._path.step w._grid w.character_position dest
                  (M.magnitude (dest.sub w.character_position))).1.2.z * 200 *
                w._character.mass⟩ ∧
        world.since w (world.character_ai M w dest) =
          [call.path_step w.character_position dest
              (M.magnitude (dest.sub w.character_position)),
            call.body_add_force
              ((((w._path.step w._grid w.character_position dest
                  (M.magnitude (dest.sub w.character_position))).1.2).scale 200).scale
                w._character.mass)] ∧
        (world.since w (world.update M w cam dt)).countP call.is_path_step = 1 ∧
        (world.since w (world.update M w cam dt)).countP call.is_add_force = 11) := by
  refine ⟨create_ai_mode M proto path state grid_size chunk_size view_chunk_size w0 h,
    fun _ => rfl, ?_, ?_⟩
  · intro w cam dt dest hoff
    obtain ⟨c1, c2⟩ := update_ai_counts M w cam dt
    refine ⟨by simp [world.character_ai, hoff], ?_, ?_⟩
    · rw [c1]; simp [hoff]
    · rw [c2]; simp [hoff]
  · intro w cam dt dest hon
    obtain ⟨c1, c2⟩ := update_ai_counts M w cam dt
    obtain ⟨a1, _, _, _⟩ := character_ai_eq M w dest
    refine ⟨?_, ?_, ?_, ?_⟩
    · simp only [world.character_ai, hon, if_true]
      rfl
    · rw [since_append _ _ _ a1]
      simp [world.ai_calls, hon]
    · rw [c1]; simp [hon]
    · rw [c2]; simp [hon]

/-- C22 on the constructed sample world: AI mode is off, and after one
toggle `character_ai` towards `(0, 2, 0)` adds `(0, 1, 0) * 200 * 10`. -/
theorem ai_force_only_in_ai_mode_witness :
    sample.fresh._ai_mode = false ∧
      world.character_ai sample.lib sample.fresh ⟨0, 2, 0⟩ = sample.fresh ∧
      (world.character_ai sample.lib sample.fresh.toggle_ai_mode ⟨0, 2, 0⟩)._character.force =
        ⟨0, 2000, 0⟩ := by
  have t := ai_force_only_in_ai_mode sample.lib sample.grid sample.path sample.start 32 8 3
    sample.fresh create_sample
  refine ⟨t.1, (t.2.2.1 sample.fresh sample.cam_back 1 ⟨0, 2, 0⟩ t.1).1, ?_⟩
  rw [(t.2.2.2 sample.fresh.toggle_ai_mode sample.cam_back 1 ⟨0, 2, 0⟩ (by decide!)).1]
  decide!

/-! ## The facing offsets -/

theorem physics_loop_offsets (M : min_lib) (dt : ℚ) (n : Nat) (w : world) :
    (world.physics_loop M dt n w)._cached_offset = w._cached_offset ∧
      (world.physics_loop M dt n w)._preview_offset = w._preview_offset := by
  induction n generalizing w with
  | zero => exact ⟨rfl, rfl⟩
  | succ n ih => exact ih (world.physics_step M w dt)

theorem pre_physics_offsets (M : min_lib) (w : world) :
    (world.pre_physics M w)._cached_offset = w._cached_offset ∧
      (world.pre_physics M w)._preview_offset = w._preview_offset := by
  have ha : (world.character_ai M w ⟨0, 2, 0⟩)._cached_offset = w._cached_offset ∧
      (world.character_ai M w ⟨0, 2, 0⟩)._preview_offset = w._preview_offset := by
    simp only [world.character_ai]
    split_ifs <;> exact ⟨rfl, rfl⟩
  unfold world.pre_physics
  rw [cross_chunk_eq]
  split_ifs
  · exact ha
  · exact ha

theorem update_offsets (M : min_lib) (w : world) (cam : camera) (dt : ℚ) :
    (world.update M w cam dt)._cached_offset =
        ⟨if cam.forward.x ≥ 0 then 1 else -1, w._cached_offset.y,
          if cam.forward.z ≥ 0 then 1 else -1⟩ ∧
      (world.update M w cam dt)._preview_offset = w._preview_offset := by
  obtain ⟨l1, l2⟩ := physics_loop_offsets M dt 10 (world.pre_physics M w)
  obtain ⟨q1, q2⟩ := pre_physics_offsets M w
  constructor
  · show (⟨if cam.forward.x ≥ 0 then 1 else -1,
      (world.physics_loop M dt 10 (world.pre_physics M w))._cached_offset.y,
      if cam.forward.z ≥ 0 then 1 else -1⟩ : vec3 Int) = _
    rw [l1, q1]
  · show (world.physics_loop M dt 10 (world.pre_physics M w))._preview_offset = _
    rw [l2, q2]

/-- What a public operation does to the two offsets: the cached offset is
kept, or its x and z are set from a camera; the preview offset is kept or is
a copy of the cached offset. -/
theorem apply_offsets (M : min_lib) (w : world) (o : op) :
    ((o.apply M w)._cached_offset = w._cached_offset ∨
      ∃ cam : camera, (o.apply M w)._cached_offset =
        ⟨if cam.forward.x ≥ 0 then 1 else -1, w._cached_offset.y,
          if cam.forward.z ≥ 0 then 1 else -1⟩) ∧
    ((o.apply M w)._preview_offset = w._preview_offset ∨
      (o.apply M w)._preview_offset = (o.apply M w)._cached_offset) := by
  cases o with
  | add_block c => exact ⟨Or.inl rfl, Or.inl rfl⟩
  | add_block_ray r => exact ⟨Or.inl rfl, Or.inl rfl⟩
  | remove_block p q =>
    exact ⟨Or.inl (world.remove_block_cached_offset M w p q),
      Or.inl (world.remove_block_preview_offset M w p q)⟩
  | remove_block_ray r =>
    simp only [op.apply, world.remove_block_ray]
    split_ifs <;> exact ⟨Or.inl rfl, Or.inl rfl⟩
  | character_jump v =>
    simp only [op.apply, world.character_jump]
    split_ifs <;> exact ⟨Or.inl rfl, Or.inl rfl⟩
  | character_move v => exact ⟨Or.inl rfl, Or.inl rfl⟩
  | update cam dt =>
    obtain ⟨u1, u2⟩ := update_offsets M w cam dt
    exact ⟨Or.inr ⟨cam, u1⟩, Or.inl u2⟩
  | draw dt =>
    simp only [op.apply, world.draw]
    split_ifs <;> exact ⟨Or.inl rfl, Or.inl rfl⟩
  | reset_scale => exact ⟨Or.inl rfl, Or.inr rfl⟩
  | set_atlas_id id => exact ⟨Or.inl rfl, Or.inr rfl⟩
  | set_scale_x d =>
    simp only [op.apply, world.set_scale_x]
    split_ifs
    · exact ⟨Or.inl rfl, Or.inr rfl⟩
    · exact ⟨Or.inl rfl, Or.inr rfl⟩
    · exact ⟨Or.inl rfl, Or.inl rfl⟩
    · exact ⟨Or.inl rfl, Or.inl rfl⟩
  | set_scale_y d =>
    simp only [op.apply, world.set_scale_y]
    split_ifs
    · exact ⟨Or.inl rfl, Or.inr rfl⟩
    · exact ⟨Or.inl rfl, Or.inr rfl⟩
    · exact ⟨Or.inl rfl, Or.inl rfl⟩
    · exact ⟨Or.inl rfl, Or.inl rfl⟩
  | set_scale_z d =>
    simp only [op.apply, world.set_scale_z]
    split_ifs
    · exact ⟨Or.inl rfl, Or.inr rfl⟩
    · exact ⟨Or.inl rfl, Or.inr rfl⟩
    · exact ⟨Or.inl rfl, Or.inl rfl⟩
    · exact ⟨Or.inl rfl, Or.inl rfl⟩
  | toggle_edit_mode => exact ⟨Or.inl rfl, Or.inl rfl⟩
  | toggle_ai_mode => exact ⟨Or.inl rfl, Or.inl rfl⟩
  | grappling r =>
    by_cases hit : w._grid.grid_value (w.hit_point r) = -1
    · have e : op.apply M w (op.grappling r) = w := grappling_miss M w r hit
      rw [e]
      exact ⟨Or.inl rfl, Or.inl rfl⟩
    · have e : op.apply M w (op.grappling r) = _ := grappling_hit M w r hit
      rw [e, world.remove_block_cached_offset, world.remove_block_preview_offset]
      exact ⟨Or.inl rfl, Or.inr rfl⟩

theorem apply_facing (M : min_lib) (w : world) (o : op)
    (h : world.facing w._cached_offset ∧ world.facing w._preview_offset) :
    world.facing (o.apply M w)._cached_offset ∧
      world.facing (o.apply M w)._preview_offset := by
  obtain ⟨hc, hp⟩ := apply_offsets M w o
  have hc2 : world.facing (o.apply M w)._cached_offset := by
    rcases hc with e | ⟨cam, e⟩
    · rw [e]; exact h.1
    · rw [e]
      refine ⟨?_, h.1.2.1, ?_⟩
      · show (if cam.forward.x ≥ 0 then (1 : Int) else -1) = 1 ∨
          (if cam.forward.x ≥ 0 then (1 : Int) else -1) = -1
        by_cases hx : cam.forward.x ≥ 0
        · rw [if_pos hx]; exact Or.inl rfl
        · rw [if_neg hx]; exact Or.inr rfl
      · show (if cam.forward.z ≥ 0 then (1 : Int) else -1) = 1 ∨
          (if cam.forward.z ≥ 0 then (1 : Int) else -1) = -1
        by_cases hz : cam.forward.z ≥ 0
        · rw [if_pos hz]; exact Or.inl rfl
        · rw [if_neg hz]; exact Or.inr rfl
  refine ⟨hc2, ?_⟩
  rcases hp with e | e
  · rw [e]; exact h.2
  · rw [e]; exact hc2

theorem run_facing (M : min_lib) (ops : List op) (w : world)
    (h : world.facing w._cached_offset ∧ world.facing w._preview_offset) :
    world.facing (run M w ops)._cached_offset ∧
      world.facing (run M w ops)._preview_offset := by
  induction ops generalizing w with
  | nil => exact h
  | cons o rest ih => exact ih (o.apply M w) (apply_facing M w o h)

/-- C24: in every state reached from construction through the public
operations, the cached offset and the locked preview offset both have x and z
in `{-1, 1}` and y equal to `1`. `update_uniform` sets x and z to `1` when the
camera forward component is `>= 0` and to `-1` otherwise and never writes y;
every operation leaves the preview offset alone or makes it a copy of the
cached offset. Hence in such a state the y components agree and `set_scale_y`
never takes its regenerate-only branch. -/
theorem offsets_stay_facing (M : min_lib) (proto : cgrid) (path : ai_path)
    (state : vec3 ℚ × Bool) (grid_size chunk_size view_chunk_size : Nat) (w0 : world)
    (h : world.create M proto path state grid_size chunk_size view_chunk_size =
      Except.ok w0) (ops : List op) :
    world.facing (run M w0 ops)._cached_offset ∧
    world.facing (run M w0 ops)._preview_offset ∧
    (∀ (w : world) (cam : camera), (world.update_uniform M w cam)._cached_offset =
      ⟨if cam.forward.x ≥ 0 then 1 else -1, w._cached_offset.y,
        if cam.forward.z ≥ 0 then 1 else -1⟩) ∧
    (∀ (w : world) (o : op), (o.apply M w)._preview_offset = w._preview_offset ∨
      (o.apply M w)._preview_offset = (o.apply M w)._cached_offset) ∧
    (run M w0 ops)._cached_offset.y = (run M w0 ops)._preview_offset.y ∧
    (∀ dy : Nat, (run M w0 ops).set_scale_y dy =
      if (run M w0 ops)._edit_mode then
        if (run M w0 ops)._scale.y < 5 then
          world.generate_pb
            { run M w0 ops with
              _scale := { (run M w0 ops)._scale with
                y := ((run M w0 ops)._scale.y + dy) % 2 ^ 32 } }
        else run M w0 ops
      else run M w0 ops) := by
  obtain ⟨_, p2, p3, _⟩ := world.create_placement M proto path state grid_size
    chunk_size view_chunk_size w0 h
  have h0 : world.facing w0._cached_offset ∧ world.facing w0._preview_offset := by
    rw [p2, p3]
    exact ⟨⟨Or.inl rfl, rfl, Or.inl rfl⟩, ⟨Or.inl rfl, rfl, Or.inl rfl⟩⟩
  obtain ⟨f1, f2⟩ := run_facing M ops w0 h0
  have hy : (run M w0 ops)._cached_offset.y = (run M w0 ops)._preview_offset.y := by
    rw [f1.2.1, f2.2.1]
  refine ⟨f1, f2, fun _ _ => rfl, fun w o => (apply_offsets M w o).2, hy, ?_⟩
  intro dy
  simp only [world.set_scale_y, hy, ne_eq, not_true_eq_false, if_false]

/-- C24 on the constructed sample world after a frame with the camera turned
to negative z. -/
theorem offsets_stay_facing_witness :
    world.facing
        (run sample.lib sample.fresh
          [op.toggle_edit_mode, op.update sample.cam_back (1/60)])._cached_offset ∧
      (run sample.lib sample.fresh
          [op.toggle_edit_mode, op.update sample.cam_back (1/60)])._cached_offset =
        ⟨1, 1, -1⟩ :=
  ⟨(offsets_stay_facing sample.lib sample.grid sample.path sample.start 32 8 3
      sample.fresh create_sample [op.toggle_edit_mode, op.update sample.cam_back (1/60)]).1,
    by decide!⟩

/-! ## Experience and stat points -/

theorem update_cache_frame (L : std_lib) (s : stats) :
    (stats.update_cache L s)._stat = s._stat ∧
      (stats.update_cache L s)._stat_points = s._stat_points ∧
      (stats.update_cache L s)._exp = s._exp ∧
      (stats.update_cache L s)._dead = s._dead ∧
      (stats.update_cache L s)._health = s._health ∧
      (stats.update_cache L s)._energy = s._energy :=
  ⟨rfl, rfl, rfl, rfl, rfl, rfl⟩

theorem stat_sum_update (s : stats) (index : Fin 7) (v : Nat) :
    stats.stat_sum { s with _stat := Function.update s._stat index v } + s._stat index =
      s.stat_sum + v := by
  unfold stats.stat_sum
  fin_cases index <;> simp [Function.update] <;> omega

/-- C27 as stated fails at the top of the `uint16_t` range: with one stat
point and power `65535`, `set_point(0)` wraps the stat to `0`; stat points
plus the sum of the stats drops from `65550` to `14`. -/
theorem set_point_wraps_stat :
    sample.maxed._stat_points = 1 ∧ sample.maxed._stat 0 = 65535 ∧
      (stats.set_point sample.std sample.maxed 0)._stat 0 = 0 ∧
      (stats.set_point sample.std sample.maxed 0)._stat 0 ≠ sample.maxed._stat 0 + 1 ∧
      sample.maxed._stat_points + sample.maxed.stat_sum = 65550 ∧
      (stats.set_point sample.std sample.maxed 0)._stat_points +
        (stats.set_point sample.std sample.maxed 0).stat_sum = 14 := by
  refine ⟨?_, ?_, ?_, ?_, ?_, ?_⟩ <;> decide!

/-- C27 (amended): `set_point(index)` for `index < 7`. With no stat points
the whole state is unchanged. With `stat_points > 0` the stat points drop by
exactly `1`, `stat[index]` becomes `stat[index] + 1` in `uint16_t` arithmetic,
every other stat is unchanged and dirty is set; when `stat[index]` was below
`65535` it rises by exactly `1` and stat points plus the sum of all stats is
preserved. -/
theorem set_point_spends_one (L : std_lib) (s : stats) (index : Fin 7) :
    (s._stat_points = 0 → stats.set_point L s index = s) ∧
    (s._stat_points > 0 →
      (stats.set_point L s index)._stat_points = s._stat_points - 1 ∧
        (stats.set_point L s index)._stat index = (s._stat index + 1) % 2 ^ 16 ∧
        (∀ j : Fin 7, j ≠ index → (stats.set_point L s index)._stat j = s._stat j) ∧
        (stats.set_point L s index)._dirty = true ∧
        (s._stat index < 65535 →
          (stats.set_point L s index)._stat index = s._stat index + 1 ∧
          (stats.set_point L s index)._stat_points + (stats.set_point L s index).stat_sum =
            s._stat_points + s.stat_sum)) := by
  constructor
  · intro h0
    simp [stats.set_point, h0]
  · intro hpos
    have hst : (stats.set_point L s index)._stat =
        Function.update s._stat index ((s._stat index + 1) % 2 ^ 16) := by
      simp only [stats.set_point, if_pos hpos]
      split_ifs <;> rfl
    have hpt : (stats.set_point L s index)._stat_points = s._stat_points - 1 := by
      simp only [stats.set_point, if_pos hpos]
      split_ifs <;> rfl
    have hd : (stats.set_point L s index)._dirty = true := by
      simp only [stats.set_point, if_pos hpos]
    refine ⟨hpt, by rw [hst]; simp, ?_, hd, ?_⟩
    · intro j hj
      rw [hst]
      simp [Function.update, hj]
    · intro hlt
      have hm : (s._stat index + 1) % 2 ^ 16 = s._stat index + 1 :=
        Nat.mod_eq_of_lt (by norm_num; omega)
      refine ⟨by rw [hst, Function.update_same, hm], ?_⟩
      have hsum : (stats.set_point L s index).stat_sum + s._stat index =
          s.stat_sum + (s._stat index + 1) := by
        have e := stat_sum_update s index (s._stat index + 1)
        have e2 : (stats.set_point L s index).stat_sum =
            stats.stat_sum { s with _stat := Function.update s._stat index (s._stat index + 1) } := by
          unfold stats.stat_sum
          rw [hst, hm]
        rw [e2]
        exact e
      rw [hpt]
      omega

/-- C27 (amended) on a new player: without stat points `set_point(2)` changes
nothing; with three stat points it leaves two and raises stat `2` from `5` to
`6`. -/
theorem set_point_spends_one_witness :
    stats.set_point sample.std sample.player 2 = sample.player ∧
      (stats.set_point sample.std sample.rich 2)._stat_points = sample.rich._stat_points - 1 ∧
      (stats.set_point sample.std sample.rich 2)._stat 2 = sample.rich._stat 2 + 1 :=
  ⟨(set_point_spends_one sample.std sample.player 2).1 (by decide!),
    ((set_point_spends_one sample.std sample.rich 2).2 (by decide!)).1,
    (((set_point_spends_one sample.std sample.rich 2).2 (by decide!)).2.2.2.2
      (by decide!)).1⟩

/-! ## The dead flag -/

theorem set_energy_dead (s : stats) (v : ℚ) : (s.set_energy v)._dead = s._dead := by
  simp only [stats.set_energy]
  split_ifs <;> rfl

theorem set_health_dead (s : stats) (v : ℚ) :
    (v ≤ 0 → (s.set_health v)._dead = true) ∧
      (s._dead = true → (s.set_health v)._dead = true) := by
  simp only [stats.set_health]
  constructor
  · intro hv
    rw [if_pos hv]
  · intro hd
    split_ifs <;> first | rfl | exact hd

theorem set_oxygen_dead (s : stats) (v : ℚ) :
    (v ≤ 0 → (s.set_oxygen v)._dead = true) ∧
      (s._dead = true → (s.set_oxygen v)._dead = true) := by
  simp only [stats.set_oxygen]
  constructor
  · intro hv
    rw [if_pos hv]
  · intro hd
    split_ifs <;> first | rfl | exact hd

theorem add_exp_dead (L : std_lib) (s : stats) (e : ℚ) :
    (stats.add_exp L s e)._dead = s._dead := by
  simp only [stats.add_exp]
  split_ifs <;> rfl

theorem regen_dead (s : stats) :
    s.regen_energy._dead = s._dead ∧ s.regen_health._dead = s._dead := by
  constructor
  · simp only [stats.regen_energy]
    split_ifs <;> rfl
  · simp only [stats.regen_health]
    split_ifs <;> rfl

theorem fill_dead (L : std_lib) (s : stats) (stat : Fin 7 → Nat)
    (energy exp health oxygen : ℚ) (points : Nat) :
    (health ≤ 0 ∨ oxygen ≤ 0 →
        (stats.fill L s stat energy exp health oxygen points)._dead = true) ∧
      (s._dead = true → (stats.fill L s stat energy exp health oxygen points)._dead = true) := by
  constructor
  · intro h
    show (stats.set_oxygen (stats.set_health _ health) oxygen)._dead = true
    rcases h with h | h
    · exact (set_oxygen_dead _ oxygen).2 ((set_health_dead _ health).1 h)
    · exact (set_oxygen_dead _ oxygen).1 h
  · intro hd
    show (stats.set_oxygen (stats.set_health _ health) oxygen)._dead = true
    apply (set_oxygen_dead _ oxygen).2
    apply (set_health_dead _ health).2
    rw [add_exp_dead, set_energy_dead]
    exact hd

theorem apply_dead (L : std_lib) (s : stats) (o : stats_op) (hr : o.is_respawn = false)
    (hd : s._dead = true) : (o.apply L s)._dead = true := by
  cases o with
  | respawn => simp [stats_op.is_respawn] at hr
  | add_exp e => show (stats.add_exp L s e)._dead = true; rw [add_exp_dead]; exact hd
  | add_oxygen v =>
    show (s.add_oxygen v)._dead = true
    simp only [stats.add_oxygen]
    split_ifs <;> exact hd
  | consume_health v => exact (set_health_dead _ _).2 hd
  | consume_oxygen => exact (set_oxygen_dead _ _).2 hd
  | damage v => exact (set_health_dead _ _).2 hd
  | fill st en ex he ox pts => exact (fill_dead L s st en ex he ox pts).2 hd
  | regen_energy => show s.regen_energy._dead = true; rw [(regen_dead s).1]; exact hd
  | regen_health => show s.regen_health._dead = true; rw [(regen_dead s).2]; exact hd
  | set_point i =>
    show (stats.set_point L s i)._dead = true
    simp only [stats.set_point]
    split_ifs <;> exact hd
  | consume_beam => show (s.set_energy _)._dead = true; rw [set_energy_dead]; exact hd
  | consume_charge => show (s.set_energy _)._dead = true; rw [set_energy_dead]; exact hd
  | consume_grapple => show (s.set_energy _)._dead = true; rw [set_energy_dead]; exact hd
  | consume_grenade => show (s.set_energy _)._dead = true; rw [set_energy_dead]; exact hd
  | consume_jet => show (s.set_energy _)._dead = true; rw [set_energy_dead]; exact hd
  | consume_missile => show (s.set_energy _)._dead = true; rw [set_energy_dead]; exact hd
  | consume_portal => show (s.set_energy _)._dead = true; rw [set_energy_dead]; exact hd
  | consume_scatter => show (s.set_energy _)._dead = true; rw [set_energy_dead]; exact hd
  | consume_thrust => show (s.set_energy _)._dead = true; rw [set_energy_dead]; exact hd
  | consume_energy e => show (s.set_energy _)._dead = true; rw [set_energy_dead]; exact hd
  | _ => exact hd

theorem run_dead (L : std_lib) (ops : List stats_op) (s : stats)
    (hr : ∀ o ∈ ops, o.is_respawn = false) (hd : s._dead = true) :
    (stats_run L s ops)._dead = true := by
  induction ops generalizing s with
  | nil => exact hd
  | cons o rest ih =>
    exact ih (o.apply L s) (fun q hq => hr q (List.mem_cons_of_mem o hq))
      (apply_dead L s o (hr o (List.mem_cons_self o rest)) hd)

/-- C28: the dead flag is a latch. It becomes true whenever `set_health` or
`set_oxygen` stores a value `<= 0`, also through `consume_health`, `damage`,
`consume_oxygen` and `fill`; once true, no public operation other than
`respawn` makes it false, in particular not `add_health` or `regen_health`,
and no sequence of such operations does; `respawn` clears it. -/
theorem dead_is_latch (L : std_lib) (s : stats) :
    (∀ v : ℚ, v ≤ 0 → (s.set_health v)._dead = true ∧ (s.set_oxygen v)._dead = true) ∧
    (∀ hit : ℚ, s._health - hit ≤ 0 → (s.consume_health hit)._dead = true) ∧
    (∀ amount : ℚ, s._health - (1 - s.get_damage_reduc) * amount ≤ 0 →
      (s.damage amount)._dead = true) ∧
    (s._oxygen - 1 / 1000 ≤ 0 → s.consume_oxygen._dead = true) ∧
    (∀ (stat : Fin 7 → Nat) (energy exp health oxygen : ℚ) (points : Nat),
      health ≤ 0 ∨ oxygen ≤ 0 →
        (stats.fill L s stat energy exp health oxygen points)._dead = true) ∧
    (∀ o : stats_op, o.is_respawn = false → s._dead = true → (o.apply L s)._dead = true) ∧
    (∀ ops : List stats_op, (∀ o ∈ ops, o.is_respawn = false) → s._dead = true →
      (stats_run L s ops)._dead = true) ∧
    (∀ health : ℚ, s._dead = true →
      (s.add_health health)._dead = true ∧ s.regen_health._dead = true) ∧
    s.respawn._dead = false := by
  refine ⟨?_, ?_, ?_, ?_, ?_, ?_, ?_, ?_, rfl⟩
  · intro v hv
    exact ⟨(set_health_dead s v).1 hv, (set_oxygen_dead s v).1 hv⟩
  · intro hit h
    exact (set_health_dead _ _).1 h
  · intro amount h
    exact (set_health_dead _ _).1 h
  · intro h
    exact (set_oxygen_dead _ _).1 h
  · intro stat energy exp health oxygen points h
    exact (fill_dead L s stat energy exp health oxygen points).1 h
  · intro o hr hd
    exact apply_dead L s o hr hd
  · intro ops hr hd
    exact run_dead L ops s hr hd
  · intro health hd
    exact ⟨hd, by rw [(regen_dead s).2]; exact hd⟩

/-- C28 on a new player (health `70`): a hit of `100` kills; adding `200`
health afterwards leaves health at `170` and the player dead; `respawn`
revives. -/
theorem dead_is_latch_witness :
    (sample.player.consume_health 100)._dead = true ∧
      ((sample.player.consume_health 100).add_health 200)._health = 170 ∧
      ((sample.player.consume_health 100).add_health 200)._dead = true ∧
      ((sample.player.consume_health 100).add_health 200).respawn._dead = false :=
  ⟨(dead_is_latch sample.std sample.player).2.1 100 (by decide!),
    by decide!,
    ((dead_is_latch sample.std (sample.player.consume_health 100)).2.2.2.2.2.2.2.1 200
      (by decide!)).1,
    (dead_is_latch sample.std ((sample.player.consume_health 100).add_health 200)).2.2.2.2.2.2.2.2⟩

/-! ## Regeneration -/

/-- C29: with non-negative regeneration and consumption rates,
`regen_energy` and `regen_health` never move the value across its maximum:
below the maximum the result lies between the old value and the maximum,
above it between the maximum and the old value, at the maximum the state is
unchanged; no field other than the value itself is modified. -/
theorem regen_stays_on_its_side (s : stats)
    (her : 0 ≤ s.get_energy_regen) (hec : 0 ≤ s.get_energy_consume)
    (hhr : 0 ≤ s.get_health_regen) (hhc : 0 ≤ s.get_health_consume) :
    ((s._energy < s.get_max_energy →
        s._energy ≤ s.regen_energy._energy ∧ s.regen_energy._energy ≤ s.get_max_energy) ∧
      (s._energy > s.get_max_energy →
        s.get_max_energy ≤ s.regen_energy._energy ∧ s.regen_energy._energy ≤ s._energy) ∧
      (s._energy = s.get_max_energy → s.regen_energy = s) ∧
      s.regen_energy = { s with _energy := s.regen_energy._energy }) ∧
    ((s._health < s.get_max_health →
        s._health ≤ s.regen_health._health ∧ s.regen_health._health ≤ s.get_max_health) ∧
      (s._health > s.get_max_health →
        s.get_max_health ≤ s.regen_health._health ∧ s.regen_health._health ≤ s._health) ∧
      (s._health = s.get_max_health → s.regen_health = s) ∧
      s.regen_health = { s with _health := s.regen_health._health }) := by
  constructor
  · refine ⟨?_, ?_, ?_, ?_⟩
    · intro h
      simp only [stats.regen_energy, if_pos h]
      split_ifs with h2
      · exact ⟨le_of_lt h, le_refl _⟩
      · exact ⟨by show s._energy ≤ s._energy + s.get_energy_regen; linarith,
          not_lt.mp h2⟩
    · intro h
      have hn : ¬ s._energy < s.get_max_energy := not_lt.mpr (le_of_lt h)
      simp only [stats.regen_energy, if_neg hn, if_pos h]
      split_ifs with h2
      · exact ⟨le_refl _, le_of_lt h⟩
      · exact ⟨not_lt.mp h2,
          by show s._energy - s.get_energy_consume ≤ s._energy; linarith⟩
    · intro h
      have hn1 : ¬ s._energy < s.get_max_energy := by rw [h]; exact lt_irrefl _
      have hn2 : ¬ s._energy > s.get_max_energy := by rw [h]; exact lt_irrefl _
      simp only [stats.regen_energy, if_neg hn1, if_neg hn2]
    · simp only [stats.regen_energy]
      split_ifs <;> rfl
  · refine ⟨?_, ?_, ?_, ?_⟩
    · intro h
      simp only [stats.regen_health, if_pos h]
      split_ifs with h2
      · exact ⟨le_of_lt h, le_refl _⟩
      · exact ⟨by show s._health ≤ s._health + s.get_health_regen; linarith,
          not_lt.mp h2⟩
    · intro h
      have hn : ¬ s._health < s.get_max_health := not_lt.mpr (le_of_lt h)
      simp only [stats.regen_health, if_neg hn, if_pos h]
      split_ifs with h2
      · exact ⟨le_refl _, le_of_lt h⟩
      · exact ⟨not_lt.mp h2,
          by show s._health - s.get_health_consume ≤ s._health; linarith⟩
    · intro h
      have hn1 : ¬ s._health < s.get_max_health := by rw [h]; exact lt_irrefl _
      have hn2 : ¬ s._health > s.get_max_health := by rw [h]; exact lt_irrefl _
      simp only [stats.regen_health, if_neg hn1, if_neg hn2]
    · simp only [stats.regen_health]
      split_ifs <;> rfl

/-- C29 on a new player, whose energy `10` and health `70` are below their
maxima. -/
theorem regen_stays_on_its_side_witness :
    (sample.player._energy ≤ sample.player.regen_energy._energy ∧
        sample.player.regen_energy._energy ≤ sample.player.get_max_energy) ∧
      (sample.player._health ≤ sample.player.regen_health._health ∧
        sample.player.regen_health._health ≤ sample.player.get_max_health) :=
  have t := regen_stays_on_its_side sample.player (by decide!) (by decide!) (by decide!)
    (by decide!)
  ⟨t.1.1 (by decide!), t.2.1 (by decide!)⟩

/-! ## Stream slots -/

theorem after_invariant (stream_dy : ℚ) (width height : Nat) (strs : Nat → String) (k : Nat) :
    (ui_text.after stream_dy width height strs k)._st.length = 10 ∧
      (ui_text.after stream_dy width height strs k).stream_index = k % 10 := by
  induction k with
  | zero => exact ⟨by simp [ui_text.after, ui_text.create, ui_text._max_stream], rfl⟩
  | succ k ih =>
    obtain ⟨i1, i2⟩ := ih
    constructor
    · show ((ui_text.after stream_dy width height strs k)._st.set _ _).length = 10
      rw [List.length_set]
      exact i1
    · show ((ui_text.after stream_dy width height strs k)._stream_old % ui_text._max_stream
        + 1) % ui_text._max_stream = (k + 1) % 10
      have : (ui_text.after stream_dy width height strs k)._stream_old % ui_text._max_stream =
          k % 10 := i2
      rw [this]
      simp only [ui_text._max_stream]
      omega

/-- C30: `add_stream_text` uses its ten stream slots round robin and never
indexes out of bounds. For every value of `_stream_old` the slot index
`(_stream_old %= 10)++` is below `10` and the text index `_stream + index`
lies in `[22, 32) = [_stream, _end)`; the call stores the text there, sets
the time of that slot to `1.0` and leaves the counter at `index + 1`. The
`k`-th call after construction (from `0`) writes slot `k mod 10`, which is
inside the ten element array. -/
theorem add_stream_text_round_robin (stream_dy : ℚ) (u : ui_text) (str : String) :
    ui_text._stream = 22 ∧ ui_text._end = 32 ∧
    u.stream_index < 10 ∧
    ui_text._stream ≤ ui_text._stream + u.stream_index ∧
    ui_text._stream + u.stream_index < ui_text._end ∧
    (ui_text.add_stream_text stream_dy u str)._stream_old = u.stream_index + 1 ∧
    (ui_text.add_stream_text stream_dy u str)._st = u._st.set u.stream_index 1 ∧
    (ui_text.add_stream_text stream_dy u str).text (ui_text._stream + u.stream_index) = str ∧
    (∀ (width height : Nat) (strs : Nat → String) (k : Nat),
      (ui_text.after stream_dy width height strs k).stream_index = k % 10 ∧
        (ui_text.after stream_dy width height strs k).stream_index <
          (ui_text.after stream_dy width height strs k)._st.length ∧
        (ui_text.after stream_dy width height strs (k + 1))._st[k % 10]? = some 1 ∧
        (ui_text.after stream_dy width height strs (k + 1)).text (22 + k % 10) = strs k) := by
  have hlt : u.stream_index < 10 := Nat.mod_lt _ (by decide)
  refine ⟨rfl, rfl, hlt, Nat.le_add_right _ _, ?_, rfl, rfl, ?_, ?_⟩
  · show 22 + u.stream_index < 32
    omega
  · simp [ui_text.add_stream_text, ui_text.stream_index]
  · intro width height strs k
    obtain ⟨i1, i2⟩ := after_invariant stream_dy width height strs k
    have hk : k % 10 < 10 := Nat.mod_lt _ (by decide)
    refine ⟨i2, by rw [i1, i2]; exact hk, ?_, ?_⟩
    · show ((ui_text.after stream_dy width height strs k)._st.set
        ((ui_text.after stream_dy width height strs k)._stream_old % ui_text._max_stream)
        ui_text._max_stream_time)[k % 10]? = some 1
      have : (ui_text.after stream_dy width height strs k)._stream_old % ui_text._max_stream =
          k % 10 := i2
      rw [this, List.getElem?_set_self (by rw [i1]; exact hk)]
      rfl
    · show (if 22 + k % 10 = ui_text._stream +
          (ui_text.after stream_dy width height strs k)._stream_old % ui_text._max_stream
        then strs k else _) = strs k
      have : (ui_text.after stream_dy width height strs k)._stream_old % ui_text._max_stream =
          k % 10 := i2
      rw [this]
      exact if_pos rfl

end game
